import Mathlib

/-!
# Root hub controller of the EHCI host-controller driver

A shallow embedding of `drivers/usb/usbehci_new/hub_controller.cpp`
(class `CHubController` and the factory `CreateHubController`).

* Addresses are natural numbers, `0` being `NULL`.
* `LONG m_Ref` is an integer kept inside the 32-bit signed range: the interlocked
  increment and decrement wrap around, and the `ULONG` a method returns is the
  same bit pattern read unsigned.
* Calls into the kernel (collaborators) are recorded in a trace of `Effect`s, in
  program order.
-/

namespace UsbEhci

/-! ## Machine-level types -/

/-- An address (`PVOID`, `PDEVICE_OBJECT`, `PDRIVER_OBJECT`, ...); `0` is `NULL`. -/
abbrev PVOID := Nat

/-- An `NTSTATUS`, kept as its 32-bit pattern. -/
abbrev NTSTATUS := Nat

/-- Modelled from the spec: the status codes are declared in the platform header
`ntstatus.h`, outside the sources. This is the spec's plain success result. -/
def STATUS_SUCCESS : NTSTATUS := 0x00000000

/-- Modelled from the spec: declared in `ntstatus.h`, outside the sources; the spec's
generic failure. -/
def STATUS_UNSUCCESSFUL : NTSTATUS := 0xC0000001

/-- Modelled from the spec: declared in `ntstatus.h`, outside the sources; the spec's
`Unimplemented`. -/
def STATUS_NOT_IMPLEMENTED : NTSTATUS := 0xC0000002

/-- Modelled from the spec: declared in `ntstatus.h`, outside the sources; the spec's
`InvalidRequest`. -/
def STATUS_INVALID_DEVICE_REQUEST : NTSTATUS := 0xC0000010

/-- Modelled from the spec: declared in `ntstatus.h`, outside the sources; the spec's
`ResourceExhausted`. -/
def STATUS_INSUFFICIENT_RESOURCES : NTSTATUS := 0xC000009A

/-- Modelled from the spec: declared in `ntstatus.h`, outside the sources; the spec's
`NotSupported`. -/
def STATUS_NOT_SUPPORTED : NTSTATUS := 0xC00000BB

/-- The macro `NT_SUCCESS(Status)`, that is `((NTSTATUS)(Status)) >= 0` on the signed
reading: the sign bit of the 32-bit pattern is clear. -/
def NT_SUCCESS (Status : NTSTATUS) : Bool := decide (Status % 4294967296 < 2147483648)

/-- The value a `LONG` holds after an interlocked increment or decrement produced `z`:
two's-complement wrap-around into `[-2^31, 2^31)`. -/
def wrapLONG (z : Int) : Int := (z + 2147483648) % 4294967296 - 2147483648

/-- The conversion `LONG -> ULONG` done by `return m_Ref;` in a method returning
`ULONG`: the value modulo `2^32`. -/
def asULONG (z : Int) : Nat := (z % 4294967296).toNat

/-- A counted string `UNICODE_STRING`. -/
structure UNICODE_STRING where
  Length : Nat
  MaximumLength : Nat
  Buffer : PVOID
deriving DecidableEq, Repr

/-- A `GUID`. -/
structure GUID where
  Data1 : Nat
  Data2 : Nat
  Data3 : Nat
  Data4 : List Nat
deriving DecidableEq, Repr

/-! ## The hub controller object -/

/-- The data members of `class CHubController` (hub_controller.cpp, lines 55-65). -/
structure CHubController where
  m_Ref : Int
  m_Controller : PVOID
  m_Hardware : PVOID
  m_IsRootHubDevice : Bool
  m_DeviceAddress : Nat
  m_PDODeviceNumber : Nat
  m_InterfaceEnabled : Bool
  m_HubDeviceInterfaceString : UNICODE_STRING
  m_HubControllerDeviceObject : PVOID
  m_DriverObject : PVOID
deriving DecidableEq, Repr

/-- Calls into the kernel and the hardware made by the hub controller, as they appear in
a trace, together with the two assignments to members whose place in the order of
events matters on the Remove path (`StoreInterfaceEnabled` for
`m_InterfaceEnabled = ...;`, `StoreHubControllerDeviceObject` for
`m_HubControllerDeviceObject = ...;`). -/
inductive Effect where
  | IoRegisterDeviceInterface (PhysicalDeviceObject : PVOID)
  | IoSetDeviceInterfaceState (SymbolicLinkName : UNICODE_STRING) (Enable : Bool)
  | RtlFreeUnicodeString (UnicodeString : UNICODE_STRING)
  | IoDeleteDevice (DeviceObject : PVOID)
  | IoCompleteRequest (Status : NTSTATUS)
  | RtlStringFromGUID (Guid : GUID)
  | IoCreateDevice (DeviceName : List Char)
  | GetDeviceDetails
  | ExAllocatePool (NumberOfBytes : Nat)
  | StoreInterfaceEnabled (Value : Bool)
  | StoreHubControllerDeviceObject (Value : PVOID)
deriving DecidableEq, Repr

/-- Method `CHubController::AddRef` (lines 20-24): interlocked increment of `m_Ref`, then
`return m_Ref;`. Gives the returned `ULONG` and the object afterwards. -/
def AddRef (o : CHubController) : Nat × CHubController :=
  let o1 := { o with m_Ref := wrapLONG (o.m_Ref + 1) }
  (asULONG o1.m_Ref, o1)

/-- The destructor `virtual ~CHubController(){}` (line 53): its body is empty, so it
makes no call. -/
def destructor (_o : CHubController) : List Effect := []

/-- What one `Release` call yields: the returned `ULONG`, the object afterwards (`none`
once `delete this` ran) and the calls made while destroying it. -/
structure ReleaseResult where
  ret : Nat
  obj : Option CHubController
  trace : List Effect
deriving DecidableEq, Repr

/-- Method `CHubController::Release` (lines 25-35): interlocked decrement; when `m_Ref` is then
zero, `delete this` (the destructor runs, the storage is given back) and `0` is
returned, otherwise `m_Ref` is returned. -/
def Release (o : CHubController) : ReleaseResult :=
  let o1 := { o with m_Ref := wrapLONG (o.m_Ref - 1) }
  if o1.m_Ref = 0 then
    { ret := 0, obj := none, trace := destructor o1 }
  else
    { ret := asULONG o1.m_Ref, obj := some o1, trace := [] }

/-- The constructor `CHubController(IUnknown *OuterUnknown){}` (line 52): the body is
empty and no member is initialised, so the object is the storage as `new` left it. -/
def construct (storage : CHubController) : CHubController := storage

/-- A block of storage for a `CHubController` with every byte zero. -/
def zeroFilled : CHubController :=
  { m_Ref := 0, m_Controller := 0, m_Hardware := 0, m_IsRootHubDevice := false,
    m_DeviceAddress := 0, m_PDODeviceNumber := 0, m_InterfaceEnabled := false,
    m_HubDeviceInterfaceString := { Length := 0, MaximumLength := 0, Buffer := 0 },
    m_HubControllerDeviceObject := 0, m_DriverObject := 0 }

/-- Modelled from the spec: the pool allocator `operator new (NonPagedPool, TAG_USBEHCI)`
is declared in a header outside the sources. The spec has the factory hand out an
object with refCount = 1 after its single `AddRef`, so the block it returns is
zero-filled. `pool` is the address of the block, `none` when the pool is exhausted. -/
def operatorNew (pool : Option PVOID) : Option (PVOID × CHubController) :=
  pool.map fun p => (p, zeroFilled)

/-- What `CreateHubController` yields: the status, the content of `*OutHcdController`
afterwards, and the object created (`none` when there is none). -/
structure CreateResult where
  Status : NTSTATUS
  OutHcdController : PVOID
  This : Option CHubController
deriving DecidableEq, Repr

/-- The factory `CreateHubController` (lines 1189-1221). `pool` is the outcome of the allocation,
`OutHcdController` the content of the caller's output slot before the call. -/
def CreateHubController (pool : Option PVOID) (OutHcdController : PVOID) : CreateResult :=
  match operatorNew pool with
  | none =>
    -- failed to allocate
    { Status := STATUS_INSUFFICIENT_RESOURCES, OutHcdController := OutHcdController,
      This := none }
  | some (p, storage) =>
    let This := construct storage
    -- add reference count
    let This := (AddRef This).2
    -- return result
    { Status := STATUS_SUCCESS, OutHcdController := p, This := some This }

/-- A call on the reference-counting interface. -/
inductive RefCall where
  | addRef
  | release
deriving DecidableEq, Repr

/-- One call on an object that is alive (`some`) or already destroyed (`none`). A
destroyed object stays destroyed: nothing is left to act on. -/
def refStep : Option CHubController → RefCall → Option CHubController
  | none, _ => none
  | some o, RefCall.addRef => some (AddRef o).2
  | some o, RefCall.release => (Release o).obj

/-- A finite sequence of `AddRef`/`Release` calls, made in order. -/
def refRun (s : Option CHubController) (calls : List RefCall) : Option CHubController :=
  calls.foldl refStep s

/-- Number of `AddRef` calls in a sequence. -/
def addRefs (calls : List RefCall) : Nat := calls.count RefCall.addRef

/-- Number of `Release` calls in a sequence. -/
def releases (calls : List RefCall) : Nat := calls.count RefCall.release

/-! ## Interface negotiation (`HandleQueryInterface`) -/

/-- Modelled from the spec: the identifier of the "hub services" family,
`USB_BUS_INTERFACE_HUB_GUID`, is declared in the bus-interface header `hubbusif.h`,
outside the sources. -/
def USB_BUS_INTERFACE_HUB_GUID : GUID :=
  { Data1 := 0xB2BB8C0A, Data2 := 0x5AB4, Data3 := 0x11D3,
    Data4 := [0xA8, 0xCD, 0x00, 0xC0, 0x4F, 0x68, 0x74, 0x7A] }

/-- Modelled from the spec: the identifier of the "device I/O services" family,
`USB_BUS_INTERFACE_USBDI_GUID`, is declared in the bus-interface header `usbbusif.h`,
outside the sources. -/
def USB_BUS_INTERFACE_USBDI_GUID : GUID :=
  { Data1 := 0xB1A96A13, Data2 := 0x3DE0, Data3 := 0x4574,
    Data4 := [0x9B, 0x01, 0xC0, 0x8F, 0xEA, 0xB3, 0x18, 0xD6] }

/-- The macro `IsEqualGUIDAligned(a, b)`: the two identifiers are equal. -/
def IsEqualGUIDAligned (a b : GUID) : Bool := decide (a = b)

/-- The functions of hub_controller.cpp whose addresses are put into the tables
(lines 604-885). -/
inductive BusFunction where
  | USBI_InterfaceReference
  | USBI_InterfaceDereference
  | USBHI_CreateUsbDevice
  | USBHI_InitializeUsbDevice
  | USBHI_GetUsbDescriptors
  | USBHI_RemoveUsbDevice
  | USBHI_RestoreUsbDevice
  | USBHI_GetPortHackFlags
  | USBHI_QueryDeviceInformation
  | USBHI_GetControllerInformation
  | USBHI_ControllerSelectiveSuspend
  | USBHI_GetExtendedHubInformation
  | USBHI_GetRootHubSymbolicName
  | USBHI_GetDeviceBusContext
  | USBHI_Initialize20Hub
  | USBHI_RootHubInitNotification
  | USBHI_FlushTransfers
  | USBHI_SetDeviceHandleData
  | USBDI_GetUSBDIVersion
  | USBDI_QueryBusTime
  | USBDI_SubmitIsoOutUrb
  | USBDI_QueryBusInformation
  | USBDI_IsDeviceHighSpeed
  | USBDI_EnumLogEntry
deriving DecidableEq, Repr

/-- The members of the caller's table, by name. The first five are the header both
families share (`Size`, `Version`, `BusContext`, `InterfaceReference`,
`InterfaceDereference`); then the members `HandleQueryInterface` assigns through
`PUSB_BUS_INTERFACE_HUB_V5`, then those it assigns through
`PUSB_BUS_INTERFACE_USBDI_V2`. The two structures are declared in headers outside the
sources; the table is addressed by member name only, and which members of the two
structures share storage is not part of this model. -/
inductive Member where
  | Size
  | Version
  | BusContext
  | InterfaceReference
  | InterfaceDereference
  | CreateUsbDevice
  | InitializeUsbDevice
  | GetUsbDescriptors
  | RemoveUsbDevice
  | RestoreUsbDevice
  | GetPortHackFlags
  | QueryDeviceInformation
  | GetControllerInformation
  | ControllerSelectiveSuspend
  | GetExtendedHubInformation
  | GetRootHubSymbolicName
  | GetDeviceBusContext
  | Initialize20Hub
  | RootHubInitNotification
  | FlushTransfers
  | SetDeviceHandleData
  | GetUSBDIVersion
  | QueryBusTime
  | SubmitIsoOutUrb
  | QueryBusInformation
  | IsDeviceHighSpeed
  | EnumLogEntry
deriving DecidableEq, Repr

/-- What a member of the table holds: a 16-bit number, an address, or the address of
one of the functions above. -/
inductive Cell where
  | ushort (n : Nat)
  | pointer (p : PVOID)
  | code (f : BusFunction)
deriving DecidableEq, Repr

/-- The caller's table (`IoStack->Parameters.QueryInterface.Interface`), read member by
member; what the caller left in it is arbitrary. -/
abbrev InterfaceBuffer := Member → Cell

/-- The table while it is being filled: its content and the members assigned so far,
in program order. -/
structure TableWriter where
  buffer : InterfaceBuffer
  written : List Member

/-- One assignment `Interface->m = c;`. -/
def TableWriter.store (w : TableWriter) (m : Member) (c : Cell) : TableWriter :=
  { buffer := fun x => if x = m then c else w.buffer x, written := w.written ++ [m] }

/-- The request parameters `IoStack->Parameters.QueryInterface`. -/
structure QueryInterfaceParameters where
  InterfaceType : GUID
  Size : Nat
  Version : Nat
  Interface : InterfaceBuffer

/-- What `HandleQueryInterface` yields: the status, the hub object afterwards, the
caller's table afterwards, the members assigned, and the kernel calls made. -/
structure QueryInterfaceResult where
  Status : NTSTATUS
  This : CHubController
  Interface : InterfaceBuffer
  written : List Member
  trace : List Effect

/-- The cumulative fill of the hub-services table, `HandleQueryInterface` lines 917-978:
one guarded block of assignments per interface version. -/
def fillHubTable (This : PVOID) (Size Version : Nat) (InterfaceHub : TableWriter) :
    TableWriter :=
  -- Interface version 0
  let InterfaceHub :=
    if Version ≥ 0 then
      InterfaceHub
        |>.store Member.Size (Cell.ushort Size)
        |>.store Member.BusContext (Cell.pointer This)
        |>.store Member.InterfaceReference (Cell.code BusFunction.USBI_InterfaceReference)
        |>.store Member.InterfaceDereference
            (Cell.code BusFunction.USBI_InterfaceDereference)
    else InterfaceHub
  -- Interface version 1
  let InterfaceHub :=
    if Version ≥ 1 then
      InterfaceHub
        |>.store Member.CreateUsbDevice (Cell.code BusFunction.USBHI_CreateUsbDevice)
        |>.store Member.InitializeUsbDevice (Cell.code BusFunction.USBHI_InitializeUsbDevice)
        |>.store Member.GetUsbDescriptors (Cell.code BusFunction.USBHI_GetUsbDescriptors)
        |>.store Member.RemoveUsbDevice (Cell.code BusFunction.USBHI_RemoveUsbDevice)
        |>.store Member.RestoreUsbDevice (Cell.code BusFunction.USBHI_RestoreUsbDevice)
        |>.store Member.GetPortHackFlags (Cell.code BusFunction.USBHI_GetPortHackFlags)
        |>.store Member.QueryDeviceInformation
            (Cell.code BusFunction.USBHI_QueryDeviceInformation)
    else InterfaceHub
  -- Interface version 2
  let InterfaceHub :=
    if Version ≥ 2 then
      InterfaceHub
        |>.store Member.GetControllerInformation
            (Cell.code BusFunction.USBHI_GetControllerInformation)
        |>.store Member.ControllerSelectiveSuspend
            (Cell.code BusFunction.USBHI_ControllerSelectiveSuspend)
        |>.store Member.GetExtendedHubInformation
            (Cell.code BusFunction.USBHI_GetExtendedHubInformation)
        |>.store Member.GetRootHubSymbolicName
            (Cell.code BusFunction.USBHI_GetRootHubSymbolicName)
        |>.store Member.GetDeviceBusContext (Cell.code BusFunction.USBHI_GetDeviceBusContext)
        |>.store Member.Initialize20Hub (Cell.code BusFunction.USBHI_Initialize20Hub)
    else InterfaceHub
  -- Interface version 3
  let InterfaceHub :=
    if Version ≥ 3 then
      InterfaceHub.store Member.RootHubInitNotification
        (Cell.code BusFunction.USBHI_RootHubInitNotification)
    else InterfaceHub
  -- Interface version 4
  let InterfaceHub :=
    if Version ≥ 4 then
      InterfaceHub.store Member.FlushTransfers (Cell.code BusFunction.USBHI_FlushTransfers)
    else InterfaceHub
  -- Interface version 5
  let InterfaceHub :=
    if Version ≥ 5 then
      InterfaceHub.store Member.SetDeviceHandleData
        (Cell.code BusFunction.USBHI_SetDeviceHandleData)
    else InterfaceHub
  InterfaceHub

/-- The cumulative fill of the device-I/O-services table, `HandleQueryInterface` lines
1006-1035: one guarded block of assignments per interface version. -/
def fillUsbdiTable (This : PVOID) (Size Version : Nat) (InterfaceDI : TableWriter) :
    TableWriter :=
  -- interface version 0
  let InterfaceDI :=
    if Version ≥ 0 then
      InterfaceDI
        |>.store Member.Size (Cell.ushort Size)
        |>.store Member.BusContext (Cell.pointer This)
        |>.store Member.InterfaceReference (Cell.code BusFunction.USBI_InterfaceReference)
        |>.store Member.InterfaceDereference
            (Cell.code BusFunction.USBI_InterfaceDereference)
        |>.store Member.GetUSBDIVersion (Cell.code BusFunction.USBDI_GetUSBDIVersion)
        |>.store Member.QueryBusTime (Cell.code BusFunction.USBDI_QueryBusTime)
        |>.store Member.SubmitIsoOutUrb (Cell.code BusFunction.USBDI_SubmitIsoOutUrb)
        |>.store Member.QueryBusInformation (Cell.code BusFunction.USBDI_QueryBusInformation)
    else InterfaceDI
  -- interface version 1
  let InterfaceDI :=
    if Version ≥ 1 then
      InterfaceDI.store Member.IsDeviceHighSpeed
        (Cell.code BusFunction.USBDI_IsDeviceHighSpeed)
    else InterfaceDI
  -- interface version 2
  let InterfaceDI :=
    if Version ≥ 2 then
      InterfaceDI.store Member.EnumLogEntry (Cell.code BusFunction.USBDI_EnumLogEntry)
    else InterfaceDI
  InterfaceDI

/-- Method `CHubController::HandleQueryInterface` (lines 887-1062). `This` is the address of
the hub object (`PVOID(this)`), `o` its members, `guidString` the outcome of
`RtlStringFromGUID` (status and string), used on the unknown-identifier path only. -/
def HandleQueryInterface (This : PVOID) (o : CHubController)
    (IoStack : QueryInterfaceParameters) (guidString : NTSTATUS × UNICODE_STRING) :
    QueryInterfaceResult :=
  let Interface : TableWriter := { buffer := IoStack.Interface, written := [] }
  if IsEqualGUIDAligned IoStack.InterfaceType USB_BUS_INTERFACE_HUB_GUID then
    -- get request parameters
    let InterfaceHub := Interface.store Member.Version (Cell.ushort IoStack.Version)
    -- check version
    if IoStack.Version ≥ 6 then
      -- version not supported
      { Status := STATUS_NOT_SUPPORTED, This := o, Interface := InterfaceHub.buffer,
        written := InterfaceHub.written, trace := [] }
    else
      let InterfaceHub := fillHubTable This IoStack.Size IoStack.Version InterfaceHub
      -- request completed
      { Status := STATUS_SUCCESS, This := o, Interface := InterfaceHub.buffer,
        written := InterfaceHub.written, trace := [] }
  else if IsEqualGUIDAligned IoStack.InterfaceType USB_BUS_INTERFACE_USBDI_GUID then
    -- get request parameters
    let InterfaceDI := Interface.store Member.Version (Cell.ushort IoStack.Version)
    -- check version
    if IoStack.Version ≥ 3 then
      -- version not supported
      { Status := STATUS_NOT_SUPPORTED, This := o, Interface := InterfaceDI.buffer,
        written := InterfaceDI.written, trace := [] }
    else
      let InterfaceDI := fillUsbdiTable This IoStack.Size IoStack.Version InterfaceDI
      -- request completed
      { Status := STATUS_SUCCESS, This := o, Interface := InterfaceDI.buffer,
        written := InterfaceDI.written, trace := [] }
  else
    -- convert guid to string
    let Status := guidString.1
    let GuidBuffer := guidString.2
    let trace :=
      if NT_SUCCESS Status then
        -- print interface, free guid buffer
        [Effect.RtlStringFromGUID IoStack.InterfaceType,
         Effect.RtlFreeUnicodeString GuidBuffer]
      else
        [Effect.RtlStringFromGUID IoStack.InterfaceType]
    { Status := STATUS_NOT_SUPPORTED, This := o, Interface := Interface.buffer,
      written := Interface.written, trace := trace }

/-- A caller's table holding leftovers: every member holds the number `0xCCCC`. -/
def staleTable : InterfaceBuffer := fun _ => Cell.ushort 0xCCCC

/-- A query for the table of family `g` at version `V`, of size `S`, into `buf`. -/
def queryFor (g : GUID) (V S : Nat) (buf : InterfaceBuffer) : QueryInterfaceParameters :=
  { InterfaceType := g, Size := S, Version := V, Interface := buf }

/-! ## Device-node creation (`CreatePDO`, `Initialize`) -/

/-- Modelled from the spec: declared in `ntstatus.h`, outside the sources; one of the two
"name already exists/collision" results. Its sign bit is clear (an informational
status). -/
def STATUS_OBJECT_NAME_EXISTS : NTSTATUS := 0x40000000

/-- Modelled from the spec: declared in `ntstatus.h`, outside the sources; the other
"name already exists/collision" result, a failure status. -/
def STATUS_OBJECT_NAME_COLLISION : NTSTATUS := 0xC0000035

/-- Modelled from the spec: the node's "initializing" flag `DO_DEVICE_INITIALIZING`,
declared in the platform header `wdm.h`, outside the sources. -/
def DO_DEVICE_INITIALIZING : Nat := 0x00000080

/-- The operator `~` on a 32-bit value. -/
def complement32 (x : Nat) : Nat := 4294967295 ^^^ (x % 4294967296)

/-- The members of `COMMON_DEVICE_EXTENSION` that `Initialize` assigns. -/
structure COMMON_DEVICE_EXTENSION where
  IsFDO : Bool
  IsHub : Bool
  Dispatcher : PVOID
deriving DecidableEq, Repr

/-- A device node (`DEVICE_OBJECT`): its `Flags` (a `ULONG`) and its extension. -/
structure DEVICE_OBJECT where
  Flags : Nat
  DeviceExtension : COMMON_DEVICE_EXTENSION
deriving DecidableEq, Repr

/-- The conversion `%d` of the C runtime's `swprintf`, applied to a `ULONG`: the 32-bit
value is read as a signed `int` and written in decimal. -/
def formatDecimal (n : Nat) : List Char :=
  if n % 4294967296 < 2147483648 then Nat.toDigits 10 (n % 4294967296)
  else '-' :: Nat.toDigits 10 (4294967296 - n % 4294967296)

/-- The name `swprintf(CharDeviceName, L"\\Device\\USBPDO-%d", UsbDeviceNumber)` builds
(`CreatePDO`, line 1132). -/
def deviceName (UsbDeviceNumber : Nat) : List Char :=
  "\\Device\\USBPDO-".toList ++ formatDecimal UsbDeviceNumber

/-- What one `IoCreateDevice` call yields: its status, the handle of the new node and
the node as created. The handle is stored through `OutDeviceObject` when the status
passes `NT_SUCCESS`. -/
structure IoCreateDeviceOutcome where
  Status : NTSTATUS
  DeviceObject : PVOID
  Device : DEVICE_OBJECT
deriving DecidableEq, Repr

/-- The device-node factory `IoCreateDevice`, as the hub controller sees it: the outcome
of the call number `i` (counted from 0) made with a given device name. -/
abbrev DeviceFactory := Nat → List Char → IoCreateDeviceOutcome

/-- What `CreatePDO` yields: the status, the content of `*OutDeviceObject` afterwards,
the node created by the last call when that call passed `NT_SUCCESS`, the local
`DeviceName` on exit (the name given to the last call), and the `IoCreateDevice`
calls made, in order. -/
structure CreatePDOResult where
  Status : NTSTATUS
  OutDeviceObject : PVOID
  Device : Option DEVICE_OBJECT
  DeviceName : List Char
  trace : List Effect
deriving DecidableEq, Repr

/-- The loop `while (TRUE)` of `CreatePDO` (lines 1127-1174). `calls` counts the
`IoCreateDevice` calls made so far, `UsbDeviceNumber` is the `ULONG` loop variable,
`OutDeviceObject` the content of the output slot, `trace` the calls made so far.
`fuel` bounds the number of iterations run; `none` means the bound was reached with
the loop still running. -/
def CreatePDOLoop (IoCreateDevice : DeviceFactory) :
    Nat → Nat → Nat → PVOID → List Effect → Option CreatePDOResult
  | 0, _, _, _, _ => none
  | fuel + 1, calls, UsbDeviceNumber, OutDeviceObject, trace =>
    -- construct device name
    let DeviceName := deviceName UsbDeviceNumber
    -- create device
    let outcome := IoCreateDevice calls DeviceName
    let Status := outcome.Status
    let trace := trace ++ [Effect.IoCreateDevice DeviceName]
    -- check for success
    if NT_SUCCESS Status then
      some { Status := Status, OutDeviceObject := outcome.DeviceObject,
             Device := some outcome.Device, DeviceName := DeviceName, trace := trace }
    -- is there a device object with that same name
    else if Status = STATUS_OBJECT_NAME_EXISTS ∨ Status = STATUS_OBJECT_NAME_COLLISION then
      -- Try the next name
      CreatePDOLoop IoCreateDevice fuel (calls + 1) ((UsbDeviceNumber + 1) % 4294967296)
        OutDeviceObject trace
    -- bail out on other errors
    else if ¬ NT_SUCCESS Status then
      some { Status := Status, OutDeviceObject := OutDeviceObject, Device := none,
             DeviceName := DeviceName, trace := trace }
    else
      CreatePDOLoop IoCreateDevice fuel calls UsbDeviceNumber OutDeviceObject trace

/-- Method `CHubController::CreatePDO` (lines 1117-1185): `UsbDeviceNumber` starts at 0.
`OutDeviceObject` is the content of the output slot before the call. -/
def CreatePDO (IoCreateDevice : DeviceFactory) (fuel : Nat) (OutDeviceObject : PVOID) :
    Option CreatePDOResult :=
  CreatePDOLoop IoCreateDevice fuel 0 0 OutDeviceObject []

/-- What `Initialize` yields: the status, the hub object afterwards, the device node
afterwards (when one was created) and the `IoCreateDevice` calls made. -/
structure InitializeResult where
  Status : NTSTATUS
  This : CHubController
  Device : Option DEVICE_OBJECT
  trace : List Effect
deriving DecidableEq, Repr

/-- The size of a pointer in bytes (`sizeof(PVOID)`) on the 64-bit target; it is 4 on
the 32-bit target. -/
def sizeofPointer : Nat := 8

/-- The conversion `PDISPATCHIRP(this)` (line 122): the address of the `IDispatchIrp`
part of the hub object. `CHubController` derives from `IHubController` first and from
`IDispatchIrp` second (lines 14-15), so the `IDispatchIrp` part follows the
`IHubController` part, which holds one pointer (to the virtual table). -/
def PDISPATCHIRP (This : PVOID) : PVOID := This + sizeofPointer

/-- Method `CHubController::Initialize` (lines 78-131). `This` is the address of the hub
object, `o` its members before the call. `none` means that the method gives no result:
the loop of `CreatePDO` is still running at the bound `fuel`, or `CreatePDO` passed
`NT_SUCCESS` with a null handle in `m_HubControllerDeviceObject`, which line 115
dereferences. -/
def Initialize (This : PVOID) (o : CHubController) (DriverObject Controller Device : PVOID)
    (IsRootHubDevice : Bool) (DeviceAddress : Nat) (IoCreateDevice : DeviceFactory)
    (fuel : Nat) : Option InitializeResult :=
  -- initialize members
  let o := { o with m_Controller := Controller, m_Hardware := Device,
                    m_IsRootHubDevice := IsRootHubDevice, m_DeviceAddress := DeviceAddress,
                    m_DriverObject := DriverObject }
  -- create PDO
  match CreatePDO IoCreateDevice fuel o.m_HubControllerDeviceObject with
  | none => none
  | some created =>
    let Status := created.Status
    let o := { o with m_HubControllerDeviceObject := created.OutDeviceObject }
    if ¬ NT_SUCCESS Status then
      -- failed to create hub device object
      some { Status := Status, This := o, Device := created.Device, trace := created.trace }
    else if o.m_HubControllerDeviceObject = 0 then
      -- get device extension: m_HubControllerDeviceObject->DeviceExtension at a null handle
      none
    else
      -- initialize device extension, clear init flag
      let Device := created.Device.map fun d =>
        { Flags := d.Flags &&& complement32 DO_DEVICE_INITIALIZING,
          DeviceExtension := { IsFDO := false, IsHub := true,
                               Dispatcher := PDISPATCHIRP This } }
      some { Status := STATUS_SUCCESS, This := o, Device := Device, trace := created.trace }

/-- Method `CHubController::GetHubControllerDeviceObject` (lines 134-143): gives the
status and the content of `*HubDeviceObject` afterwards. -/
def GetHubControllerDeviceObject (o : CHubController) (_HubDeviceObject : PVOID) :
    NTSTATUS × PVOID :=
  (STATUS_SUCCESS, o.m_HubControllerDeviceObject)

/-- A factory that answers the first `k` calls with the status `busy` and every later
call with the outcome `last`. -/
def scriptedFactory (busy : NTSTATUS) (k : Nat) (last : IoCreateDeviceOutcome) :
    DeviceFactory :=
  fun i _ =>
    if i < k then { Status := busy, DeviceObject := 0, Device := last.Device } else last

/-- A node as `IoCreateDevice` hands it out: the initializing flag and two other flag
bits set, the extension not yet filled in. -/
def freshNode : DEVICE_OBJECT :=
  { Flags := 0x000000C4, DeviceExtension := { IsFDO := true, IsHub := false, Dispatcher := 0 } }

/-! ## Lifecycle requests (`SetDeviceInterface`, `HandlePnp`) -/

/-- A wide character (`WCHAR`). -/
abbrev WCHAR := Char

/-- The terminator `UNICODE_NULL`. -/
def UNICODE_NULL : WCHAR := Char.ofNat 0

/-- The conversion `%04x` of the C runtime's `swprintf`: the number in lower-case
hexadecimal, padded on the left with `0` to at least four characters. -/
def formatHex04 (n : Nat) : List WCHAR :=
  let digits := Nat.toDigits 16 n
  List.replicate (4 - digits.length) '0' ++ digits

/-- Storing `text` into a buffer from position `Index` on. -/
def writeAt (Buffer : List WCHAR) (Index : Nat) (text : List WCHAR) : List WCHAR :=
  Buffer.take Index ++ text ++ Buffer.drop (Index + text.length)

/-- The call `swprintf(&Buffer[Index], ...)` once the format is expanded to `text`: the
text and its terminator are stored from `Index` on; the value returned is the number of
characters stored, the terminator not counted. -/
def swprintf (Buffer : List WCHAR) (Index : Nat) (text : List WCHAR) : List WCHAR × Nat :=
  (writeAt Buffer Index (text ++ [UNICODE_NULL]), text.length)

/-- The C runtime's `wcslen`: the number of characters before the first terminator. -/
def wcslen (Buffer : List WCHAR) : Nat :=
  (Buffer.takeWhile fun c => c ≠ UNICODE_NULL).length

/-- The C runtime's `wcscpy`, as the content of the destination: the characters before
the first terminator, and the terminator. -/
def wcscpy (Source : List WCHAR) : List WCHAR :=
  (Source.takeWhile fun c => c ≠ UNICODE_NULL) ++ [UNICODE_NULL]

/-- Modelled from the spec: the lifecycle minor codes are declared in the platform header
`wdm.h`, outside the sources. This one is the spec's `Start` event. -/
def IRP_MN_START_DEVICE : Nat := 0x00

/-- Modelled from the spec: declared in `wdm.h`, outside the sources; the spec's `Remove`
event. -/
def IRP_MN_REMOVE_DEVICE : Nat := 0x02

/-- Modelled from the spec: declared in `wdm.h`, outside the sources; the spec's `Stop`
event. -/
def IRP_MN_STOP_DEVICE : Nat := 0x04

/-- Modelled from the spec: declared in `wdm.h`, outside the sources; the spec's
`Query-Interface` event. -/
def IRP_MN_QUERY_INTERFACE : Nat := 0x08

/-- Modelled from the spec: declared in `wdm.h`, outside the sources; the spec's
`Query-Capabilities` event. -/
def IRP_MN_QUERY_CAPABILITIES : Nat := 0x09

/-- Modelled from the spec: declared in `wdm.h`, outside the sources; the event behind the
spec's `Query-Identity` and `Query-Hardware-Ids`. -/
def IRP_MN_QUERY_ID : Nat := 0x13

/-- Modelled from the spec: declared in `wdm.h`, outside the sources; the spec's
`Query-Bus-Information` event. -/
def IRP_MN_QUERY_BUS_INFORMATION : Nat := 0x15

/-- Modelled from the spec: the id type of the spec's `Query-Identity`, declared in
`wdm.h`, outside the sources. -/
def BusQueryDeviceID : Nat := 0

/-- Modelled from the spec: the id type of the spec's `Query-Hardware-Ids`, declared in
`wdm.h`, outside the sources. -/
def BusQueryHardwareIDs : Nat := 1

/-- Modelled from the spec: the "fixed USB bus-type identifier" `GUID_BUS_TYPE_USB`,
declared in the platform header `wdmguid.h`, outside the sources. -/
def GUID_BUS_TYPE_USB : GUID :=
  { Data1 := 0x9D7DEBBC, Data2 := 0xC85D, Data3 := 0x11D1,
    Data4 := [0x9E, 0xB4, 0x00, 0x60, 0x08, 0xC3, 0xA1, 0x9A] }

/-- Modelled from the spec: the legacy bus type `PNPBus` of `INTERFACE_TYPE`, declared in
`wdm.h`, outside the sources. -/
def PNPBus : Nat := 15

/-- Modelled from the spec: the device power state "unspecified" of `DEVICE_POWER_STATE`,
declared in `wdm.h`, outside the sources. -/
def PowerDeviceUnspecified : Nat := 0

/-- Modelled from the spec: the device power state D0, declared in `wdm.h`, outside the
sources. -/
def PowerDeviceD0 : Nat := 1

/-- Modelled from the spec: the device power state D3, declared in `wdm.h`, outside the
sources. -/
def PowerDeviceD3 : Nat := 4

/-- Modelled from the spec: the number of system power states `PowerSystemMaximum`,
declared in `wdm.h`, outside the sources. -/
def PowerSystemMaximum : Nat := 7

/-- The capabilities record `DEVICE_CAPABILITIES` (declared in `wdm.h`). -/
structure DEVICE_CAPABILITIES where
  Size : Nat
  Version : Nat
  DeviceD1 : Bool
  DeviceD2 : Bool
  LockSupported : Bool
  EjectSupported : Bool
  Removable : Bool
  DockDevice : Bool
  UniqueID : Bool
  SilentInstall : Bool
  RawDeviceOK : Bool
  SurpriseRemovalOK : Bool
  WakeFromD0 : Bool
  WakeFromD1 : Bool
  WakeFromD2 : Bool
  WakeFromD3 : Bool
  HardwareDisabled : Bool
  NonDynamic : Bool
  WarmEjectSupported : Bool
  NoDisplayInUI : Bool
  Address : Nat
  UINumber : Nat
  DeviceState : List Nat
  SystemWake : Nat
  DeviceWake : Nat
  D1Latency : Nat
  D2Latency : Nat
  D3Latency : Nat
deriving DecidableEq, Repr

/-- The record `PNP_BUS_INFORMATION`. -/
structure PNP_BUS_INFORMATION where
  BusTypeGuid : GUID
  LegacyBusType : Nat
  BusNumber : Nat
deriving DecidableEq, Repr

/-- What a block of pool memory handed to the caller holds. -/
inductive PoolContent where
  | wide (text : List WCHAR)
  | busInformation (info : PNP_BUS_INFORMATION)
deriving DecidableEq, Repr

/-- A block of pool memory: its address and what was stored in it. -/
structure PoolBlock where
  Address : PVOID
  Content : PoolContent
deriving DecidableEq, Repr

/-- The request's `IoStatus`. -/
structure IO_STATUS_BLOCK where
  Status : NTSTATUS
  Information : Nat
deriving DecidableEq, Repr

/-- The part of an `IRP` the handlers read and write. -/
structure IRP where
  IoStatus : IO_STATUS_BLOCK
deriving DecidableEq, Repr

/-- The current stack location of a lifecycle request: the minor code and the
parameters `HandlePnp` reads (`Parameters.QueryId.IdType`, the record behind
`Parameters.DeviceCapabilities.Capabilities`, `Parameters.QueryInterface`). -/
structure PnpStackLocation where
  MinorFunction : Nat
  IdType : Nat
  Capabilities : DEVICE_CAPABILITIES
  QueryInterface : QueryInterfaceParameters

/-- What `m_Hardware->GetDeviceDetails` yields: its status and the content of its four
output variables afterwards. -/
structure DeviceDetails where
  Status : NTSTATUS
  VendorID : Nat
  DeviceID : Nat
  NumPorts : Nat
  HiSpeed : Nat
deriving DecidableEq, Repr

/-- The outcomes of the collaborators during one request: the hardware query, the one
pool allocation (`0` is `NULL`), the interface registration (status and the string
left in `m_HubDeviceInterfaceString`), the one change of interface state, the content of
the string structure once freed, the rendering of an unknown GUID, and the content of
the local `WCHAR Buffer[300]` on entry. -/
structure PnpEnvironment where
  GetDeviceDetails : DeviceDetails
  ExAllocatePool : PVOID
  IoRegisterDeviceInterface : NTSTATUS × UNICODE_STRING
  IoSetDeviceInterfaceState : NTSTATUS
  RtlFreeUnicodeString : UNICODE_STRING
  RtlStringFromGUID : NTSTATUS × UNICODE_STRING
  Buffer : List WCHAR
deriving DecidableEq, Repr

/-- What `SetDeviceInterface` yields: the status, the hub object afterwards and the
events, in order. -/
structure SetDeviceInterfaceResult where
  Status : NTSTATUS
  This : CHubController
  trace : List Effect
deriving DecidableEq, Repr

/-- Method `CHubController::SetDeviceInterface` (lines 1064-1115). -/
def SetDeviceInterface (o : CHubController) (Enable : Bool) (env : PnpEnvironment) :
    SetDeviceInterfaceResult :=
  if Enable then
    -- register device interface
    let Status := env.IoRegisterDeviceInterface.1
    let trace := [Effect.IoRegisterDeviceInterface o.m_HubControllerDeviceObject]
    let o := { o with m_HubDeviceInterfaceString := env.IoRegisterDeviceInterface.2 }
    if NT_SUCCESS Status then
      -- now enable the device interface
      let Status := env.IoSetDeviceInterfaceState
      let trace := trace ++ [Effect.IoSetDeviceInterfaceState o.m_HubDeviceInterfaceString true]
      -- enable interface
      let o := { o with m_InterfaceEnabled := true }
      { Status := Status, This := o, trace := trace ++ [Effect.StoreInterfaceEnabled true] }
    else
      { Status := Status, This := o, trace := trace }
  else if o.m_InterfaceEnabled then
    -- disable device interface
    let Status := env.IoSetDeviceInterfaceState
    let trace := [Effect.IoSetDeviceInterfaceState o.m_HubDeviceInterfaceString false]
    if NT_SUCCESS Status then
      -- now delete interface string
      let trace := trace ++ [Effect.RtlFreeUnicodeString o.m_HubDeviceInterfaceString]
      let o := { o with m_HubDeviceInterfaceString := env.RtlFreeUnicodeString }
      -- disable interface
      let o := { o with m_InterfaceEnabled := false }
      { Status := Status, This := o, trace := trace ++ [Effect.StoreInterfaceEnabled false] }
    else
      -- disable interface
      let o := { o with m_InterfaceEnabled := false }
      { Status := Status, This := o, trace := trace ++ [Effect.StoreInterfaceEnabled false] }
  else
    { Status := STATUS_SUCCESS, This := o, trace := [] }

/-- What `HandlePnp` yields: the status returned, the hub object, the request, the
caller's capabilities record and interface table afterwards (with the table members
assigned), the pool block handed to the caller, if any, and the events, in order. -/
structure PnpResult where
  Status : NTSTATUS
  This : CHubController
  Irp : IRP
  Capabilities : DEVICE_CAPABILITIES
  Interface : InterfaceBuffer
  written : List Member
  allocated : Option PoolBlock
  trace : List Effect

/-- The common exit of `HandlePnp` (lines 450-459): `Irp->IoStatus.Status = Status;
IoCompleteRequest(Irp, IO_NO_INCREMENT); return Status;`. -/
def completeRequest (Status : NTSTATUS) (r : PnpResult) : PnpResult :=
  { r with Status := Status,
           Irp := { IoStatus := { r.Irp.IoStatus with Status := Status } },
           trace := r.trace ++ [Effect.IoCompleteRequest Status] }

/-- The capabilities record as the `IRP_MN_QUERY_CAPABILITIES` case leaves it
(`HandlePnp`, lines 334-355). The members are listed in the order of the assignments;
`DeviceState[0]` is assigned first and the loop over all `PowerSystemMaximum` entries
runs after it. -/
def fillCapabilities (DeviceCapabilities : DEVICE_CAPABILITIES) : DEVICE_CAPABILITIES :=
  -- DeviceCapabilities->DeviceState[0] = PowerDeviceD0;
  let DeviceState := DeviceCapabilities.DeviceState.set 0 PowerDeviceD0
  -- for (Index = 0; Index < PowerSystemMaximum; Index++) DeviceState[Index] = PowerDeviceD3;
  let DeviceState :=
    (List.range PowerSystemMaximum).foldl (fun st Index => st.set Index PowerDeviceD3)
      DeviceState
  { DeviceCapabilities with
    LockSupported := false
    EjectSupported := false
    Removable := false
    DockDevice := false
    UniqueID := false
    SilentInstall := false
    RawDeviceOK := false
    SurpriseRemovalOK := false
    Address := 0
    UINumber := 0
    DeviceD2 := true
    HardwareDisabled := false
    NoDisplayInUI := false
    DeviceState := DeviceState
    DeviceWake := PowerDeviceUnspecified
    D1Latency := 0
    D2Latency := 0
    D3Latency := 0 }

/-- The multi-string the `BusQueryHardwareIDs` case builds in its local buffer
(`HandlePnp`, lines 273-293): three `swprintf` calls, each advancing `Index` past the
terminator, then `Buffer[Index] = UNICODE_NULL; Index++;`. Gives the buffer and `Index`
afterwards. -/
def buildHardwareIds (Buffer : List WCHAR) (HiSpeed VendorID DeviceID : Nat) :
    List WCHAR × Nat :=
  let Index := 0
  let filled :=
    if HiSpeed ≠ 0 then
      -- USB 2.0 hub
      let p := swprintf Buffer Index
        ("USB\\ROOT_HUB20&VID".toList ++ formatHex04 VendorID ++ "&PID".toList
          ++ formatHex04 DeviceID ++ "&REV0000".toList)
      let Index := Index + (p.2 + 1)
      let p := swprintf p.1 Index
        ("USB\\ROOT_HUB20&VID".toList ++ formatHex04 VendorID ++ "&PID".toList
          ++ formatHex04 DeviceID)
      let Index := Index + (p.2 + 1)
      let p := swprintf p.1 Index "USB\\ROOT_HUB20".toList
      let Index := Index + (p.2 + 1)
      (p.1, Index)
    else
      -- USB 1.1 hub
      let p := swprintf Buffer Index
        ("USB\\ROOT_HUB&VID".toList ++ formatHex04 VendorID ++ "&PID".toList
          ++ formatHex04 DeviceID ++ "&REV0000".toList)
      let Index := Index + (p.2 + 1)
      let p := swprintf p.1 Index
        ("USB\\ROOT_HUB&VID".toList ++ formatHex04 VendorID ++ "&PID".toList
          ++ formatHex04 DeviceID)
      let Index := Index + (p.2 + 1)
      let p := swprintf p.1 Index "USB\\ROOT_HUB".toList
      let Index := Index + (p.2 + 1)
      (p.1, Index)
  let Buffer := writeAt filled.1 filled.2 [UNICODE_NULL]
  let Index := filled.2 + 1
  (Buffer, Index)

/-- Method `CHubController::HandlePnp` (lines 145-460). `This` is the address of the hub
object, `o` its members, `env` the outcomes of the collaborators. The sanity check
`ASSERT(DeviceExtension->IsFDO == FALSE)` has no effect and is left out. -/
def HandlePnp (This : PVOID) (o : CHubController) (Irp : IRP) (IoStack : PnpStackLocation)
    (env : PnpEnvironment) : PnpResult :=
  let r : PnpResult :=
    { Status := Irp.IoStatus.Status, This := o, Irp := Irp,
      Capabilities := IoStack.Capabilities, Interface := IoStack.QueryInterface.Interface,
      written := [], allocated := none, trace := [] }
  if IoStack.MinorFunction = IRP_MN_START_DEVICE then
    -- register device interface
    let s := SetDeviceInterface o true env
    completeRequest s.Status { r with This := s.This, trace := s.trace }
  else if IoStack.MinorFunction = IRP_MN_QUERY_ID then
    if IoStack.IdType = BusQueryDeviceID then
      if o.m_Hardware ≠ 0 then
        -- query device id (the status is overwritten below)
        let trace := [Effect.GetDeviceDetails]
        let HiSpeed : Nat := 1
        let Buffer :=
          if HiSpeed ≠ 0 then
            -- USB 2.0 hub
            (swprintf env.Buffer 0 "USB\\ROOT_HUB20".toList).1
          else
            -- USB 1.1 hub
            (swprintf env.Buffer 0 "USB\\ROOT_HUB".toList).1
        -- calculate length
        let Length := wcslen Buffer + 1
        -- allocate buffer
        let DeviceName := env.ExAllocatePool
        let trace := trace ++ [Effect.ExAllocatePool (Length * 2)]
        if DeviceName = 0 then
          -- no memory
          completeRequest STATUS_INSUFFICIENT_RESOURCES { r with trace := trace }
        else
          -- copy device name, store result
          completeRequest STATUS_SUCCESS
            { r with
              allocated := some { Address := DeviceName,
                                  Content := PoolContent.wide (wcscpy Buffer) },
              Irp := { IoStatus := { r.Irp.IoStatus with Information := DeviceName } },
              trace := trace }
      else
        completeRequest STATUS_UNSUCCESSFUL r
    else if IoStack.IdType = BusQueryHardwareIDs ∧ o.m_Hardware ≠ 0 then
      -- query device id
      let details := env.GetDeviceDetails
      let Status := details.Status
      let trace := [Effect.GetDeviceDetails]
      let HiSpeed : Nat := 1
      let VendorID := if ¬ NT_SUCCESS Status then 0x8086 else details.VendorID
      let DeviceID := if ¬ NT_SUCCESS Status then 0x3A37 else details.DeviceID
      let built := buildHardwareIds env.Buffer HiSpeed VendorID DeviceID
      let Buffer := built.1
      let Index := built.2
      -- allocate buffer
      let DeviceName := env.ExAllocatePool
      let trace := trace ++ [Effect.ExAllocatePool (Index * 2)]
      if DeviceName = 0 then
        -- no memory
        completeRequest STATUS_INSUFFICIENT_RESOURCES { r with trace := trace }
      else
        -- copy device name, store result
        completeRequest STATUS_SUCCESS
          { r with
            allocated := some { Address := DeviceName,
                                Content := PoolContent.wide (Buffer.take Index) },
            Irp := { IoStatus := { r.Irp.IoStatus with Information := DeviceName } },
            trace := trace }
    else
      completeRequest STATUS_SUCCESS r
  else if IoStack.MinorFunction = IRP_MN_QUERY_CAPABILITIES then
    completeRequest STATUS_SUCCESS
      { r with Capabilities := fillCapabilities IoStack.Capabilities }
  else if IoStack.MinorFunction = IRP_MN_QUERY_INTERFACE then
    -- handle device interface requests
    let q := HandleQueryInterface This o IoStack.QueryInterface env.RtlStringFromGUID
    completeRequest q.Status
      { r with This := q.This, Interface := q.Interface, written := q.written,
               trace := q.trace }
  else if IoStack.MinorFunction = IRP_MN_REMOVE_DEVICE then
    -- deactivate device interface for BUS PDO
    let s := SetDeviceInterface o false env
    let o := s.This
    -- complete the request first
    let trace := s.trace ++ [Effect.IoCompleteRequest STATUS_SUCCESS]
    -- now delete device
    let trace := trace ++ [Effect.IoDeleteDevice o.m_HubControllerDeviceObject]
    -- nullify pointer
    let trace := trace ++ [Effect.StoreHubControllerDeviceObject 0]
    let o := { o with m_HubControllerDeviceObject := 0 }
    -- done
    { r with Status := STATUS_SUCCESS, This := o,
             Irp := { IoStatus := { r.Irp.IoStatus with Status := STATUS_SUCCESS } },
             trace := trace }
  else if IoStack.MinorFunction = IRP_MN_QUERY_BUS_INFORMATION then
    -- allocate buffer for bus information
    let BusInformation := env.ExAllocatePool
    let trace := [Effect.ExAllocatePool 24]
    if BusInformation ≠ 0 then
      completeRequest STATUS_SUCCESS
        { r with
          allocated := some { Address := BusInformation,
                              Content := PoolContent.busInformation
                                { BusTypeGuid := GUID_BUS_TYPE_USB, LegacyBusType := PNPBus,
                                  BusNumber := 0 } },
          Irp := { IoStatus := { r.Irp.IoStatus with Information := BusInformation } },
          trace := trace }
    else
      -- no memory
      completeRequest STATUS_INSUFFICIENT_RESOURCES { r with trace := trace }
  else if IoStack.MinorFunction = IRP_MN_STOP_DEVICE then
    -- stop device
    completeRequest STATUS_SUCCESS r
  else
    completeRequest Irp.IoStatus.Status r

/-- The encoding of a list of strings as a multi-string buffer: each string followed by
a terminator, and one more terminator at the end. -/
def multiString (strings : List (List WCHAR)) : List WCHAR :=
  (strings.map fun t => t ++ [UNICODE_NULL]).flatten ++ [UNICODE_NULL]

/-- The four lower-case hexadecimal digits of a 16-bit number, most significant
first. -/
def fourHexDigits (n : Nat) : List WCHAR :=
  [Nat.digitChar (n / 4096 % 16), Nat.digitChar (n / 256 % 16), Nat.digitChar (n / 16 % 16),
   Nat.digitChar (n % 16)]

/-! ## Power and control requests (`HandlePower`, `HandleDeviceControl`) -/

/-- What `HandlePower` yields: the status returned, the hub object and the request
afterwards, and the events, in order. -/
structure PowerResult where
  Status : NTSTATUS
  This : CHubController
  Irp : IRP
  trace : List Effect
deriving DecidableEq, Repr

/-- Method `CHubController::HandlePower` (lines 463-472). The macro `UNIMPLEMENTED`
prints a debug message and is left out, as the `DPRINT1` lines are everywhere. -/
def HandlePower (o : CHubController) (_DeviceObject : PVOID) (Irp : IRP) : PowerResult :=
  let Irp : IRP := { IoStatus := { Irp.IoStatus with Status := STATUS_NOT_IMPLEMENTED } }
  { Status := STATUS_NOT_IMPLEMENTED, This := o, Irp := Irp,
    trace := [Effect.IoCompleteRequest STATUS_NOT_IMPLEMENTED] }

/-- Modelled from the spec: the control codes of the "small internal control protocol
used by the hub-class driver" are declared in the header `usbioctl.h`, outside the
sources. This one is the submit-URB request. -/
def IOCTL_INTERNAL_USB_SUBMIT_URB : Nat := 0x220003

/-- Modelled from the spec: declared in `usbioctl.h`, outside the sources; the
get-root-hub-PDO request. -/
def IOCTL_INTERNAL_USB_GET_ROOTHUB_PDO : Nat := 0x22040F

/-- Modelled from the spec: declared in `usbioctl.h`, outside the sources; the
get-hub-count request. -/
def IOCTL_INTERNAL_USB_GET_HUB_COUNT : Nat := 0x22041B

/-- Modelled from the spec: declared in `usbioctl.h`, outside the sources; the
get-device-handle request. -/
def IOCTL_INTERNAL_USB_GET_DEVICE_HANDLE : Nat := 0x220423

/-- Caller memory reached through output pointers: the content of the slot at each
address. -/
abbrev Memory := PVOID → Nat

/-- Memory while a handler runs: its content and the stores made so far (address and
value), in program order. -/
structure MemoryWriter where
  content : Memory
  stores : List (PVOID × Nat)

/-- One assignment `*(T *)p = v;`. -/
def MemoryWriter.store (w : MemoryWriter) (p : PVOID) (v : Nat) : MemoryWriter :=
  { content := fun a => if a = p then v else w.content a, stores := w.stores ++ [(p, v)] }

/-- The current stack location of a control request: the control code
(`Parameters.DeviceIoControl.IoControlCode`) and the two output pointers
(`Parameters.Others.Argument1`, `Parameters.Others.Argument2`). -/
structure DeviceControlStackLocation where
  IoControlCode : Nat
  Argument1 : PVOID
  Argument2 : PVOID
deriving DecidableEq, Repr

/-- What `HandleDeviceControl` yields: the status returned, the hub object, the request
and caller memory afterwards, the stores made through the output pointers, and the
events, in order. -/
structure ControlResult where
  Status : NTSTATUS
  This : CHubController
  Irp : IRP
  Memory : Memory
  stores : List (PVOID × Nat)
  trace : List Effect

/-- The exit of `HandleDeviceControl` (lines 595-597): `Irp->IoStatus.Status = Status;
IoCompleteRequest(Irp, IO_NO_INCREMENT); return Status;`. -/
def completeControl (Status : NTSTATUS) (o : CHubController) (Irp : IRP) (w : MemoryWriter) :
    ControlResult :=
  { Status := Status, This := o,
    Irp := { IoStatus := { Irp.IoStatus with Status := Status } },
    Memory := w.content, stores := w.stores, trace := [Effect.IoCompleteRequest Status] }

/-- Method `CHubController::HandleDeviceControl` (lines 475-598). `This` is the address
of the hub object, `o` its members, `DeviceObject` the device node the request was sent
to, `memory` the caller memory before the call. The `switch` has no `default` label: a
control code that matches no `case` leaves `Status` at its initial value. -/
def HandleDeviceControl (This : PVOID) (o : CHubController) (DeviceObject : PVOID) (Irp : IRP)
    (IoStack : DeviceControlStackLocation) (memory : Memory) : ControlResult :=
  let Status := STATUS_NOT_IMPLEMENTED
  let w : MemoryWriter := { content := memory, stores := [] }
  -- determine which request should be performed
  if IoStack.IoControlCode = IOCTL_INTERNAL_USB_SUBMIT_URB then
    -- request completed
    completeControl STATUS_NOT_IMPLEMENTED o Irp w
  else if IoStack.IoControlCode = IOCTL_INTERNAL_USB_GET_DEVICE_HANDLE then
    if IoStack.Argument1 ≠ 0 then
      -- store object as device handle
      completeControl STATUS_SUCCESS o Irp (w.store IoStack.Argument1 This)
    else
      -- mis-behaving hub driver
      completeControl STATUS_INVALID_DEVICE_REQUEST o Irp w
  else if IoStack.IoControlCode = IOCTL_INTERNAL_USB_GET_ROOTHUB_PDO then
    -- store root hub pdo object
    let w := if IoStack.Argument1 ≠ 0 then w.store IoStack.Argument1 DeviceObject else w
    -- documentation claims to deliver the hcd controller object, although it is wrong
    let w := if IoStack.Argument2 ≠ 0 then w.store IoStack.Argument2 DeviceObject else w
    -- request completed
    completeControl STATUS_SUCCESS o Irp w
  else if IoStack.IoControlCode = IOCTL_INTERNAL_USB_GET_HUB_COUNT then
    -- there is only one hub
    let w := if IoStack.Argument1 ≠ 0 then w.store IoStack.Argument1 1 else w
    -- request completed; Information = sizeof(ULONG)
    let Irp : IRP := { IoStatus := { Irp.IoStatus with Information := 4 } }
    completeControl STATUS_SUCCESS o Irp w
  else
    completeControl Status o Irp w

/-! ## Bus-interface functions (lines 604-885) -/

/-- The memory the bus-interface functions run against: the hub objects alive, by
address, and the caller's buffers. -/
structure World where
  objects : PVOID → Option CHubController
  Memory : Memory

/-- Function `USBI_InterfaceReference` (lines 604-617): `Controller->AddRef()` on the
object behind `BusContext`. Gives `none` when no hub object lives at `BusContext` (the
call through the pointer is then undefined). -/
def USBI_InterfaceReference (BusContext : PVOID) (w : World) : Option World :=
  (w.objects BusContext).map fun Controller =>
    { w with objects := fun a => if a = BusContext then some (AddRef Controller).2
                                 else w.objects a }

/-- Function `USBI_InterfaceDereference` (lines 619-632): `Controller->Release()` on the
object behind `BusContext`; the object is gone once `Release` destroyed it. Gives `none`
when no hub object lives at `BusContext`. -/
def USBI_InterfaceDereference (BusContext : PVOID) (w : World) : Option World :=
  (w.objects BusContext).map fun Controller =>
    { w with objects := fun a => if a = BusContext then (Release Controller).obj
                                 else w.objects a }

/-- Function `USBHI_CreateUsbDevice` (lines 637-648). -/
def USBHI_CreateUsbDevice (_BusContext _NewDevice _HubDeviceHandle : PVOID)
    (_PortStatus _PortNumber : Nat) (w : World) : NTSTATUS × World :=
  (STATUS_NOT_IMPLEMENTED, w)

/-- Function `USBHI_InitializeUsbDevice` (lines 650-658). -/
def USBHI_InitializeUsbDevice (_BusContext _DeviceHandle : PVOID) (w : World) :
    NTSTATUS × World :=
  (STATUS_NOT_IMPLEMENTED, w)

/-- Function `USBHI_GetUsbDescriptors` (lines 660-672). -/
def USBHI_GetUsbDescriptors (_BusContext _DeviceHandle _DeviceDescriptorBuffer
    _DeviceDescriptorBufferLength _ConfigDescriptorBuffer _ConfigDescriptorBufferLength : PVOID)
    (w : World) : NTSTATUS × World :=
  (STATUS_NOT_IMPLEMENTED, w)

/-- Function `USBHI_RemoveUsbDevice` (lines 674-683). -/
def USBHI_RemoveUsbDevice (_BusContext _DeviceHandle : PVOID) (_Flags : Nat) (w : World) :
    NTSTATUS × World :=
  (STATUS_NOT_IMPLEMENTED, w)

/-- Function `USBHI_RestoreUsbDevice` (lines 685-694). -/
def USBHI_RestoreUsbDevice (_BusContext _OldDeviceHandle _NewDeviceHandle : PVOID) (w : World) :
    NTSTATUS × World :=
  (STATUS_NOT_IMPLEMENTED, w)

/-- Function `USBHI_GetPortHackFlags` (lines 696-704). -/
def USBHI_GetPortHackFlags (_BusContext _Flags : PVOID) (w : World) : NTSTATUS × World :=
  (STATUS_NOT_IMPLEMENTED, w)

/-- Function `USBHI_QueryDeviceInformation` (lines 706-717). -/
def USBHI_QueryDeviceInformation (_BusContext _DeviceHandle _DeviceInformationBuffer : PVOID)
    (_DeviceInformationBufferLength : Nat) (_LengthReturned : PVOID) (w : World) :
    NTSTATUS × World :=
  (STATUS_NOT_IMPLEMENTED, w)

/-- Function `USBHI_GetControllerInformation` (lines 719-729). -/
def USBHI_GetControllerInformation (_BusContext _ControllerInformationBuffer : PVOID)
    (_ControllerInformationBufferLength : Nat) (_LengthReturned : PVOID) (w : World) :
    NTSTATUS × World :=
  (STATUS_NOT_IMPLEMENTED, w)

/-- Function `USBHI_ControllerSelectiveSuspend` (lines 731-739). -/
def USBHI_ControllerSelectiveSuspend (_BusContext : PVOID) (_Enable : Nat) (w : World) :
    NTSTATUS × World :=
  (STATUS_NOT_IMPLEMENTED, w)

/-- Function `USBHI_GetExtendedHubInformation` (lines 741-752). -/
def USBHI_GetExtendedHubInformation (_BusContext _HubPhysicalDeviceObject
    _HubInformationBuffer : PVOID) (_HubInformationBufferLength : Nat)
    (_LengthReturned : PVOID) (w : World) : NTSTATUS × World :=
  (STATUS_NOT_IMPLEMENTED, w)

/-- Function `USBHI_GetRootHubSymbolicName` (lines 754-764). -/
def USBHI_GetRootHubSymbolicName (_BusContext _HubSymNameBuffer : PVOID)
    (_HubSymNameBufferLength : Nat) (_HubSymNameActualLength : PVOID) (w : World) :
    NTSTATUS × World :=
  (STATUS_NOT_IMPLEMENTED, w)

/-- Function `USBHI_GetDeviceBusContext` (lines 766-774). -/
def USBHI_GetDeviceBusContext (_HubBusContext _DeviceHandle : PVOID) (w : World) :
    PVOID × World :=
  (0, w)

/-- Function `USBHI_Initialize20Hub` (lines 776-785). -/
def USBHI_Initialize20Hub (_BusContext _HubDeviceHandle : PVOID) (_TtCount : Nat) (w : World) :
    NTSTATUS × World :=
  (STATUS_NOT_IMPLEMENTED, w)

/-- Function `USBHI_RootHubInitNotification` (lines 787-796). -/
def USBHI_RootHubInitNotification (_BusContext _CallbackContext _CallbackRoutine : PVOID)
    (w : World) : NTSTATUS × World :=
  (STATUS_NOT_IMPLEMENTED, w)

/-- Function `USBHI_FlushTransfers` (lines 798-805). -/
def USBHI_FlushTransfers (_BusContext _DeviceHandle : PVOID) (w : World) : World := w

/-- Function `USBHI_SetDeviceHandleData` (lines 807-815). -/
def USBHI_SetDeviceHandleData (_BusContext _DeviceHandle _UsbDevicePdo : PVOID) (w : World) :
    World := w

/-- Function `USBDI_GetUSBDIVersion` (lines 822-830). -/
def USBDI_GetUSBDIVersion (_BusContext _VersionInformation _HcdCapabilites : PVOID)
    (w : World) : World := w

/-- Function `USBDI_QueryBusTime` (lines 832-840). -/
def USBDI_QueryBusTime (_BusContext _CurrentFrame : PVOID) (w : World) : NTSTATUS × World :=
  (STATUS_NOT_IMPLEMENTED, w)

/-- Function `USBDI_SubmitIsoOutUrb` (lines 842-850). -/
def USBDI_SubmitIsoOutUrb (_BusContext _Urb : PVOID) (w : World) : NTSTATUS × World :=
  (STATUS_NOT_IMPLEMENTED, w)

/-- Function `USBDI_QueryBusInformation` (lines 852-863). -/
def USBDI_QueryBusInformation (_BusContext : PVOID) (_Level : Nat)
    (_BusInformationBuffer _BusInformationBufferLength _BusInformationActualLength : PVOID)
    (w : World) : NTSTATUS × World :=
  (STATUS_NOT_IMPLEMENTED, w)

/-- Function `USBDI_IsDeviceHighSpeed` (lines 865-872). -/
def USBDI_IsDeviceHighSpeed (_BusContext : PVOID) (w : World) : Bool × World :=
  (true, w)

/-- Function `USBDI_EnumLogEntry` (lines 874-885). -/
def USBDI_EnumLogEntry (_BusContext : PVOID) (_DriverTag _EnumTag _P1 _P2 : Nat) (w : World) :
    NTSTATUS × World :=
  (STATUS_NOT_IMPLEMENTED, w)

/-- The result types the bus-interface functions are declared with. -/
inductive ResultType where
  | VOID
  | NTSTATUS
  | PVOID
  | BOOLEAN
deriving DecidableEq, Repr

/-- The declared result type of each bus-interface function (lines 604-885). -/
def resultType : BusFunction → ResultType
  | BusFunction.USBI_InterfaceReference => ResultType.VOID
  | BusFunction.USBI_InterfaceDereference => ResultType.VOID
  | BusFunction.USBHI_CreateUsbDevice => ResultType.NTSTATUS
  | BusFunction.USBHI_InitializeUsbDevice => ResultType.NTSTATUS
  | BusFunction.USBHI_GetUsbDescriptors => ResultType.NTSTATUS
  | BusFunction.USBHI_RemoveUsbDevice => ResultType.NTSTATUS
  | BusFunction.USBHI_RestoreUsbDevice => ResultType.NTSTATUS
  | BusFunction.USBHI_GetPortHackFlags => ResultType.NTSTATUS
  | BusFunction.USBHI_QueryDeviceInformation => ResultType.NTSTATUS
  | BusFunction.USBHI_GetControllerInformation => ResultType.NTSTATUS
  | BusFunction.USBHI_ControllerSelectiveSuspend => ResultType.NTSTATUS
  | BusFunction.USBHI_GetExtendedHubInformation => ResultType.NTSTATUS
  | BusFunction.USBHI_GetRootHubSymbolicName => ResultType.NTSTATUS
  | BusFunction.USBHI_GetDeviceBusContext => ResultType.PVOID
  | BusFunction.USBHI_Initialize20Hub => ResultType.NTSTATUS
  | BusFunction.USBHI_RootHubInitNotification => ResultType.NTSTATUS
  | BusFunction.USBHI_FlushTransfers => ResultType.VOID
  | BusFunction.USBHI_SetDeviceHandleData => ResultType.VOID
  | BusFunction.USBDI_GetUSBDIVersion => ResultType.VOID
  | BusFunction.USBDI_QueryBusTime => ResultType.NTSTATUS
  | BusFunction.USBDI_SubmitIsoOutUrb => ResultType.NTSTATUS
  | BusFunction.USBDI_QueryBusInformation => ResultType.NTSTATUS
  | BusFunction.USBDI_IsDeviceHighSpeed => ResultType.BOOLEAN
  | BusFunction.USBDI_EnumLogEntry => ResultType.NTSTATUS

/-- The value a call through a table cell gives back. -/
inductive ReturnValue where
  | void
  | status (Status : NTSTATUS)
  | pointer (p : PVOID)
  | boolean (b : Bool)
deriving DecidableEq, Repr

/-- A call through a cell of a negotiated table: the function `f` applied to the context
`BusContext` and to the further arguments `args`, taken in the order of the parameter
list (an argument not supplied reads as `0`). Gives the value returned and the memory
afterwards, `none` when the call is undefined. -/
def callHook (f : BusFunction) (BusContext : PVOID) (args : List Nat) (w : World) :
    Option (ReturnValue × World) :=
  let a := fun i => args.getD i 0
  let status := fun (r : NTSTATUS × World) => some (ReturnValue.status r.1, r.2)
  let void := fun (r : World) => some (ReturnValue.void, r)
  match f with
  | BusFunction.USBI_InterfaceReference =>
    (USBI_InterfaceReference BusContext w).map fun r => (ReturnValue.void, r)
  | BusFunction.USBI_InterfaceDereference =>
    (USBI_InterfaceDereference BusContext w).map fun r => (ReturnValue.void, r)
  | BusFunction.USBHI_CreateUsbDevice =>
    status (USBHI_CreateUsbDevice BusContext (a 0) (a 1) (a 2) (a 3) w)
  | BusFunction.USBHI_InitializeUsbDevice =>
    status (USBHI_InitializeUsbDevice BusContext (a 0) w)
  | BusFunction.USBHI_GetUsbDescriptors =>
    status (USBHI_GetUsbDescriptors BusContext (a 0) (a 1) (a 2) (a 3) (a 4) w)
  | BusFunction.USBHI_RemoveUsbDevice =>
    status (USBHI_RemoveUsbDevice BusContext (a 0) (a 1) w)
  | BusFunction.USBHI_RestoreUsbDevice =>
    status (USBHI_RestoreUsbDevice BusContext (a 0) (a 1) w)
  | BusFunction.USBHI_GetPortHackFlags =>
    status (USBHI_GetPortHackFlags BusContext (a 0) w)
  | BusFunction.USBHI_QueryDeviceInformation =>
    status (USBHI_QueryDeviceInformation BusContext (a 0) (a 1) (a 2) (a 3) w)
  | BusFunction.USBHI_GetControllerInformation =>
    status (USBHI_GetControllerInformation BusContext (a 0) (a 1) (a 2) w)
  | BusFunction.USBHI_ControllerSelectiveSuspend =>
    status (USBHI_ControllerSelectiveSuspend BusContext (a 0) w)
  | BusFunction.USBHI_GetExtendedHubInformation =>
    status (USBHI_GetExtendedHubInformation BusContext (a 0) (a 1) (a 2) (a 3) w)
  | BusFunction.USBHI_GetRootHubSymbolicName =>
    status (USBHI_GetRootHubSymbolicName BusContext (a 0) (a 1) (a 2) w)
  | BusFunction.USBHI_GetDeviceBusContext =>
    let r := USBHI_GetDeviceBusContext BusContext (a 0) w
    some (ReturnValue.pointer r.1, r.2)
  | BusFunction.USBHI_Initialize20Hub =>
    status (USBHI_Initialize20Hub BusContext (a 0) (a 1) w)
  | BusFunction.USBHI_RootHubInitNotification =>
    status (USBHI_RootHubInitNotification BusContext (a 0) (a 1) w)
  | BusFunction.USBHI_FlushTransfers =>
    void (USBHI_FlushTransfers BusContext (a 0) w)
  | BusFunction.USBHI_SetDeviceHandleData =>
    void (USBHI_SetDeviceHandleData BusContext (a 0) (a 1) w)
  | BusFunction.USBDI_GetUSBDIVersion =>
    void (USBDI_GetUSBDIVersion BusContext (a 0) (a 1) w)
  | BusFunction.USBDI_QueryBusTime =>
    status (USBDI_QueryBusTime BusContext (a 0) w)
  | BusFunction.USBDI_SubmitIsoOutUrb =>
    status (USBDI_SubmitIsoOutUrb BusContext (a 0) w)
  | BusFunction.USBDI_QueryBusInformation =>
    status (USBDI_QueryBusInformation BusContext (a 0) (a 1) (a 2) (a 3) w)
  | BusFunction.USBDI_IsDeviceHighSpeed =>
    let r := USBDI_IsDeviceHighSpeed BusContext w
    some (ReturnValue.boolean r.1, r.2)
  | BusFunction.USBDI_EnumLogEntry =>
    status (USBDI_EnumLogEntry BusContext (a 0) (a 1) (a 2) (a 3) w)

/-- Whether an event is the completion of the request. -/
def isCompletion : Effect → Bool
  | Effect.IoCompleteRequest _ => true
  | _ => false

/-- The three ROOT_HUB20 identity strings for a vendor id and a device id, the ids
written as four lower-case hexadecimal digits. -/
def rootHub20Ids (VendorID DeviceID : Nat) : List (List WCHAR) :=
  [ "USB\\ROOT_HUB20&VID".toList ++ fourHexDigits VendorID ++ "&PID".toList
      ++ fourHexDigits DeviceID ++ "&REV0000".toList,
    "USB\\ROOT_HUB20&VID".toList ++ fourHexDigits VendorID ++ "&PID".toList
      ++ fourHexDigits DeviceID,
    "USB\\ROOT_HUB20".toList ]

/-! ## Sequences of lifecycle events -/

/-- One lifecycle request as delivered to `HandlePnp`: the request, its stack location
and the outcomes of the collaborators while it is handled. -/
structure PnpEvent where
  Irp : IRP
  IoStack : PnpStackLocation
  env : PnpEnvironment

/-- The hub object after `HandlePnp` handled one event. -/
def pnpStep (This : PVOID) (o : CHubController) (e : PnpEvent) : CHubController :=
  (HandlePnp This o e.Irp e.IoStack e.env).This

/-- The hub object after a sequence of events, handled in order. -/
def pnpRun (This : PVOID) (o : CHubController) (events : List PnpEvent) : CHubController :=
  events.foldl (pnpStep This) o

/-! ## Sample inputs -/

/-- A hub object as `Initialize` and `Start` leave it: one reference, a device node at
`0x2000`, an enabled interface whose string lives at `0x3000`. -/
def sampleHub : CHubController :=
  { m_Ref := 1, m_Controller := 0x1100, m_Hardware := 0x1200, m_IsRootHubDevice := true,
    m_DeviceAddress := 0, m_PDODeviceNumber := 0, m_InterfaceEnabled := true,
    m_HubDeviceInterfaceString := { Length := 120, MaximumLength := 122, Buffer := 0x3000 },
    m_HubControllerDeviceObject := 0x2000, m_DriverObject := 0x1000 }

/-- A run of `N` `AddRef` calls followed by one `Release`. -/
def addRefsThenRelease (N : Nat) : List RefCall :=
  List.replicate N RefCall.addRef ++ [RefCall.release]

/-- The collaborators on a good day: the hardware reports the ids `0x8086`/`0x3A37`, the
allocation gives the block at `0x7000`, registration and state changes succeed. -/
def sampleEnvironment : PnpEnvironment :=
  { GetDeviceDetails :=
      { Status := STATUS_SUCCESS, VendorID := 0x8086, DeviceID := 0x3A37, NumPorts := 4,
        HiSpeed := 1 }
    ExAllocatePool := 0x7000
    IoRegisterDeviceInterface :=
      (STATUS_SUCCESS, { Length := 120, MaximumLength := 122, Buffer := 0x3000 })
    IoSetDeviceInterfaceState := STATUS_SUCCESS
    RtlFreeUnicodeString := { Length := 0, MaximumLength := 0, Buffer := 0 }
    RtlStringFromGUID := (STATUS_SUCCESS, { Length := 76, MaximumLength := 78, Buffer := 0x6000 })
    Buffer := List.replicate 300 'x' }

/-- A request whose status and information fields hold leftovers. -/
def sampleIrp : IRP := { IoStatus := { Status := STATUS_NOT_SUPPORTED, Information := 0 } }

/-- A capabilities record holding leftovers: every flag set, every number 9. -/
def staleCapabilities : DEVICE_CAPABILITIES :=
  { Size := 64, Version := 1, DeviceD1 := true, DeviceD2 := true, LockSupported := true,
    EjectSupported := true, Removable := true, DockDevice := true, UniqueID := true,
    SilentInstall := true, RawDeviceOK := true, SurpriseRemovalOK := true,
    WakeFromD0 := true, WakeFromD1 := true, WakeFromD2 := true, WakeFromD3 := true,
    HardwareDisabled := true, NonDynamic := true, WarmEjectSupported := true,
    NoDisplayInUI := true, Address := 9, UINumber := 9,
    DeviceState := [9, 9, 9, 9, 9, 9, 9], SystemWake := 9, DeviceWake := 9,
    D1Latency := 9, D2Latency := 9, D3Latency := 9 }

/-- The stack location of a lifecycle request with minor code `minor` and id type
`idType`; the other parameters hold leftovers. -/
def pnpRequest (minor idType : Nat) : PnpStackLocation :=
  { MinorFunction := minor, IdType := idType, Capabilities := staleCapabilities,
    QueryInterface := queryFor USB_BUS_INTERFACE_HUB_GUID 0 24 staleTable }

/-- The sample environment with hardware that reports a full-speed controller. -/
def fullSpeedEnvironment : PnpEnvironment :=
  { sampleEnvironment with
    GetDeviceDetails :=
      { Status := STATUS_SUCCESS, VendorID := 0x8086, DeviceID := 0x3A37, NumPorts := 4,
        HiSpeed := 0 } }

/-- The sample environment with hardware whose query fails, leaving other values in
its outputs. -/
def failingEnvironment : PnpEnvironment :=
  { sampleEnvironment with
    GetDeviceDetails :=
      { Status := STATUS_UNSUCCESSFUL, VendorID := 0x1234, DeviceID := 0xABCD, NumPorts := 9,
        HiSpeed := 0 } }

/-- The sample environment with an interface whose state cannot be changed. -/
def stuckEnvironment : PnpEnvironment :=
  { sampleEnvironment with IoSetDeviceInterfaceState := STATUS_UNSUCCESSFUL }

/-- A hub object as `Initialize` leaves it: a device node at `0x2000`, no interface
registered yet. -/
def initializedHub : CHubController :=
  { zeroFilled with
    m_Ref := 1, m_Controller := 0x1100, m_Hardware := 0x1200, m_IsRootHubDevice := true,
    m_HubControllerDeviceObject := 0x2000, m_DriverObject := 0x1000 }

/-- The sample environment without pool memory. -/
def exhaustedEnvironment : PnpEnvironment :=
  { sampleEnvironment with ExAllocatePool := 0 }

/-- A capabilities record with every flag clear, every number 9 and a power-state table
of zeros. -/
def clearedCapabilities : DEVICE_CAPABILITIES :=
  { staleCapabilities with DeviceD1 := false, DeviceD2 := false,
                           DeviceState := [0, 0, 0, 0, 0, 0, 0] }

/-- Caller memory holding the leftover `0xCCCC` in every slot. -/
def staleMemory : Memory := fun _ => 0xCCCC

/-- A world with the hub object `o` at `0x5000`, no other object, and stale caller
memory. -/
def worldWith (o : CHubController) : World :=
  { objects := fun a => if a = 0x5000 then some o else none, Memory := staleMemory }

/-- The event with minor code `minor` on the sample request, every collaborator
succeeding. -/
def sampleEvent (minor : Nat) : PnpEvent :=
  { Irp := sampleIrp, IoStack := pnpRequest minor 0, env := sampleEnvironment }

/-- A factory whose first call succeeds with the node at `0x2000`. -/
def readyFactory : DeviceFactory :=
  scriptedFactory STATUS_OBJECT_NAME_COLLISION 0
    { Status := STATUS_SUCCESS, DeviceObject := 0x2000, Device := freshNode }

/-! # Theorems -/

/-! ## Reference counting -/

theorem wrapLONG_id (z : Int) (h1 : -2147483648 ≤ z) (h2 : z < 2147483648) :
    wrapLONG z = z := by
  unfold wrapLONG
  omega

theorem wrapLONG_wrapLONG_add (z d : Int) : wrapLONG (wrapLONG z + d) = wrapLONG (z + d) := by
  unfold wrapLONG
  omega

theorem refRun_none (calls : List RefCall) : refRun none calls = none := by
  induction calls with
  | nil => rfl
  | cons c t ih => simpa [refRun, List.foldl, refStep] using ih

theorem refRun_cons (s : Option CHubController) (c : RefCall) (t : List RefCall) :
    refRun s (c :: t) = refRun (refStep s c) t := rfl

theorem addRefs_cons_addRef (t : List RefCall) :
    addRefs (RefCall.addRef :: t) = addRefs t + 1 := by
  simp [addRefs]

theorem addRefs_cons_release (t : List RefCall) :
    addRefs (RefCall.release :: t) = addRefs t := by
  simp [addRefs]

theorem releases_cons_addRef (t : List RefCall) :
    releases (RefCall.addRef :: t) = releases t := by
  simp [releases]

theorem releases_cons_release (t : List RefCall) :
    releases (RefCall.release :: t) = releases t + 1 := by
  simp [releases]

theorem addRefs_take_le (calls : List RefCall) (n : Nat) :
    addRefs (calls.take n) ≤ addRefs calls := by
  unfold addRefs
  exact (List.take_sublist n calls).count_le _

/-- While the counter stays inside the `LONG` range, a run from a live object with
count `c >= 1` is destroyed exactly when some point of the sequence has seen `c` more
`Release` than `AddRef` calls, and otherwise holds `c + #AddRef - #Release >= 1`. -/
theorem refRun_balance (calls : List RefCall) :
    ∀ o : CHubController, 1 ≤ o.m_Ref → o.m_Ref + addRefs calls ≤ 2147483647 →
      (refRun (some o) calls = none ↔
        ∃ k, k ≤ calls.length ∧
          (releases (calls.take k) : Int) = o.m_Ref + addRefs (calls.take k)) ∧
      (∀ o1, refRun (some o) calls = some o1 →
        o1.m_Ref = o.m_Ref + addRefs calls - releases calls ∧ 1 ≤ o1.m_Ref) := by
  induction calls with
  | nil =>
    intro o h1 _
    refine ⟨⟨fun h => by simp [refRun] at h, ?_⟩, ?_⟩
    · rintro ⟨k, _, hk⟩
      simp [releases, addRefs] at hk
      omega
    · intro o1 h
      simp [refRun] at h
      subst h
      simp [releases, addRefs, h1]
  | cons c t ih =>
    intro o h1 h2
    cases c with
    | addRef =>
      rw [addRefs_cons_addRef] at h2
      have hw : wrapLONG (o.m_Ref + 1) = o.m_Ref + 1 := wrapLONG_id _ (by omega) (by omega)
      have hstep : refStep (some o) RefCall.addRef
          = some { o with m_Ref := o.m_Ref + 1 } := by
        simp [refStep, AddRef, hw]
      obtain ⟨ihd, iha⟩ := ih { o with m_Ref := o.m_Ref + 1 } (by simp; omega)
        (by simp; push_cast at h2 ⊢; omega)
      rw [refRun_cons, hstep]
      refine ⟨ihd.trans ⟨?_, ?_⟩, ?_⟩
      · rintro ⟨k, hk, he⟩
        refine ⟨k + 1, by simpa using hk, ?_⟩
        simp only [List.take_succ_cons, releases_cons_addRef, addRefs_cons_addRef]
        simp at he
        push_cast
        omega
      · rintro ⟨k, hk, he⟩
        cases k with
        | zero =>
          simp [releases, addRefs] at he
          omega
        | succ j =>
          refine ⟨j, by simpa using hk, ?_⟩
          simp only [List.take_succ_cons, releases_cons_addRef, addRefs_cons_addRef] at he
          push_cast at he
          simp
          omega
      · intro o1 h
        obtain ⟨hv, hp⟩ := iha o1 h
        refine ⟨?_, hp⟩
        rw [hv, addRefs_cons_addRef, releases_cons_addRef]
        simp
        omega
    | release =>
      rw [addRefs_cons_release] at h2
      have hw : wrapLONG (o.m_Ref - 1) = o.m_Ref - 1 := wrapLONG_id _ (by omega) (by omega)
      by_cases hone : o.m_Ref = 1
      · have hw0 : wrapLONG (o.m_Ref - 1) = 0 := by rw [hw]; omega
        have hstep : refStep (some o) RefCall.release = none := by
          simp [refStep, Release, hw0]
        rw [refRun_cons, hstep, refRun_none]
        refine ⟨⟨fun _ => ⟨1, by simp, ?_⟩, fun _ => rfl⟩, fun o1 h => by simp at h⟩
        simp [releases, addRefs, hone]
      · have hstep : refStep (some o) RefCall.release
            = some { o with m_Ref := o.m_Ref - 1 } := by
          have : ¬ (o.m_Ref - 1 = 0) := by omega
          simp [refStep, Release, hw, this]
        obtain ⟨ihd, iha⟩ := ih { o with m_Ref := o.m_Ref - 1 } (by simp; omega)
          (by simp; omega)
        rw [refRun_cons, hstep]
        refine ⟨ihd.trans ⟨?_, ?_⟩, ?_⟩
        · rintro ⟨k, hk, he⟩
          refine ⟨k + 1, by simpa using hk, ?_⟩
          simp only [List.take_succ_cons, releases_cons_release, addRefs_cons_release]
          simp at he
          push_cast
          omega
        · rintro ⟨k, hk, he⟩
          cases k with
          | zero =>
            simp [releases, addRefs] at he
            omega
          | succ j =>
            refine ⟨j, by simpa using hk, ?_⟩
            simp only [List.take_succ_cons, releases_cons_release, addRefs_cons_release] at he
            push_cast at he
            simp
            omega
        · intro o1 h
          obtain ⟨hv, hp⟩ := iha o1 h
          refine ⟨?_, hp⟩
          rw [hv, addRefs_cons_release, releases_cons_release]
          simp
          omega

/-- A run of `k` consecutive `AddRef` calls adds `k` to the counter, modulo the width
of a `LONG`, and never destroys the object. -/
theorem refRun_replicate_addRef (k : Nat) :
    ∀ o : CHubController, wrapLONG o.m_Ref = o.m_Ref →
      refRun (some o) (List.replicate k RefCall.addRef)
        = some { o with m_Ref := wrapLONG (o.m_Ref + k) } := by
  induction k with
  | zero =>
    intro o h
    simp [refRun, h]
  | succ j ih =>
    intro o _
    rw [List.replicate_succ, refRun_cons]
    simp only [refStep, AddRef]
    rw [ih _ (by simp only []; unfold wrapLONG; omega)]
    simp only [wrapLONG_wrapLONG_add]
    congr 2
    push_cast
    ring_nf

theorem refRun_append (s : Option CHubController) (a b : List RefCall) :
    refRun s (a ++ b) = refRun (refRun s a) b := by
  simp [refRun, List.foldl_append]

/-- At no point of `N >= 1` `AddRef` calls followed by one `Release` does the number of
`Release` calls equal `1 +` the number of `AddRef` calls. -/
theorem addRefsThenRelease_unbalanced (N : Nat) (hN : 1 ≤ N) (k : Nat) :
    releases ((addRefsThenRelease N).take k) ≠ 1 + addRefs ((addRefsThenRelease N).take k) := by
  by_cases hk : k ≤ N
  · have : (addRefsThenRelease N).take k = List.replicate k RefCall.addRef := by
      rw [addRefsThenRelease, List.take_append_of_le_length (by simpa using hk),
        List.take_replicate, Nat.min_eq_left hk]
    rw [this]
    simp [releases, addRefs, List.count_replicate]
    omega
  · have : (addRefsThenRelease N).take k = addRefsThenRelease N :=
      List.take_of_length_le (by simp [addRefsThenRelease]; omega)
    rw [this]
    simp [releases, addRefs, addRefsThenRelease, List.count_replicate]
    omega

/-- A run of `N` `AddRef` calls followed by one `Release` destroys an object whose counter is `c`
when `c + N` wraps around to `1`. -/
theorem refRun_addRefsThenRelease (N : Nat) (o : CHubController)
    (h : wrapLONG o.m_Ref = o.m_Ref) (hw : wrapLONG (o.m_Ref + N) = 1) :
    refRun (some o) (addRefsThenRelease N) = none := by
  rw [addRefsThenRelease, refRun_append, refRun_replicate_addRef _ _ h]
  have h0 : wrapLONG (wrapLONG (o.m_Ref + N) - 1) = 0 := by
    rw [hw]
    unfold wrapLONG
    omega
  simp [refRun, refStep, Release, h0]

/-! ### C1 -/

/-- C1 (as amended): starting from the object `CreateHubController` returns, for every
finite sequence of `AddRef`/`Release` calls that makes fewer than `2^31 - 1` `AddRef`
calls, and every point `n` of it: the object is destroyed at point `n` exactly when some
point `k <= n` has seen `#Release = 1 + #AddRef` (so it is destroyed at the first such
point and stays so), and while it is alive its counter is
`1 + #AddRef - #Release >= 1`. -/
theorem C1_refcount_lifetime (p out : PVOID) (calls : List RefCall)
    (hcap : addRefs calls < 2147483647) (n : Nat) :
    (refRun (CreateHubController (some p) out).This (calls.take n) = none ↔
      ∃ k, k ≤ n ∧ releases (calls.take k) = 1 + addRefs (calls.take k)) ∧
    (∀ o, refRun (CreateHubController (some p) out).This (calls.take n) = some o →
      o.m_Ref = 1 + (addRefs (calls.take n) : Int) - releases (calls.take n) ∧
      1 ≤ o.m_Ref) := by
  have hstart : (CreateHubController (some p) out).This
      = some { zeroFilled with m_Ref := 1 } := by
    simp [CreateHubController, operatorNew, AddRef, construct, wrapLONG, zeroFilled]
  have hle := addRefs_take_le calls n
  obtain ⟨hd, ha⟩ := refRun_balance (calls.take n)
    { zeroFilled with m_Ref := 1 } (by simp)
    (by simp only []; omega)
  rw [hstart]
  refine ⟨hd.trans ⟨?_, ?_⟩, ?_⟩
  · rintro ⟨k, hk, he⟩
    refine ⟨min k n, Nat.min_le_right _ _, ?_⟩
    rw [List.take_take] at he
    simp only [] at he
    exact_mod_cast he
  · rintro ⟨k, hk, he⟩
    by_cases hlen : k ≤ calls.length
    · refine ⟨k, ?_, ?_⟩
      · rw [List.length_take]
        omega
      · rw [List.take_take, Nat.min_eq_left hk]
        simp only []
        exact_mod_cast he
    · have hall : calls.take k = calls := List.take_of_length_le (by omega)
      have hall2 : calls.take n = calls := List.take_of_length_le (by omega)
      refine ⟨calls.length, ?_, ?_⟩
      · rw [List.length_take]
        omega
      · rw [hall2, List.take_length]
        rw [hall] at he
        simp only []
        exact_mod_cast he
  · intro o h
    simpa using ha o h

/-- C1, witness: one `AddRef` and two `Release` calls destroy the created object at
the third call. -/
theorem C1_refcount_lifetime_witness :
    addRefs [RefCall.addRef, RefCall.release, RefCall.release] < 2147483647 ∧
    refRun (CreateHubController (some 4096) 0).This
      ([RefCall.addRef, RefCall.release, RefCall.release].take 3) = none :=
  ⟨by decide,
   (C1_refcount_lifetime 4096 0 [RefCall.addRef, RefCall.release, RefCall.release]
      (by decide) 3).1.2 ⟨3, by decide, by decide⟩⟩

/-- C1, counterexample: after `2^32` `AddRef` calls the 32-bit counter is back at `1`,
so a single `Release` destroys the created object, although at no point of that
sequence does the number of `Release` calls equal `1 +` the number of `AddRef` calls.
Already after `2^31 - 1` `AddRef` calls (and no `Release`) the object is alive with
`m_Ref = -2^31`, not with a count `>= 1`. -/
theorem C1_counterexample_wraparound :
    (refRun (CreateHubController (some 4096) 0).This (addRefsThenRelease 4294967296) = none ∧
      ∀ k, releases ((addRefsThenRelease 4294967296).take k)
        ≠ 1 + addRefs ((addRefsThenRelease 4294967296).take k)) ∧
    (∃ o, refRun (CreateHubController (some 4096) 0).This
        (List.replicate 2147483647 RefCall.addRef) = some o ∧ o.m_Ref = -2147483648) := by
  have hstart : (CreateHubController (some 4096) 0).This
      = some { zeroFilled with m_Ref := 1 } := by
    simp [CreateHubController, operatorNew, AddRef, construct, wrapLONG, zeroFilled]
  rw [hstart]
  refine ⟨⟨?_, ?_⟩, ?_⟩
  · exact refRun_addRefsThenRelease _ _ (by simp [wrapLONG]) (by simp [wrapLONG])
  · exact addRefsThenRelease_unbalanced _ (by omega)
  · refine ⟨_, refRun_replicate_addRef _ _ (by simp [wrapLONG]), ?_⟩
    simp [wrapLONG]

/-! ### C2 -/

/-- C2: `CreateHubController`, when the allocation succeeds, returns success and stores
through the output parameter an object whose reference count is exactly 1; when the
allocation fails it returns `STATUS_INSUFFICIENT_RESOURCES`, creates no object and
leaves the output parameter as it was. -/
theorem C2_create_hub_controller (out : PVOID) :
    (∀ p : PVOID,
      (CreateHubController (some p) out).Status = STATUS_SUCCESS ∧
      (CreateHubController (some p) out).OutHcdController = p ∧
      ∃ o, (CreateHubController (some p) out).This = some o ∧ o.m_Ref = 1) ∧
    ((CreateHubController none out).Status = STATUS_INSUFFICIENT_RESOURCES ∧
      (CreateHubController none out).OutHcdController = out ∧
      (CreateHubController none out).This = none) := by
  refine ⟨fun p => ⟨rfl, rfl, ?_⟩, rfl, rfl, rfl⟩
  exact ⟨_, rfl, by simp [AddRef, construct, zeroFilled, wrapLONG]⟩

/-! ### C3 -/

/-- C3 (as amended): for a live object whose reference count is `n` with
`1 <= n <= 2^31 - 1` (the positive range of `LONG`): `AddRef` returns `n + 1` and,
unless `n = 2^31 - 1`, sets the count to `n + 1`, touching no other member; `Release`
returns `n - 1`, destroys the object if and only if `n - 1 = 0`, and otherwise leaves
it with count `n - 1` and every other member unchanged. -/
theorem C3_addref_release_step (o : CHubController) (n : Int) (hn : o.m_Ref = n)
    (h1 : 1 ≤ n) (h2 : n ≤ 2147483647) :
    (((AddRef o).1 : Int) = n + 1 ∧
      (n ≠ 2147483647 → (AddRef o).2 = { o with m_Ref := n + 1 })) ∧
    (((Release o).ret : Int) = n - 1 ∧
      ((Release o).obj = none ↔ n - 1 = 0) ∧
      (n - 1 ≠ 0 → (Release o).obj = some { o with m_Ref := n - 1 })) := by
  subst hn
  have hdec : wrapLONG (o.m_Ref - 1) = o.m_Ref - 1 := wrapLONG_id _ (by omega) (by omega)
  refine ⟨⟨?_, ?_⟩, ?_, ?_, ?_⟩
  · simp only [AddRef, asULONG, wrapLONG]
    omega
  · intro hne
    have hinc : wrapLONG (o.m_Ref + 1) = o.m_Ref + 1 :=
      wrapLONG_id _ (by omega) (by omega)
    simp [AddRef, hinc]
  · by_cases hz : o.m_Ref - 1 = 0
    · have hw0 : wrapLONG (o.m_Ref - 1) = 0 := hdec.trans hz
      simp only [Release, hw0, if_true]
      omega
    · simp only [Release, hdec, hz, if_false, asULONG]
      omega
  · by_cases hz : o.m_Ref - 1 = 0
    · have hw0 : wrapLONG (o.m_Ref - 1) = 0 := hdec.trans hz
      simp only [Release, hw0, if_true]
      exact ⟨fun _ => hz, fun _ => trivial⟩
    · simp [Release, hdec, hz]
  · intro hz
    simp [Release, hdec, hz]

/-- C3, witness: on the sample object (count 1) `AddRef` returns 2 and `Release`
returns 0 and destroys it. -/
theorem C3_addref_release_step_witness :
    ((AddRef sampleHub).1 : Int) = 1 + 1 ∧ ((Release sampleHub).obj = none ↔ (1 : Int) - 1 = 0) :=
  ⟨(C3_addref_release_step sampleHub 1 rfl (by decide) (by decide)).1.1,
   (C3_addref_release_step sampleHub 1 rfl (by decide) (by decide)).2.2.1⟩

/-- C3, counterexample: at count `2^31 - 1` the object is alive with a count `>= 1`, yet
`AddRef` leaves `-2^31` in `m_Ref`, not `2^31` (the value it returns). -/
theorem C3_counterexample_max_count :
    (1 : Int) ≤ ({ sampleHub with m_Ref := 2147483647 } : CHubController).m_Ref ∧
    (AddRef { sampleHub with m_Ref := 2147483647 }).2.m_Ref = -2147483648 ∧
    (AddRef { sampleHub with m_Ref := 2147483647 }).2.m_Ref ≠ 2147483647 + 1 ∧
    (AddRef { sampleHub with m_Ref := 2147483647 }).1 = 2147483648 := by
  refine ⟨by decide, by decide, by decide, by decide⟩

/-! ### C4 -/

/-- C4 (as amended): a `Release` call that brings the reference count to zero destroys
the object and returns 0 without making any call: the destructor is empty, so no
interface is disabled, no interface string is freed and no device node is deleted,
whatever device node or interface string the object still holds. -/
theorem C4_release_to_zero_makes_no_call (o : CHubController) (h : o.m_Ref = 1) :
    (Release o).obj = none ∧ (Release o).ret = 0 ∧ (Release o).trace = [] := by
  simp [Release, h, wrapLONG, destructor]

/-- C4, witness: the sample object, holding one reference. -/
theorem C4_release_to_zero_makes_no_call_witness :
    sampleHub.m_Ref = 1 ∧ (Release sampleHub).obj = none ∧ (Release sampleHub).ret = 0 ∧
      (Release sampleHub).trace = [] :=
  ⟨rfl, C4_release_to_zero_makes_no_call sampleHub rfl⟩

/-- C4, counterexample: the sample object owns the device node `0x2000` and an enabled
interface string; its last `Release` destroys it, and the trace of that call holds
neither the deletion of the node, nor the disabling of the interface, nor the freeing
of its string. -/
theorem C4_counterexample_resources_kept :
    sampleHub.m_HubControllerDeviceObject ≠ 0 ∧ sampleHub.m_InterfaceEnabled = true ∧
    (Release sampleHub).obj = none ∧
    Effect.IoDeleteDevice sampleHub.m_HubControllerDeviceObject ∉ (Release sampleHub).trace ∧
    Effect.IoSetDeviceInterfaceState sampleHub.m_HubDeviceInterfaceString false
      ∉ (Release sampleHub).trace ∧
    Effect.RtlFreeUnicodeString sampleHub.m_HubDeviceInterfaceString
      ∉ (Release sampleHub).trace := by
  refine ⟨by decide, rfl, by decide, by decide, by decide, by decide⟩

/-! ## Interface negotiation -/

theorem hub_guid_is_hub :
    IsEqualGUIDAligned USB_BUS_INTERFACE_HUB_GUID USB_BUS_INTERFACE_HUB_GUID = true := by
  decide

theorem usbdi_guid_not_hub :
    IsEqualGUIDAligned USB_BUS_INTERFACE_USBDI_GUID USB_BUS_INTERFACE_HUB_GUID = false := by
  decide

theorem usbdi_guid_is_usbdi :
    IsEqualGUIDAligned USB_BUS_INTERFACE_USBDI_GUID USB_BUS_INTERFACE_USBDI_GUID = true := by
  decide

theorem store_buffer (w : TableWriter) (m : Member) (c : Cell) (x : Member) :
    (w.store m c).buffer x = if x = m then c else w.buffer x := rfl

theorem store_written (w : TableWriter) (m : Member) (c : Cell) :
    (w.store m c).written = w.written ++ [m] := rfl

theorem ite_buffer (c : Prop) [Decidable c] (a b : TableWriter) (x : Member) :
    (if c then a else b).buffer x = if c then a.buffer x else b.buffer x := by
  split_ifs <;> rfl

theorem ite_written (c : Prop) [Decidable c] (a b : TableWriter) :
    (if c then a else b).written = if c then a.written else b.written := by
  split_ifs <;> rfl

theorem fillHubTable_written (This : PVOID) (S V : Nat) (w : TableWriter) :
    (fillHubTable This S V w).written
      = w.written
        ++ [Member.Size, Member.BusContext, Member.InterfaceReference,
            Member.InterfaceDereference]
        ++ (if 1 ≤ V then
              [Member.CreateUsbDevice, Member.InitializeUsbDevice, Member.GetUsbDescriptors,
               Member.RemoveUsbDevice, Member.RestoreUsbDevice, Member.GetPortHackFlags,
               Member.QueryDeviceInformation]
            else [])
        ++ (if 2 ≤ V then
              [Member.GetControllerInformation, Member.ControllerSelectiveSuspend,
               Member.GetExtendedHubInformation, Member.GetRootHubSymbolicName,
               Member.GetDeviceBusContext, Member.Initialize20Hub]
            else [])
        ++ (if 3 ≤ V then [Member.RootHubInitNotification] else [])
        ++ (if 4 ≤ V then [Member.FlushTransfers] else [])
        ++ (if 5 ≤ V then [Member.SetDeviceHandleData] else []) := by
  simp only [fillHubTable, ge_iff_le, Nat.zero_le, if_true]
  split_ifs <;> simp [store_written]

theorem fillHubTable_buffer (This : PVOID) (S V : Nat) (w : TableWriter) :
    (fillHubTable This S V w).buffer
      = fun m =>
        match m with
        | Member.Version => w.buffer m
        | Member.Size => Cell.ushort S
        | Member.BusContext => Cell.pointer This
        | Member.InterfaceReference => Cell.code BusFunction.USBI_InterfaceReference
        | Member.InterfaceDereference => Cell.code BusFunction.USBI_InterfaceDereference
        | Member.CreateUsbDevice =>
          if 1 ≤ V then Cell.code BusFunction.USBHI_CreateUsbDevice else w.buffer m
        | Member.InitializeUsbDevice =>
          if 1 ≤ V then Cell.code BusFunction.USBHI_InitializeUsbDevice else w.buffer m
        | Member.GetUsbDescriptors =>
          if 1 ≤ V then Cell.code BusFunction.USBHI_GetUsbDescriptors else w.buffer m
        | Member.RemoveUsbDevice =>
          if 1 ≤ V then Cell.code BusFunction.USBHI_RemoveUsbDevice else w.buffer m
        | Member.RestoreUsbDevice =>
          if 1 ≤ V then Cell.code BusFunction.USBHI_RestoreUsbDevice else w.buffer m
        | Member.GetPortHackFlags =>
          if 1 ≤ V then Cell.code BusFunction.USBHI_GetPortHackFlags else w.buffer m
        | Member.QueryDeviceInformation =>
          if 1 ≤ V then Cell.code BusFunction.USBHI_QueryDeviceInformation else w.buffer m
        | Member.GetControllerInformation =>
          if 2 ≤ V then Cell.code BusFunction.USBHI_GetControllerInformation else w.buffer m
        | Member.ControllerSelectiveSuspend =>
          if 2 ≤ V then Cell.code BusFunction.USBHI_ControllerSelectiveSuspend else w.buffer m
        | Member.GetExtendedHubInformation =>
          if 2 ≤ V then Cell.code BusFunction.USBHI_GetExtendedHubInformation else w.buffer m
        | Member.GetRootHubSymbolicName =>
          if 2 ≤ V then Cell.code BusFunction.USBHI_GetRootHubSymbolicName else w.buffer m
        | Member.GetDeviceBusContext =>
          if 2 ≤ V then Cell.code BusFunction.USBHI_GetDeviceBusContext else w.buffer m
        | Member.Initialize20Hub =>
          if 2 ≤ V then Cell.code BusFunction.USBHI_Initialize20Hub else w.buffer m
        | Member.RootHubInitNotification =>
          if 3 ≤ V then Cell.code BusFunction.USBHI_RootHubInitNotification else w.buffer m
        | Member.FlushTransfers =>
          if 4 ≤ V then Cell.code BusFunction.USBHI_FlushTransfers else w.buffer m
        | Member.SetDeviceHandleData =>
          if 5 ≤ V then Cell.code BusFunction.USBHI_SetDeviceHandleData else w.buffer m
        | Member.GetUSBDIVersion => w.buffer m
        | Member.QueryBusTime => w.buffer m
        | Member.SubmitIsoOutUrb => w.buffer m
        | Member.QueryBusInformation => w.buffer m
        | Member.IsDeviceHighSpeed => w.buffer m
        | Member.EnumLogEntry => w.buffer m := by
  funext m
  simp only [fillHubTable, ge_iff_le, Nat.zero_le, if_true]
  cases m <;> simp [store_buffer, ite_buffer]

theorem fillUsbdiTable_written (This : PVOID) (S V : Nat) (w : TableWriter) :
    (fillUsbdiTable This S V w).written
      = w.written
        ++ [Member.Size, Member.BusContext, Member.InterfaceReference,
            Member.InterfaceDereference, Member.GetUSBDIVersion, Member.QueryBusTime,
            Member.SubmitIsoOutUrb, Member.QueryBusInformation]
        ++ (if 1 ≤ V then [Member.IsDeviceHighSpeed] else [])
        ++ (if 2 ≤ V then [Member.EnumLogEntry] else []) := by
  simp only [fillUsbdiTable, ge_iff_le, Nat.zero_le, if_true]
  split_ifs <;> simp [store_written]

theorem fillUsbdiTable_buffer (This : PVOID) (S V : Nat) (w : TableWriter) :
    (fillUsbdiTable This S V w).buffer
      = fun m =>
        match m with
        | Member.Version => w.buffer m
        | Member.Size => Cell.ushort S
        | Member.BusContext => Cell.pointer This
        | Member.InterfaceReference => Cell.code BusFunction.USBI_InterfaceReference
        | Member.InterfaceDereference => Cell.code BusFunction.USBI_InterfaceDereference
        | Member.GetUSBDIVersion => Cell.code BusFunction.USBDI_GetUSBDIVersion
        | Member.QueryBusTime => Cell.code BusFunction.USBDI_QueryBusTime
        | Member.SubmitIsoOutUrb => Cell.code BusFunction.USBDI_SubmitIsoOutUrb
        | Member.QueryBusInformation => Cell.code BusFunction.USBDI_QueryBusInformation
        | Member.IsDeviceHighSpeed =>
          if 1 ≤ V then Cell.code BusFunction.USBDI_IsDeviceHighSpeed else w.buffer m
        | Member.EnumLogEntry =>
          if 2 ≤ V then Cell.code BusFunction.USBDI_EnumLogEntry else w.buffer m
        | Member.CreateUsbDevice => w.buffer m
        | Member.InitializeUsbDevice => w.buffer m
        | Member.GetUsbDescriptors => w.buffer m
        | Member.RemoveUsbDevice => w.buffer m
        | Member.RestoreUsbDevice => w.buffer m
        | Member.GetPortHackFlags => w.buffer m
        | Member.QueryDeviceInformation => w.buffer m
        | Member.GetControllerInformation => w.buffer m
        | Member.ControllerSelectiveSuspend => w.buffer m
        | Member.GetExtendedHubInformation => w.buffer m
        | Member.GetRootHubSymbolicName => w.buffer m
        | Member.GetDeviceBusContext => w.buffer m
        | Member.Initialize20Hub => w.buffer m
        | Member.RootHubInitNotification => w.buffer m
        | Member.FlushTransfers => w.buffer m
        | Member.SetDeviceHandleData => w.buffer m := by
  funext m
  simp only [fillUsbdiTable, ge_iff_le, Nat.zero_le, if_true]
  cases m <;> simp [store_buffer, ite_buffer]

theorem HandleQueryInterface_hub_ok (This : PVOID) (o : CHubController) (S V : Nat)
    (buf : InterfaceBuffer) (gs : NTSTATUS × UNICODE_STRING) (hV : V ≤ 5) :
    HandleQueryInterface This o (queryFor USB_BUS_INTERFACE_HUB_GUID V S buf) gs
      = { Status := STATUS_SUCCESS, This := o,
          Interface := (fillHubTable This S V
            (TableWriter.store ⟨buf, []⟩ Member.Version (Cell.ushort V))).buffer,
          written := (fillHubTable This S V
            (TableWriter.store ⟨buf, []⟩ Member.Version (Cell.ushort V))).written,
          trace := [] } := by
  have h6 : ¬ (V ≥ 6) := by omega
  simp only [HandleQueryInterface, queryFor, hub_guid_is_hub, if_true, h6, if_false]

theorem HandleQueryInterface_usbdi_ok (This : PVOID) (o : CHubController) (S V : Nat)
    (buf : InterfaceBuffer) (gs : NTSTATUS × UNICODE_STRING) (hV : V ≤ 2) :
    HandleQueryInterface This o (queryFor USB_BUS_INTERFACE_USBDI_GUID V S buf) gs
      = { Status := STATUS_SUCCESS, This := o,
          Interface := (fillUsbdiTable This S V
            (TableWriter.store ⟨buf, []⟩ Member.Version (Cell.ushort V))).buffer,
          written := (fillUsbdiTable This S V
            (TableWriter.store ⟨buf, []⟩ Member.Version (Cell.ushort V))).written,
          trace := [] } := by
  have h3 : ¬ (V ≥ 3) := by omega
  simp only [HandleQueryInterface, queryFor, usbdi_guid_not_hub, usbdi_guid_is_usbdi,
    if_true, h3, if_false]
  simp

/-- The method `HandleQueryInterface` assigns no member of the hub object, on any path. -/
theorem HandleQueryInterface_this (This : PVOID) (o : CHubController)
    (q : QueryInterfaceParameters) (gs : NTSTATUS × UNICODE_STRING) :
    (HandleQueryInterface This o q gs).This = o := by
  unfold HandleQueryInterface
  simp only []
  split_ifs <;> rfl

/-! ### C5 -/

/-- C5: with the hub-services GUID `HandleQueryInterface` returns success for every
requested version 0..5 and `STATUS_NOT_SUPPORTED` for every version `>= 6`; with the
device-I/O-services GUID it returns success for every version 0..2 and
`STATUS_NOT_SUPPORTED` for every version `>= 3` (whatever the object, the size, the
content of the caller's table). -/
theorem C5_supported_versions (This : PVOID) (o : CHubController) (S : Nat)
    (buf : InterfaceBuffer) (gs : NTSTATUS × UNICODE_STRING) :
    (∀ V, V ≤ 5 →
      (HandleQueryInterface This o (queryFor USB_BUS_INTERFACE_HUB_GUID V S buf) gs).Status
        = STATUS_SUCCESS) ∧
    (∀ V, 6 ≤ V →
      (HandleQueryInterface This o (queryFor USB_BUS_INTERFACE_HUB_GUID V S buf) gs).Status
        = STATUS_NOT_SUPPORTED) ∧
    (∀ V, V ≤ 2 →
      (HandleQueryInterface This o (queryFor USB_BUS_INTERFACE_USBDI_GUID V S buf) gs).Status
        = STATUS_SUCCESS) ∧
    (∀ V, 3 ≤ V →
      (HandleQueryInterface This o (queryFor USB_BUS_INTERFACE_USBDI_GUID V S buf) gs).Status
        = STATUS_NOT_SUPPORTED) := by
  refine ⟨?_, ?_, ?_, ?_⟩
  · intro V hV
    have h6 : ¬ (V ≥ 6) := by omega
    simp only [HandleQueryInterface, queryFor, hub_guid_is_hub, if_true, h6, if_false]
  · intro V hV
    have h6 : V ≥ 6 := hV
    simp only [HandleQueryInterface, queryFor, hub_guid_is_hub, if_true, h6]
  · intro V hV
    have h3 : ¬ (V ≥ 3) := by omega
    simp only [HandleQueryInterface, queryFor, usbdi_guid_not_hub, usbdi_guid_is_usbdi,
      if_true, h3, if_false]
    simp
  · intro V hV
    have h3 : V ≥ 3 := hV
    simp only [HandleQueryInterface, queryFor, usbdi_guid_not_hub, usbdi_guid_is_usbdi,
      if_true, h3]
    simp

/-! ### C6 -/

/-- C6: for every GUID that is neither the hub-services GUID nor the device-I/O-services
GUID, and for every requested version and size, `HandleQueryInterface` returns
`STATUS_NOT_SUPPORTED`, assigns no member of the caller's table (the table is as it
was) and leaves every member of the hub object unchanged, whether or not the GUID
could be rendered as a string. -/
theorem C6_unknown_guid (g : GUID) (hhub : g ≠ USB_BUS_INTERFACE_HUB_GUID)
    (hdi : g ≠ USB_BUS_INTERFACE_USBDI_GUID) (This : PVOID) (o : CHubController)
    (V S : Nat) (buf : InterfaceBuffer) (gs : NTSTATUS × UNICODE_STRING) :
    (HandleQueryInterface This o (queryFor g V S buf) gs).Status = STATUS_NOT_SUPPORTED ∧
    (HandleQueryInterface This o (queryFor g V S buf) gs).Interface = buf ∧
    (HandleQueryInterface This o (queryFor g V S buf) gs).written = [] ∧
    (HandleQueryInterface This o (queryFor g V S buf) gs).This = o := by
  have h1 : IsEqualGUIDAligned g USB_BUS_INTERFACE_HUB_GUID = false := by
    simp [IsEqualGUIDAligned, hhub]
  have h2 : IsEqualGUIDAligned g USB_BUS_INTERFACE_USBDI_GUID = false := by
    simp [IsEqualGUIDAligned, hdi]
  simp [HandleQueryInterface, queryFor, h1, h2]

/-- C6, witness: the all-zero GUID, version 0, into a table holding leftovers. -/
theorem C6_unknown_guid_witness :
    (HandleQueryInterface 0x5000 sampleHub
        (queryFor { Data1 := 0, Data2 := 0, Data3 := 0, Data4 := [] } 0 24 staleTable)
        (STATUS_SUCCESS, { Length := 76, MaximumLength := 78, Buffer := 0x6000 })).Status
      = STATUS_NOT_SUPPORTED ∧
    (HandleQueryInterface 0x5000 sampleHub
        (queryFor { Data1 := 0, Data2 := 0, Data3 := 0, Data4 := [] } 0 24 staleTable)
        (STATUS_SUCCESS, { Length := 76, MaximumLength := 78, Buffer := 0x6000 })).Interface
      = staleTable :=
  ⟨(C6_unknown_guid _ (by decide) (by decide) 0x5000 sampleHub 0 24 staleTable _).1,
   (C6_unknown_guid _ (by decide) (by decide) 0x5000 sampleHub 0 24 staleTable _).2.1⟩

/-! ### C7 -/

/-- C7: version cumulativity. For each family and every supported version `V >= 1`
(hub services `V` in 1..5, device-I/O services `V` in 1..2), building the table for
the same object, size and caller's table at version `V` assigns every member that
building at version `V - 1` assigns, with the same value, except `Version` itself,
which holds `V` in the one and `V - 1` in the other. -/
theorem C7_version_cumulativity (This : PVOID) (o : CHubController) (S : Nat)
    (buf : InterfaceBuffer) (gs : NTSTATUS × UNICODE_STRING) (V : Nat) (h1 : 1 ≤ V) :
    (V ≤ 5 →
      (∀ m, m ∈ (HandleQueryInterface This o
            (queryFor USB_BUS_INTERFACE_HUB_GUID (V - 1) S buf) gs).written →
        m ∈ (HandleQueryInterface This o
            (queryFor USB_BUS_INTERFACE_HUB_GUID V S buf) gs).written ∧
        (m ≠ Member.Version →
          (HandleQueryInterface This o
            (queryFor USB_BUS_INTERFACE_HUB_GUID V S buf) gs).Interface m
          = (HandleQueryInterface This o
            (queryFor USB_BUS_INTERFACE_HUB_GUID (V - 1) S buf) gs).Interface m)) ∧
      (HandleQueryInterface This o
          (queryFor USB_BUS_INTERFACE_HUB_GUID V S buf) gs).Interface Member.Version
        = Cell.ushort V ∧
      (HandleQueryInterface This o
          (queryFor USB_BUS_INTERFACE_HUB_GUID (V - 1) S buf) gs).Interface Member.Version
        = Cell.ushort (V - 1)) ∧
    (V ≤ 2 →
      (∀ m, m ∈ (HandleQueryInterface This o
            (queryFor USB_BUS_INTERFACE_USBDI_GUID (V - 1) S buf) gs).written →
        m ∈ (HandleQueryInterface This o
            (queryFor USB_BUS_INTERFACE_USBDI_GUID V S buf) gs).written ∧
        (m ≠ Member.Version →
          (HandleQueryInterface This o
            (queryFor USB_BUS_INTERFACE_USBDI_GUID V S buf) gs).Interface m
          = (HandleQueryInterface This o
            (queryFor USB_BUS_INTERFACE_USBDI_GUID (V - 1) S buf) gs).Interface m)) ∧
      (HandleQueryInterface This o
          (queryFor USB_BUS_INTERFACE_USBDI_GUID V S buf) gs).Interface Member.Version
        = Cell.ushort V ∧
      (HandleQueryInterface This o
          (queryFor USB_BUS_INTERFACE_USBDI_GUID (V - 1) S buf) gs).Interface Member.Version
        = Cell.ushort (V - 1)) := by
  constructor
  · intro h5
    rw [HandleQueryInterface_hub_ok This o S V buf gs h5,
      HandleQueryInterface_hub_ok This o S (V - 1) buf gs (by omega)]
    simp only [fillHubTable_written, fillHubTable_buffer, store_written, store_buffer]
    refine ⟨?_, by simp, by simp⟩
    intro m hm
    cases m <;> simp at hm ⊢ <;>
      exact ⟨by omega, by rw [if_pos hm, if_pos (by omega)]⟩
  · intro h2
    rw [HandleQueryInterface_usbdi_ok This o S V buf gs h2,
      HandleQueryInterface_usbdi_ok This o S (V - 1) buf gs (by omega)]
    simp only [fillUsbdiTable_written, fillUsbdiTable_buffer, store_written, store_buffer]
    refine ⟨?_, by simp, by simp⟩
    intro m hm
    cases m <;> simp at hm ⊢ <;>
      exact ⟨by omega, by rw [if_pos hm, if_pos (by omega)]⟩

/-- C7, witness: hub services at version 3 against version 2. `Initialize20Hub`,
assigned at version 2, is assigned at version 3 with the same value. -/
theorem C7_version_cumulativity_witness :
    (1 : Nat) ≤ 3 ∧
    Member.Initialize20Hub ∈ (HandleQueryInterface 0x5000 sampleHub
        (queryFor USB_BUS_INTERFACE_HUB_GUID 3 168 staleTable)
        (STATUS_SUCCESS, ⟨0, 0, 0⟩)).written ∧
    (HandleQueryInterface 0x5000 sampleHub
        (queryFor USB_BUS_INTERFACE_HUB_GUID 3 168 staleTable)
        (STATUS_SUCCESS, ⟨0, 0, 0⟩)).Interface Member.Initialize20Hub
      = (HandleQueryInterface 0x5000 sampleHub
        (queryFor USB_BUS_INTERFACE_HUB_GUID (3 - 1) 168 staleTable)
        (STATUS_SUCCESS, ⟨0, 0, 0⟩)).Interface Member.Initialize20Hub :=
  ⟨by decide,
   (((C7_version_cumulativity 0x5000 sampleHub 168 staleTable _ 3 (by decide)).1
      (by decide)).1 Member.Initialize20Hub (by decide)).1,
   (((C7_version_cumulativity 0x5000 sampleHub 168 staleTable _ 3 (by decide)).1
      (by decide)).1 Member.Initialize20Hub (by decide)).2 (by decide)⟩

/-! ### C8 -/

/-- C8: hub-services table shape. For every version `V` in 0..5 and every size `S`,
`HandleQueryInterface` succeeds, assigns exactly the members listed (the header
always, then one group per version reached), leaves every other member of the
caller's table as it was, and the table afterwards holds `Version = V`, `Size = S`,
`BusContext =` this object, the reference hooks, and in each member of a group that
was reached the function of that name. -/
theorem C8_hub_table_shape (This : PVOID) (o : CHubController) (S : Nat)
    (buf : InterfaceBuffer) (gs : NTSTATUS × UNICODE_STRING) (V : Nat) (hV : V ≤ 5) :
    (HandleQueryInterface This o (queryFor USB_BUS_INTERFACE_HUB_GUID V S buf) gs).Status
      = STATUS_SUCCESS ∧
    (HandleQueryInterface This o (queryFor USB_BUS_INTERFACE_HUB_GUID V S buf) gs).written
      = [Member.Version, Member.Size, Member.BusContext, Member.InterfaceReference,
          Member.InterfaceDereference]
        ++ (if 1 ≤ V then
              [Member.CreateUsbDevice, Member.InitializeUsbDevice, Member.GetUsbDescriptors,
               Member.RemoveUsbDevice, Member.RestoreUsbDevice, Member.GetPortHackFlags,
               Member.QueryDeviceInformation]
            else [])
        ++ (if 2 ≤ V then
              [Member.GetControllerInformation, Member.ControllerSelectiveSuspend,
               Member.GetExtendedHubInformation, Member.GetRootHubSymbolicName,
               Member.GetDeviceBusContext, Member.Initialize20Hub]
            else [])
        ++ (if 3 ≤ V then [Member.RootHubInitNotification] else [])
        ++ (if 4 ≤ V then [Member.FlushTransfers] else [])
        ++ (if 5 ≤ V then [Member.SetDeviceHandleData] else []) ∧
    (∀ m, m ∉ (HandleQueryInterface This o
          (queryFor USB_BUS_INTERFACE_HUB_GUID V S buf) gs).written →
        (HandleQueryInterface This o
          (queryFor USB_BUS_INTERFACE_HUB_GUID V S buf) gs).Interface m = buf m) ∧
    (HandleQueryInterface This o (queryFor USB_BUS_INTERFACE_HUB_GUID V S buf) gs).Interface
      = fun m =>
        match m with
        | Member.Version => Cell.ushort V
        | Member.Size => Cell.ushort S
        | Member.BusContext => Cell.pointer This
        | Member.InterfaceReference => Cell.code BusFunction.USBI_InterfaceReference
        | Member.InterfaceDereference => Cell.code BusFunction.USBI_InterfaceDereference
        | Member.CreateUsbDevice =>
          if 1 ≤ V then Cell.code BusFunction.USBHI_CreateUsbDevice else buf m
        | Member.InitializeUsbDevice =>
          if 1 ≤ V then Cell.code BusFunction.USBHI_InitializeUsbDevice else buf m
        | Member.GetUsbDescriptors =>
          if 1 ≤ V then Cell.code BusFunction.USBHI_GetUsbDescriptors else buf m
        | Member.RemoveUsbDevice =>
          if 1 ≤ V then Cell.code BusFunction.USBHI_RemoveUsbDevice else buf m
        | Member.RestoreUsbDevice =>
          if 1 ≤ V then Cell.code BusFunction.USBHI_RestoreUsbDevice else buf m
        | Member.GetPortHackFlags =>
          if 1 ≤ V then Cell.code BusFunction.USBHI_GetPortHackFlags else buf m
        | Member.QueryDeviceInformation =>
          if 1 ≤ V then Cell.code BusFunction.USBHI_QueryDeviceInformation else buf m
        | Member.GetControllerInformation =>
          if 2 ≤ V then Cell.code BusFunction.USBHI_GetControllerInformation else buf m
        | Member.ControllerSelectiveSuspend =>
          if 2 ≤ V then Cell.code BusFunction.USBHI_ControllerSelectiveSuspend else buf m
        | Member.GetExtendedHubInformation =>
          if 2 ≤ V then Cell.code BusFunction.USBHI_GetExtendedHubInformation else buf m
        | Member.GetRootHubSymbolicName =>
          if 2 ≤ V then Cell.code BusFunction.USBHI_GetRootHubSymbolicName else buf m
        | Member.GetDeviceBusContext =>
          if 2 ≤ V then Cell.code BusFunction.USBHI_GetDeviceBusContext else buf m
        | Member.Initialize20Hub =>
          if 2 ≤ V then Cell.code BusFunction.USBHI_Initialize20Hub else buf m
        | Member.RootHubInitNotification =>
          if 3 ≤ V then Cell.code BusFunction.USBHI_RootHubInitNotification else buf m
        | Member.FlushTransfers =>
          if 4 ≤ V then Cell.code BusFunction.USBHI_FlushTransfers else buf m
        | Member.SetDeviceHandleData =>
          if 5 ≤ V then Cell.code BusFunction.USBHI_SetDeviceHandleData else buf m
        | Member.GetUSBDIVersion => buf m
        | Member.QueryBusTime => buf m
        | Member.SubmitIsoOutUrb => buf m
        | Member.QueryBusInformation => buf m
        | Member.IsDeviceHighSpeed => buf m
        | Member.EnumLogEntry => buf m := by
  rw [HandleQueryInterface_hub_ok This o S V buf gs hV]
  simp only [fillHubTable_written, fillHubTable_buffer, store_written, store_buffer]
  refine ⟨trivial, ?_, ?_, ?_⟩
  · simp
  · intro m hm
    cases m <;> simp at hm ⊢ <;> simp [hm]
  · funext m
    cases m <;> simp

/-- C8, witness: version 5 into a table holding leftovers: the last hub member is
filled, a member of the other family keeps its leftover. -/
theorem C8_hub_table_shape_witness :
    (5 : Nat) ≤ 5 ∧
    (HandleQueryInterface 0x5000 sampleHub
        (queryFor USB_BUS_INTERFACE_HUB_GUID 5 168 staleTable) (STATUS_SUCCESS, ⟨0, 0, 0⟩)).Status
      = STATUS_SUCCESS ∧
    (HandleQueryInterface 0x5000 sampleHub
        (queryFor USB_BUS_INTERFACE_HUB_GUID 5 168 staleTable)
        (STATUS_SUCCESS, ⟨0, 0, 0⟩)).Interface Member.SetDeviceHandleData
      = Cell.code BusFunction.USBHI_SetDeviceHandleData ∧
    (HandleQueryInterface 0x5000 sampleHub
        (queryFor USB_BUS_INTERFACE_HUB_GUID 5 168 staleTable)
        (STATUS_SUCCESS, ⟨0, 0, 0⟩)).Interface Member.EnumLogEntry
      = Cell.ushort 0xCCCC :=
  ⟨le_refl 5,
   (C8_hub_table_shape 0x5000 sampleHub 168 staleTable _ 5 (le_refl 5)).1,
   congrFun (C8_hub_table_shape 0x5000 sampleHub 168 staleTable _ 5 (le_refl 5)).2.2.2
     Member.SetDeviceHandleData,
   congrFun (C8_hub_table_shape 0x5000 sampleHub 168 staleTable _ 5 (le_refl 5)).2.2.2
     Member.EnumLogEntry⟩

/-! ### C9 -/

/-- C9: device-I/O-services table shape. For every version `V` in 0..2 and every size
`S`, `HandleQueryInterface` succeeds, assigns exactly the members listed (header and
the four base operations always, `IsDeviceHighSpeed` from version 1, `EnumLogEntry`
from version 2), leaves every other member of the caller's table as it was, and the
table afterwards holds `Version = V`, `Size = S`, `BusContext =` this object and in
each assigned hook the function of that name. -/
theorem C9_usbdi_table_shape (This : PVOID) (o : CHubController) (S : Nat)
    (buf : InterfaceBuffer) (gs : NTSTATUS × UNICODE_STRING) (V : Nat) (hV : V ≤ 2) :
    (HandleQueryInterface This o (queryFor USB_BUS_INTERFACE_USBDI_GUID V S buf) gs).Status
      = STATUS_SUCCESS ∧
    (HandleQueryInterface This o (queryFor USB_BUS_INTERFACE_USBDI_GUID V S buf) gs).written
      = [Member.Version, Member.Size, Member.BusContext, Member.InterfaceReference,
          Member.InterfaceDereference, Member.GetUSBDIVersion, Member.QueryBusTime,
          Member.SubmitIsoOutUrb, Member.QueryBusInformation]
        ++ (if 1 ≤ V then [Member.IsDeviceHighSpeed] else [])
        ++ (if 2 ≤ V then [Member.EnumLogEntry] else []) ∧
    (∀ m, m ∉ (HandleQueryInterface This o
          (queryFor USB_BUS_INTERFACE_USBDI_GUID V S buf) gs).written →
        (HandleQueryInterface This o
          (queryFor USB_BUS_INTERFACE_USBDI_GUID V S buf) gs).Interface m = buf m) ∧
    (HandleQueryInterface This o (queryFor USB_BUS_INTERFACE_USBDI_GUID V S buf) gs).Interface
      = fun m =>
        match m with
        | Member.Version => Cell.ushort V
        | Member.Size => Cell.ushort S
        | Member.BusContext => Cell.pointer This
        | Member.InterfaceReference => Cell.code BusFunction.USBI_InterfaceReference
        | Member.InterfaceDereference => Cell.code BusFunction.USBI_InterfaceDereference
        | Member.GetUSBDIVersion => Cell.code BusFunction.USBDI_GetUSBDIVersion
        | Member.QueryBusTime => Cell.code BusFunction.USBDI_QueryBusTime
        | Member.SubmitIsoOutUrb => Cell.code BusFunction.USBDI_SubmitIsoOutUrb
        | Member.QueryBusInformation => Cell.code BusFunction.USBDI_QueryBusInformation
        | Member.IsDeviceHighSpeed =>
          if 1 ≤ V then Cell.code BusFunction.USBDI_IsDeviceHighSpeed else buf m
        | Member.EnumLogEntry =>
          if 2 ≤ V then Cell.code BusFunction.USBDI_EnumLogEntry else buf m
        | Member.CreateUsbDevice => buf m
        | Member.InitializeUsbDevice => buf m
        | Member.GetUsbDescriptors => buf m
        | Member.RemoveUsbDevice => buf m
        | Member.RestoreUsbDevice => buf m
        | Member.GetPortHackFlags => buf m
        | Member.QueryDeviceInformation => buf m
        | Member.GetControllerInformation => buf m
        | Member.ControllerSelectiveSuspend => buf m
        | Member.GetExtendedHubInformation => buf m
        | Member.GetRootHubSymbolicName => buf m
        | Member.GetDeviceBusContext => buf m
        | Member.Initialize20Hub => buf m
        | Member.RootHubInitNotification => buf m
        | Member.FlushTransfers => buf m
        | Member.SetDeviceHandleData => buf m := by
  rw [HandleQueryInterface_usbdi_ok This o S V buf gs hV]
  simp only [fillUsbdiTable_written, fillUsbdiTable_buffer, store_written, store_buffer]
  refine ⟨trivial, ?_, ?_, ?_⟩
  · simp
  · intro m hm
    cases m <;> simp at hm ⊢ <;> simp [hm]
  · funext m
    cases m <;> simp

/-- C9, witness: version 1 into a table holding leftovers: `IsDeviceHighSpeed` is
filled, `EnumLogEntry` keeps its leftover. -/
theorem C9_usbdi_table_shape_witness :
    (1 : Nat) ≤ 2 ∧
    (HandleQueryInterface 0x5000 sampleHub
        (queryFor USB_BUS_INTERFACE_USBDI_GUID 1 72 staleTable)
        (STATUS_SUCCESS, ⟨0, 0, 0⟩)).Interface Member.IsDeviceHighSpeed
      = Cell.code BusFunction.USBDI_IsDeviceHighSpeed ∧
    (HandleQueryInterface 0x5000 sampleHub
        (queryFor USB_BUS_INTERFACE_USBDI_GUID 1 72 staleTable)
        (STATUS_SUCCESS, ⟨0, 0, 0⟩)).Interface Member.EnumLogEntry
      = Cell.ushort 0xCCCC :=
  ⟨by decide,
   congrFun (C9_usbdi_table_shape 0x5000 sampleHub 72 staleTable _ 1 (by decide)).2.2.2
     Member.IsDeviceHighSpeed,
   congrFun (C9_usbdi_table_shape 0x5000 sampleHub 72 staleTable _ 1 (by decide)).2.2.2
     Member.EnumLogEntry⟩

/-! ### C10 -/

/-- C10 (as amended): no `HandleQueryInterface` call changes the reference count.
Every call, successful (either family, any supported version) or failing, leaves
`m_Ref` and every other member of the hub object as they were; no reference is taken
on the caller's behalf when a table is handed out. -/
theorem C10_query_interface_keeps_refcount (This : PVOID) (o : CHubController)
    (q : QueryInterfaceParameters) (gs : NTSTATUS × UNICODE_STRING) :
    (HandleQueryInterface This o q gs).This.m_Ref = o.m_Ref ∧
    (HandleQueryInterface This o q gs).This = o := by
  rw [HandleQueryInterface_this]
  exact ⟨rfl, rfl⟩

/-- C10, counterexample: a successful hub-services query at version 0 on the sample
object (count 1) leaves the count at 1, not at 2. -/
theorem C10_counterexample_no_reference_taken :
    (HandleQueryInterface 0x5000 sampleHub
        (queryFor USB_BUS_INTERFACE_HUB_GUID 0 24 staleTable)
        (STATUS_SUCCESS, ⟨0, 0, 0⟩)).Status = STATUS_SUCCESS ∧
    (HandleQueryInterface 0x5000 sampleHub
        (queryFor USB_BUS_INTERFACE_HUB_GUID 0 24 staleTable)
        (STATUS_SUCCESS, ⟨0, 0, 0⟩)).This.m_Ref = 1 ∧
    (HandleQueryInterface 0x5000 sampleHub
        (queryFor USB_BUS_INTERFACE_HUB_GUID 0 24 staleTable)
        (STATUS_SUCCESS, ⟨0, 0, 0⟩)).This.m_Ref ≠ sampleHub.m_Ref + 1 := by
  refine ⟨by decide, by decide, by decide⟩

/-! ## Device-node creation -/

theorem NT_SUCCESS_collision : NT_SUCCESS STATUS_OBJECT_NAME_COLLISION = false := by decide

theorem NT_SUCCESS_success : NT_SUCCESS STATUS_SUCCESS = true := by decide

/-- A run of `k` calls answered with `STATUS_OBJECT_NAME_COLLISION` takes the loop from
call number `c` to call number `c + k`, the suffix following the call number modulo
`2^32`. -/
theorem CreatePDOLoop_collisions (f : DeviceFactory) (k : Nat) :
    ∀ (fuel c : Nat) (out : PVOID) (trace : List Effect),
      (∀ i, i < k →
        (f (c + i) (deviceName ((c + i) % 4294967296))).Status = STATUS_OBJECT_NAME_COLLISION) →
      CreatePDOLoop f (fuel + k) c (c % 4294967296) out trace
        = CreatePDOLoop f fuel (c + k) ((c + k) % 4294967296) out
            (trace ++ (List.range k).map fun i =>
              Effect.IoCreateDevice (deviceName ((c + i) % 4294967296))) := by
  induction k with
  | zero => intro fuel c out trace _; simp
  | succ j ih =>
    intro fuel c out trace h
    have h0 := h 0 (by omega)
    simp only [Nat.add_zero] at h0
    have hstep : CreatePDOLoop f (fuel + j + 1) c (c % 4294967296) out trace
        = CreatePDOLoop f (fuel + j) (c + 1) ((c + 1) % 4294967296) out
            (trace ++ [Effect.IoCreateDevice (deviceName (c % 4294967296))]) := by
      simp only [CreatePDOLoop, h0, NT_SUCCESS_collision]
      simp
    rw [show fuel + (j + 1) = fuel + j + 1 by omega, hstep, ih fuel (c + 1) out _ ?_]
    · rw [show c + 1 + j = c + (j + 1) by omega]
      congr 1
      rw [List.range_succ_eq_map, List.map_cons, List.map_map, List.append_assoc]
      simp only [List.singleton_append, Nat.add_zero]
      refine congrArg _ (congrArg _ (List.map_congr_left fun i _ => ?_))
      simp only [Function.comp, Nat.succ_eq_add_one]
      rw [show c + 1 + i = c + (i + 1) by omega]
    · intro i hi
      have := h (i + 1) (by omega)
      rwa [show c + (i + 1) = c + 1 + i by omega] at this

theorem CreatePDO_after_collisions (f : DeviceFactory) (k fuel : Nat) (out : PVOID)
    (h : ∀ i, i < k →
      (f i (deviceName (i % 4294967296))).Status = STATUS_OBJECT_NAME_COLLISION) :
    CreatePDO f (fuel + k) out
      = CreatePDOLoop f fuel k (k % 4294967296) out
          ((List.range k).map fun i => Effect.IoCreateDevice (deviceName (i % 4294967296))) := by
  have := CreatePDOLoop_collisions f k fuel 0 out [] (by simpa using h)
  simpa [CreatePDO] using this

/-- After `k` collisions, a call that passes `NT_SUCCESS` ends `CreatePDO` with that
call's status, handle and node. -/
theorem CreatePDO_success_at (f : DeviceFactory) (k : Nat) (out : PVOID)
    (hcol : ∀ i, i < k →
      (f i (deviceName (i % 4294967296))).Status = STATUS_OBJECT_NAME_COLLISION)
    (hok : NT_SUCCESS (f k (deviceName (k % 4294967296))).Status = true)
    (fuel : Nat) (hfuel : k < fuel) :
    CreatePDO f fuel out
      = some { Status := (f k (deviceName (k % 4294967296))).Status,
               OutDeviceObject := (f k (deviceName (k % 4294967296))).DeviceObject,
               Device := some (f k (deviceName (k % 4294967296))).Device,
               DeviceName := deviceName (k % 4294967296),
               trace := (List.range (k + 1)).map fun i =>
                 Effect.IoCreateDevice (deviceName (i % 4294967296)) } := by
  obtain ⟨m, rfl⟩ : ∃ m, fuel = (m + 1) + k := ⟨fuel - k - 1, by omega⟩
  rw [CreatePDO_after_collisions f k (m + 1) out hcol]
  simp only [CreatePDOLoop, hok, if_true]
  simp [List.range_succ]

/-- After `k` collisions, a call that fails with a status other than a name collision
ends `CreatePDO` with that status, the output slot untouched. -/
theorem CreatePDO_failure_at (f : DeviceFactory) (k : Nat) (out : PVOID)
    (hcol : ∀ i, i < k →
      (f i (deviceName (i % 4294967296))).Status = STATUS_OBJECT_NAME_COLLISION)
    (hfail : NT_SUCCESS (f k (deviceName (k % 4294967296))).Status = false)
    (hne : (f k (deviceName (k % 4294967296))).Status ≠ STATUS_OBJECT_NAME_COLLISION)
    (fuel : Nat) (hfuel : k < fuel) :
    CreatePDO f fuel out
      = some { Status := (f k (deviceName (k % 4294967296))).Status,
               OutDeviceObject := out,
               Device := none,
               DeviceName := deviceName (k % 4294967296),
               trace := (List.range (k + 1)).map fun i =>
                 Effect.IoCreateDevice (deviceName (i % 4294967296)) } := by
  obtain ⟨m, rfl⟩ : ∃ m, fuel = (m + 1) + k := ⟨fuel - k - 1, by omega⟩
  rw [CreatePDO_after_collisions f k (m + 1) out hcol]
  have hex : (f k (deviceName (k % 4294967296))).Status ≠ STATUS_OBJECT_NAME_EXISTS := by
    intro h
    rw [h] at hfail
    exact absurd hfail (by decide)
  simp only [CreatePDOLoop, hfail, hne, hex, or_self, if_false, Bool.false_eq_true,
    not_false_eq_true, if_true]
  simp [List.range_succ]

theorem range_succ_map_mod_nodup (k : Nat) (hk : k < 4294967296) :
    ((List.range (k + 1)).map (· % 4294967296)).Nodup := by
  have : (List.range (k + 1)).map (· % 4294967296) = List.range (k + 1) := by
    conv_rhs => rw [← List.map_id (List.range (k + 1))]
    apply List.map_congr_left
    intro i hi
    have := List.mem_range.mp hi
    simp only [id]
    omega
  rw [this]
  exact List.nodup_range _

theorem deviceName_small (k : Nat) (hk : k < 2147483648) :
    deviceName (k % 4294967296) = "\\Device\\USBPDO-".toList ++ (Nat.repr k).toList := by
  have h1 : k % 4294967296 = k := Nat.mod_eq_of_lt (by omega)
  simp only [deviceName, formatDecimal, h1, hk, if_true, Nat.repr]
  rfl

/-- The digit loop of the C runtime conversions needs only as many rounds as the number
has digits. -/
theorem toDigitsCore_fuel (b : Nat) (hb : 2 ≤ b) :
    ∀ (e fuel n : Nat) (ds : List Char), n < b ^ e → e ≤ fuel → 0 < e →
      Nat.toDigitsCore b fuel n ds = Nat.toDigitsCore b e n ds := by
  intro e
  induction e with
  | zero => intro fuel n ds _ _ h; omega
  | succ e ih =>
    intro fuel n ds hn hf _
    obtain ⟨f, rfl⟩ : ∃ f, fuel = f + 1 := ⟨fuel - 1, by omega⟩
    simp only [Nat.toDigitsCore]
    by_cases h0 : n / b = 0
    · simp [h0]
    · simp only [h0, if_false]
      have hlt : n / b < b ^ e := by
        rw [Nat.div_lt_iff_lt_mul (by omega)]
        rw [pow_succ] at hn
        exact hn
      have hpos : 0 < e := by
        rcases Nat.eq_zero_or_pos e with h | h
        · subst h
          simp at hlt
          omega
        · exact h
      exact ih f (n / b) _ hlt (by omega) hpos

theorem deviceName_wrapped :
    deviceName (2147483648 % 4294967296) = "\\Device\\USBPDO--2147483648".toList := by
  have h : Nat.toDigits 10 2147483648 = Nat.toDigitsCore 10 10 2147483648 [] :=
    toDigitsCore_fuel 10 (by decide) 10 _ _ _ (by decide) (by decide) (by decide)
  simp only [deviceName, formatDecimal]
  norm_num
  rw [h]
  rfl

/-! ### C14 -/

/-- C14 (as amended): for every `k >= 0`, if the factory answers the calls for the
suffixes 0..k-1 with `STATUS_OBJECT_NAME_COLLISION` and the call for suffix `k` with
`STATUS_SUCCESS`, then `CreatePDO` (run for more than `k` rounds) returns success with
the handle and node of that call, having called the factory exactly `k + 1` times,
once for each suffix in ascending order; the node is named `\Device\USBPDO-k` when
`k < 2^31`, and no suffix is used twice when `k < 2^32` (the suffix is a 32-bit counter
printed with `%d`). -/
theorem C14_naming_collision (f : DeviceFactory) (k : Nat) (out : PVOID)
    (hcol : ∀ i, i < k →
      (f i (deviceName (i % 4294967296))).Status = STATUS_OBJECT_NAME_COLLISION)
    (hok : (f k (deviceName (k % 4294967296))).Status = STATUS_SUCCESS)
    (fuel : Nat) (hfuel : k < fuel) :
    CreatePDO f fuel out
      = some { Status := STATUS_SUCCESS,
               OutDeviceObject := (f k (deviceName (k % 4294967296))).DeviceObject,
               Device := some (f k (deviceName (k % 4294967296))).Device,
               DeviceName := deviceName (k % 4294967296),
               trace := (List.range (k + 1)).map fun i =>
                 Effect.IoCreateDevice (deviceName (i % 4294967296)) } ∧
    (k < 2147483648 →
      deviceName (k % 4294967296) = "\\Device\\USBPDO-".toList ++ (Nat.repr k).toList) ∧
    (k < 4294967296 → ((List.range (k + 1)).map (· % 4294967296)).Nodup) := by
  refine ⟨?_, deviceName_small k, range_succ_map_mod_nodup k⟩
  have h := CreatePDO_success_at f k out hcol (by rw [hok]; decide) fuel hfuel
  rw [hok] at h
  exact h

/-- C14, witness: collisions for the suffixes 0..4 and success at suffix 5 give the node
`\Device\USBPDO-5` after six calls. -/
theorem C14_naming_collision_witness :
    (CreatePDO (scriptedFactory STATUS_OBJECT_NAME_COLLISION 5
        { Status := STATUS_SUCCESS, DeviceObject := 0x2000, Device := freshNode }) 6 0).map
        (fun r => r.DeviceName)
      = some "\\Device\\USBPDO-5".toList ∧
    (CreatePDO (scriptedFactory STATUS_OBJECT_NAME_COLLISION 5
        { Status := STATUS_SUCCESS, DeviceObject := 0x2000, Device := freshNode }) 6 0).map
        (fun r => r.trace.length)
      = some 6 :=
  ⟨congrArg (Option.map fun r => r.DeviceName)
      (C14_naming_collision _ 5 0 (fun i hi => by simp [scriptedFactory, hi])
        (by simp [scriptedFactory]) 6 (by decide)).1,
   congrArg (Option.map fun r => r.trace.length)
      (C14_naming_collision _ 5 0 (fun i hi => by simp [scriptedFactory, hi])
        (by simp [scriptedFactory]) 6 (by decide)).1⟩

/-- C14, counterexample: (1) a factory that answers suffix 0 with
`STATUS_OBJECT_NAME_EXISTS` and suffix 1 with success: `CreatePDO` returns after the
first call with the name-exists status and the name `\Device\USBPDO-0`, making no
second call; (2) collisions for the suffixes 0..2^31-1 and success at suffix 2^31: the
node is named `\Device\USBPDO--2147483648`. -/
theorem C14_counterexample_name_exists_and_sign :
    CreatePDO (scriptedFactory STATUS_OBJECT_NAME_EXISTS 1
        { Status := STATUS_SUCCESS, DeviceObject := 8192, Device := freshNode }) 2 0
      = some { Status := STATUS_OBJECT_NAME_EXISTS, OutDeviceObject := 0,
               Device := some freshNode, DeviceName := "\\Device\\USBPDO-0".toList,
               trace := [Effect.IoCreateDevice "\\Device\\USBPDO-0".toList] } ∧
    (CreatePDO (scriptedFactory STATUS_OBJECT_NAME_COLLISION 2147483648
        { Status := STATUS_SUCCESS, DeviceObject := 8192, Device := freshNode })
        2147483649 0).map (fun r => r.DeviceName)
      = some "\\Device\\USBPDO--2147483648".toList := by
  constructor
  · rfl
  · rw [CreatePDO_success_at _ 2147483648 0 (fun i hi => by simp [scriptedFactory, hi])
        (by simp [scriptedFactory, NT_SUCCESS_success]) 2147483649 (by decide),
      Option.map_some', deviceName_wrapped]

/-- The mask `~DO_DEVICE_INITIALIZING` as a 32-bit value. -/
theorem complement_initializing : complement32 DO_DEVICE_INITIALIZING = 0xFFFFFF7F := by decide

/-- Clearing `DO_DEVICE_INITIALIZING` in a 32-bit `Flags` clears bit 7 and keeps every
other bit. -/
theorem clear_initializing_testBit (Flags : Nat) (h : Flags < 4294967296) (i : Nat) :
    (Flags &&& complement32 DO_DEVICE_INITIALIZING).testBit i
      = (Flags.testBit i && decide (i ≠ 7)) := by
  rw [complement_initializing, Nat.testBit_and]
  by_cases hi : i < 32
  · interval_cases i <;> simp [Nat.testBit, Nat.shiftRight_eq_div_pow]
  · have h1 : Flags.testBit i = false :=
      Nat.testBit_eq_false_of_lt (lt_of_lt_of_le h (by
        calc 4294967296 = 2 ^ 32 := by norm_num
          _ ≤ 2 ^ i := Nat.pow_le_pow_right (by decide) (by omega)))
    simp [h1]

/-! ### C15 -/

/-- C15, the failing input: the factory answers suffix 0 with `STATUS_OBJECT_NAME_EXISTS`
and suffix 1 with the failure `STATUS_UNSUCCESSFUL`. The name-exists status passes
`NT_SUCCESS`, so the test on line 1151 ends the loop before the test for the two name
statuses on line 1157 is reached: `CreatePDO` returns the name-exists status after the
one call for suffix 0, and the failure of suffix 1 is never seen. With
`STATUS_OBJECT_NAME_COLLISION`, the other status of the test on line 1157, in the place
of name-exists, `CreatePDO` moves on to suffix 1 and returns `STATUS_UNSUCCESSFUL` after
two calls, the output slot untouched. -/
theorem C15_name_exists_ends_loop :
    NT_SUCCESS STATUS_OBJECT_NAME_EXISTS = true ∧
    CreatePDO (scriptedFactory STATUS_OBJECT_NAME_EXISTS 1
        { Status := STATUS_UNSUCCESSFUL, DeviceObject := 0, Device := freshNode }) 2 77
      = some { Status := STATUS_OBJECT_NAME_EXISTS, OutDeviceObject := 0,
               Device := some freshNode, DeviceName := "\\Device\\USBPDO-0".toList,
               trace := [Effect.IoCreateDevice "\\Device\\USBPDO-0".toList] } ∧
    STATUS_OBJECT_NAME_EXISTS ≠ STATUS_UNSUCCESSFUL ∧
    CreatePDO (scriptedFactory STATUS_OBJECT_NAME_COLLISION 1
        { Status := STATUS_UNSUCCESSFUL, DeviceObject := 0, Device := freshNode }) 2 77
      = some { Status := STATUS_UNSUCCESSFUL, OutDeviceObject := 77, Device := none,
               DeviceName := "\\Device\\USBPDO-1".toList,
               trace := [Effect.IoCreateDevice "\\Device\\USBPDO-0".toList,
                         Effect.IoCreateDevice "\\Device\\USBPDO-1".toList] } :=
  ⟨by decide, rfl, by decide, rfl⟩

/-- After `k` collisions, a call that fails with a status other than a name collision
makes `Initialize` return that status. -/
theorem Initialize_failure_at (This : PVOID) (o : CHubController)
    (DriverObject Controller Device : PVOID) (IsRootHubDevice : Bool) (DeviceAddress : Nat)
    (f : DeviceFactory) (k : Nat)
    (hcol : ∀ i, i < k →
      (f i (deviceName (i % 4294967296))).Status = STATUS_OBJECT_NAME_COLLISION)
    (hfail : NT_SUCCESS (f k (deviceName (k % 4294967296))).Status = false)
    (hne : (f k (deviceName (k % 4294967296))).Status ≠ STATUS_OBJECT_NAME_COLLISION)
    (fuel : Nat) (hfuel : k < fuel) :
    ∃ r, Initialize This o DriverObject Controller Device IsRootHubDevice DeviceAddress f fuel
        = some r ∧ r.Status = (f k (deviceName (k % 4294967296))).Status := by
  simp only [Initialize, CreatePDO_failure_at f k _ hcol hfail hne fuel hfuel, hfail]
  simp

/-! ### C16 -/

/-- C16 (as amended): when device-node creation fails for a reason other than a naming
collision (after any number `k` of `STATUS_OBJECT_NAME_COLLISION` answers the factory
reports a failure status `st` that is not a name collision), `Initialize` returns and
fails with exactly the status `st` the factory reported. -/
theorem C16_initialize_surfaces_status (This : PVOID) (o : CHubController)
    (DriverObject Controller Device : PVOID) (IsRootHubDevice : Bool) (DeviceAddress : Nat)
    (f : DeviceFactory) (k : Nat) (st : NTSTATUS)
    (hcol : ∀ i, i < k →
      (f i (deviceName (i % 4294967296))).Status = STATUS_OBJECT_NAME_COLLISION)
    (hst : (f k (deviceName (k % 4294967296))).Status = st)
    (hfail : NT_SUCCESS st = false) (hne : st ≠ STATUS_OBJECT_NAME_COLLISION)
    (fuel : Nat) (hfuel : k < fuel) :
    ∃ r, Initialize This o DriverObject Controller Device IsRootHubDevice DeviceAddress f fuel
        = some r ∧ r.Status = st := by
  subst hst
  exact Initialize_failure_at This o DriverObject Controller Device IsRootHubDevice
    DeviceAddress f k hcol hfail hne fuel hfuel

/-- C16, witness: two collisions, then `STATUS_INVALID_DEVICE_REQUEST`. -/
theorem C16_initialize_surfaces_status_witness :
    ∃ r, Initialize 0x5000 zeroFilled 0x1000 0x1100 0x1200 true 0
        (scriptedFactory STATUS_OBJECT_NAME_COLLISION 2
          { Status := STATUS_INVALID_DEVICE_REQUEST, DeviceObject := 0, Device := freshNode })
        3 = some r ∧ r.Status = STATUS_INVALID_DEVICE_REQUEST :=
  C16_initialize_surfaces_status 0x5000 zeroFilled 0x1000 0x1100 0x1200 true 0 _ 2
    STATUS_INVALID_DEVICE_REQUEST (fun i hi => by simp [scriptedFactory, hi])
    (by simp [scriptedFactory]) (by decide) (by decide) 3 (by decide)

/-- C16, counterexample: the factory fails at suffix 0 with `STATUS_UNSUCCESSFUL`;
`Initialize` returns `STATUS_UNSUCCESSFUL`, not `STATUS_INSUFFICIENT_RESOURCES`. -/
theorem C16_counterexample_status_not_mapped :
    (Initialize 0x5000 zeroFilled 0x1000 0x1100 0x1200 true 0
        (scriptedFactory STATUS_OBJECT_NAME_COLLISION 0
          { Status := STATUS_UNSUCCESSFUL, DeviceObject := 0, Device := freshNode })
        1).map (fun r => r.Status) = some STATUS_UNSUCCESSFUL ∧
    STATUS_UNSUCCESSFUL ≠ STATUS_INSUFFICIENT_RESOURCES := by
  constructor
  · rfl
  · decide

/-- After `k` collisions and a call that passes `NT_SUCCESS` and hands out a non-null
handle, `Initialize` succeeds: the members hold the arguments and the new handle, the
node's extension is filled in and its initializing flag is masked out. -/
theorem Initialize_success_at (This : PVOID) (o : CHubController)
    (DriverObject Controller Device : PVOID) (IsRootHubDevice : Bool) (DeviceAddress : Nat)
    (f : DeviceFactory) (k : Nat)
    (hcol : ∀ i, i < k →
      (f i (deviceName (i % 4294967296))).Status = STATUS_OBJECT_NAME_COLLISION)
    (hok : NT_SUCCESS (f k (deviceName (k % 4294967296))).Status = true)
    (hhandle : (f k (deviceName (k % 4294967296))).DeviceObject ≠ 0)
    (fuel : Nat) (hfuel : k < fuel) :
    Initialize This o DriverObject Controller Device IsRootHubDevice DeviceAddress f fuel
      = some { Status := STATUS_SUCCESS,
               This := { o with
                 m_Controller := Controller, m_Hardware := Device,
                 m_IsRootHubDevice := IsRootHubDevice, m_DeviceAddress := DeviceAddress,
                 m_DriverObject := DriverObject,
                 m_HubControllerDeviceObject :=
                   (f k (deviceName (k % 4294967296))).DeviceObject },
               Device := some {
                 Flags := (f k (deviceName (k % 4294967296))).Device.Flags
                   &&& complement32 DO_DEVICE_INITIALIZING,
                 DeviceExtension := { IsFDO := false, IsHub := true,
                                      Dispatcher := PDISPATCHIRP This } },
               trace := (List.range (k + 1)).map fun i =>
                 Effect.IoCreateDevice (deviceName (i % 4294967296)) } := by
  simp only [Initialize, CreatePDO_success_at f k _ hcol hok fuel hfuel, hok]
  simp [hhandle]

/-- After `k` collisions, a call that passes `NT_SUCCESS` while handing out a null handle
leaves `Initialize` without a result: line 115 dereferences the stored handle. -/
theorem Initialize_null_handle (This : PVOID) (o : CHubController)
    (DriverObject Controller Device : PVOID) (IsRootHubDevice : Bool) (DeviceAddress : Nat)
    (f : DeviceFactory) (k : Nat)
    (hcol : ∀ i, i < k →
      (f i (deviceName (i % 4294967296))).Status = STATUS_OBJECT_NAME_COLLISION)
    (hok : NT_SUCCESS (f k (deviceName (k % 4294967296))).Status = true)
    (hnull : (f k (deviceName (k % 4294967296))).DeviceObject = 0)
    (fuel : Nat) (hfuel : k < fuel) :
    Initialize This o DriverObject Controller Device IsRootHubDevice DeviceAddress f fuel
      = none := by
  simp only [Initialize, CreatePDO_success_at f k _ hcol hok fuel hfuel, hok]
  simp [hnull]

/-! ### C17 -/

/-- C17: when node creation succeeds (after any number `k` of name collisions a call
passes `NT_SUCCESS` and hands out a node, that is a non-null handle), `Initialize`
returns success and afterwards the stored controller, hardware, root-hub flag and device
address equal the arguments, the stored device node is the handle the factory returned
and `GetHubControllerDeviceObject` returns exactly that handle with success, the node's
extension is marked non-FDO, hub, with this object as dispatcher (the address stored is
`PDISPATCHIRP(this)`, the object's `IDispatchIrp` part), and the node's initializing
flag (bit 7 of the 32-bit `Flags`) is cleared while every other flag bit is unchanged. -/
theorem C17_initialize_success (This : PVOID) (o : CHubController)
    (DriverObject Controller Device : PVOID) (IsRootHubDevice : Bool) (DeviceAddress : Nat)
    (f : DeviceFactory) (k : Nat) (slot : PVOID)
    (hcol : ∀ i, i < k →
      (f i (deviceName (i % 4294967296))).Status = STATUS_OBJECT_NAME_COLLISION)
    (hok : NT_SUCCESS (f k (deviceName (k % 4294967296))).Status = true)
    (hhandle : (f k (deviceName (k % 4294967296))).DeviceObject ≠ 0)
    (hflags : (f k (deviceName (k % 4294967296))).Device.Flags < 4294967296)
    (fuel : Nat) (hfuel : k < fuel) :
    ∃ r node,
      Initialize This o DriverObject Controller Device IsRootHubDevice DeviceAddress f fuel
        = some r ∧
      r.Status = STATUS_SUCCESS ∧
      r.This.m_Controller = Controller ∧ r.This.m_Hardware = Device ∧
      r.This.m_IsRootHubDevice = IsRootHubDevice ∧ r.This.m_DeviceAddress = DeviceAddress ∧
      r.This.m_HubControllerDeviceObject = (f k (deviceName (k % 4294967296))).DeviceObject ∧
      GetHubControllerDeviceObject r.This slot
        = (STATUS_SUCCESS, (f k (deviceName (k % 4294967296))).DeviceObject) ∧
      r.Device = some node ∧
      node.DeviceExtension
        = { IsFDO := false, IsHub := true, Dispatcher := PDISPATCHIRP This } ∧
      node.Flags.testBit 7 = false ∧
      ∀ i, i ≠ 7 →
        node.Flags.testBit i = (f k (deviceName (k % 4294967296))).Device.Flags.testBit i := by
  refine ⟨_, _, Initialize_success_at This o DriverObject Controller Device IsRootHubDevice
    DeviceAddress f k hcol hok hhandle fuel hfuel,
    rfl, rfl, rfl, rfl, rfl, rfl, rfl, rfl, rfl, ?_, ?_⟩
  · simp [clear_initializing_testBit _ hflags]
  · intro i hi
    simp [clear_initializing_testBit _ hflags, hi]

/-- C17, witness: two collisions, then the node at `0x2000`; for the hub object at
`0x5000` the dispatcher stored is `0x5008`. -/
theorem C17_initialize_success_witness :
    ∃ r node,
      Initialize 0x5000 zeroFilled 0x1000 0x1100 0x1200 true 0
        (scriptedFactory STATUS_OBJECT_NAME_COLLISION 2
          { Status := STATUS_SUCCESS, DeviceObject := 0x2000, Device := freshNode }) 3
        = some r ∧
      r.Status = STATUS_SUCCESS ∧
      r.This.m_Controller = 0x1100 ∧ r.This.m_Hardware = 0x1200 ∧
      r.This.m_IsRootHubDevice = true ∧ r.This.m_DeviceAddress = 0 ∧
      r.This.m_HubControllerDeviceObject = 0x2000 ∧
      GetHubControllerDeviceObject r.This 0 = (STATUS_SUCCESS, 0x2000) ∧
      r.Device = some node ∧
      node.DeviceExtension = { IsFDO := false, IsHub := true, Dispatcher := 0x5008 } ∧
      node.Flags.testBit 7 = false ∧
      ∀ i, i ≠ 7 → node.Flags.testBit i = freshNode.Flags.testBit i :=
  C17_initialize_success 0x5000 zeroFilled 0x1000 0x1100 0x1200 true 0
    (scriptedFactory STATUS_OBJECT_NAME_COLLISION 2
      { Status := STATUS_SUCCESS, DeviceObject := 0x2000, Device := freshNode }) 2 0
    (fun i hi => by simp [scriptedFactory, hi]) (by simp [scriptedFactory, NT_SUCCESS_success])
    (by simp [scriptedFactory]) (by simp [scriptedFactory, freshNode]) 3 (by decide)

/-! ## Lifecycle requests -/

/-- A 16-bit number has at most four hexadecimal digits. -/
theorem toDigits16_small (v : Nat) (hv : v < 65536) :
    Nat.toDigits 16 v = Nat.toDigitsCore 16 4 v [] := by
  by_cases h : v < 3
  · interval_cases v <;> rfl
  · exact toDigitsCore_fuel 16 (by decide) 4 _ _ _ (by simpa using hv) (by omega) (by decide)

/-- For a 16-bit number `%04x` gives exactly its four lower-case hexadecimal digits. -/
theorem formatHex04_eq (v : Nat) (hv : v < 65536) : formatHex04 v = fourHexDigits v := by
  simp only [formatHex04, toDigits16_small v hv, Nat.toDigitsCore, fourHexDigits]
  by_cases h1 : v / 16 = 0
  · have a : v / 4096 % 16 = 0 := by omega
    have b : v / 256 % 16 = 0 := by omega
    have c : v / 16 % 16 = 0 := by omega
    simp [h1, a, b, c]
    rfl
  · by_cases h2 : v / 16 / 16 = 0
    · have a : v / 4096 % 16 = 0 := by omega
      have b : v / 256 % 16 = 0 := by omega
      simp [h1, h2, a, b]
      rfl
    · by_cases h3 : v / 16 / 16 / 16 = 0
      · have a : v / 4096 % 16 = 0 := by omega
        have b : v / 16 / 16 % 16 = v / 256 % 16 := by omega
        simp [h1, h2, h3, a, b]
        rfl
      · have a : v / 16 / 16 / 16 % 16 = v / 4096 % 16 := by omega
        have b : v / 16 / 16 % 16 = v / 256 % 16 := by omega
        have c : v / 16 / 16 / 16 / 16 = 0 := by omega
        simp [h1, h2, h3, a, b, c]

/-- Writing right behind a prefix `P` extends the prefix. -/
theorem writeAt_prefix (P R t : List WCHAR) :
    writeAt (P ++ R) P.length t = (P ++ t) ++ (P ++ R).drop (P.length + t.length) := by
  simp [writeAt]

/-- Writing at the start of the buffer replaces its first characters. -/
theorem writeAt_zero (B t : List WCHAR) : writeAt B 0 t = t ++ B.drop t.length := by
  simp [writeAt]

/-- The first `Index` characters of the buffer `buildHardwareIds` leaves are the three
strings as a multi-string, whatever the buffer held before. -/
theorem buildHardwareIds_take (B : List WCHAR) (HiSpeed VendorID DeviceID : Nat) :
    (buildHardwareIds B HiSpeed VendorID DeviceID).1.take
        (buildHardwareIds B HiSpeed VendorID DeviceID).2
      = multiString
          (if HiSpeed ≠ 0 then
            ["USB\\ROOT_HUB20&VID".toList ++ formatHex04 VendorID ++ "&PID".toList
                ++ formatHex04 DeviceID ++ "&REV0000".toList,
             "USB\\ROOT_HUB20&VID".toList ++ formatHex04 VendorID ++ "&PID".toList
                ++ formatHex04 DeviceID,
             "USB\\ROOT_HUB20".toList]
          else
            ["USB\\ROOT_HUB&VID".toList ++ formatHex04 VendorID ++ "&PID".toList
                ++ formatHex04 DeviceID ++ "&REV0000".toList,
             "USB\\ROOT_HUB&VID".toList ++ formatHex04 VendorID ++ "&PID".toList
                ++ formatHex04 DeviceID,
             "USB\\ROOT_HUB".toList]) := by
  have key : ∀ t1 t2 t3 : List WCHAR,
      (writeAt (swprintf (swprintf (swprintf B 0 t1).1 (0 + ((swprintf B 0 t1).2 + 1)) t2).1
          (0 + ((swprintf B 0 t1).2 + 1)
            + ((swprintf (swprintf B 0 t1).1 (0 + ((swprintf B 0 t1).2 + 1)) t2).2 + 1)) t3).1
          (0 + ((swprintf B 0 t1).2 + 1)
            + ((swprintf (swprintf B 0 t1).1 (0 + ((swprintf B 0 t1).2 + 1)) t2).2 + 1)
            + ((swprintf (swprintf (swprintf B 0 t1).1 (0 + ((swprintf B 0 t1).2 + 1)) t2).1
                (0 + ((swprintf B 0 t1).2 + 1)
                  + ((swprintf (swprintf B 0 t1).1 (0 + ((swprintf B 0 t1).2 + 1)) t2).2 + 1))
                t3).2 + 1))
          [UNICODE_NULL]).take
        (0 + ((swprintf B 0 t1).2 + 1)
            + ((swprintf (swprintf B 0 t1).1 (0 + ((swprintf B 0 t1).2 + 1)) t2).2 + 1)
            + ((swprintf (swprintf (swprintf B 0 t1).1 (0 + ((swprintf B 0 t1).2 + 1)) t2).1
                (0 + ((swprintf B 0 t1).2 + 1)
                  + ((swprintf (swprintf B 0 t1).1 (0 + ((swprintf B 0 t1).2 + 1)) t2).2 + 1))
                t3).2 + 1) + 1)
        = multiString [t1, t2, t3] := by
    intro t1 t2 t3
    simp only [swprintf, Nat.zero_add]
    rw [writeAt_zero]
    have e1 : t1.length + 1 = (t1 ++ [UNICODE_NULL]).length := by simp
    rw [e1, writeAt_prefix]
    have e2 : (t1 ++ [UNICODE_NULL]).length + (t2.length + 1)
        = (t1 ++ [UNICODE_NULL] ++ (t2 ++ [UNICODE_NULL])).length := by simp; omega
    rw [e2, writeAt_prefix]
    have e3 : (t1 ++ [UNICODE_NULL] ++ (t2 ++ [UNICODE_NULL])).length + (t3.length + 1)
        = (t1 ++ [UNICODE_NULL] ++ (t2 ++ [UNICODE_NULL]) ++ (t3 ++ [UNICODE_NULL])).length := by
      simp; omega
    rw [e3, writeAt_prefix]
    have e4 : (t1 ++ [UNICODE_NULL] ++ (t2 ++ [UNICODE_NULL]) ++ (t3 ++ [UNICODE_NULL])).length + 1
        = (t1 ++ [UNICODE_NULL] ++ (t2 ++ [UNICODE_NULL]) ++ (t3 ++ [UNICODE_NULL])
            ++ [UNICODE_NULL]).length := by simp; omega
    rw [e4, List.take_left']
    · simp [multiString]
    · rfl
  unfold buildHardwareIds
  split_ifs
  · exact key _ _ _
  · exact key _ _ _

/-- The `BusQueryHardwareIDs` case with hardware present and the allocation succeeding:
the whole result, the ids printed being the reported ones, or `0x8086` and `0x3A37` when
the hardware query failed. -/
theorem HandlePnp_hardware_ids (This : PVOID) (o : CHubController) (Irp : IRP)
    (IoStack : PnpStackLocation) (env : PnpEnvironment)
    (hmin : IoStack.MinorFunction = IRP_MN_QUERY_ID)
    (hid : IoStack.IdType = BusQueryHardwareIDs)
    (hhw : o.m_Hardware ≠ 0) (halloc : env.ExAllocatePool ≠ 0) :
    HandlePnp This o Irp IoStack env
      = completeRequest STATUS_SUCCESS
          { Status := Irp.IoStatus.Status, This := o,
            Irp := { IoStatus := { Irp.IoStatus with Information := env.ExAllocatePool } },
            Capabilities := IoStack.Capabilities,
            Interface := IoStack.QueryInterface.Interface, written := [],
            allocated := some
              { Address := env.ExAllocatePool,
                Content := PoolContent.wide (multiString
                  ["USB\\ROOT_HUB20&VID".toList
                      ++ formatHex04 (if ¬ NT_SUCCESS env.GetDeviceDetails.Status then 0x8086
                          else env.GetDeviceDetails.VendorID)
                      ++ "&PID".toList
                      ++ formatHex04 (if ¬ NT_SUCCESS env.GetDeviceDetails.Status then 0x3A37
                          else env.GetDeviceDetails.DeviceID)
                      ++ "&REV0000".toList,
                   "USB\\ROOT_HUB20&VID".toList
                      ++ formatHex04 (if ¬ NT_SUCCESS env.GetDeviceDetails.Status then 0x8086
                          else env.GetDeviceDetails.VendorID)
                      ++ "&PID".toList
                      ++ formatHex04 (if ¬ NT_SUCCESS env.GetDeviceDetails.Status then 0x3A37
                          else env.GetDeviceDetails.DeviceID),
                   "USB\\ROOT_HUB20".toList]) },
            trace := [Effect.GetDeviceDetails,
              Effect.ExAllocatePool
                ((buildHardwareIds env.Buffer 1
                  (if ¬ NT_SUCCESS env.GetDeviceDetails.Status then 0x8086
                    else env.GetDeviceDetails.VendorID)
                  (if ¬ NT_SUCCESS env.GetDeviceDetails.Status then 0x3A37
                    else env.GetDeviceDetails.DeviceID)).2 * 2)] } := by
  have h1 : ¬ (IRP_MN_QUERY_ID = IRP_MN_START_DEVICE) := by decide
  have h2 : ¬ (BusQueryHardwareIDs = BusQueryDeviceID) := by decide
  simp only [HandlePnp, hmin, hid, h1, h2, if_false, if_true, hhw, halloc, ne_eq,
    not_false_eq_true, and_self, buildHardwareIds_take]
  simp

/-- The characters before the first terminator of a terminated text are the text. -/
theorem takeWhile_terminated (t R : List WCHAR) (h : ∀ c, c ∈ t → c ≠ UNICODE_NULL) :
    (t ++ UNICODE_NULL :: R).takeWhile (fun c => c ≠ UNICODE_NULL) = t := by
  induction t with
  | nil => simp
  | cons a t ih =>
    have ha : a ≠ UNICODE_NULL := h a (by simp)
    have ih2 := ih fun c hc => h c (by simp [hc])
    simp only [ne_eq, decide_not] at ih2
    simp [List.takeWhile_cons, ha, ih2]

/-- The length `wcslen` finds for a terminated text. -/
theorem wcslen_terminated (t R : List WCHAR) (h : ∀ c, c ∈ t → c ≠ UNICODE_NULL) :
    wcslen (t ++ UNICODE_NULL :: R) = t.length := by
  rw [wcslen, takeWhile_terminated t R h]

/-- What `wcscpy` copies from a terminated text: the text and its terminator. -/
theorem wcscpy_terminated (t R : List WCHAR) (h : ∀ c, c ∈ t → c ≠ UNICODE_NULL) :
    wcscpy (t ++ UNICODE_NULL :: R) = t ++ [UNICODE_NULL] := by
  rw [wcscpy, takeWhile_terminated t R h]

/-- The identity string holds no terminator. -/
theorem root_hub20_no_terminator : ∀ c, c ∈ "USB\\ROOT_HUB20".toList → c ≠ UNICODE_NULL := by
  decide

/-- The `BusQueryDeviceID` case with hardware present and the allocation succeeding: the
whole result. -/
theorem HandlePnp_device_id (This : PVOID) (o : CHubController) (Irp : IRP)
    (IoStack : PnpStackLocation) (env : PnpEnvironment)
    (hmin : IoStack.MinorFunction = IRP_MN_QUERY_ID)
    (hid : IoStack.IdType = BusQueryDeviceID)
    (hhw : o.m_Hardware ≠ 0) (halloc : env.ExAllocatePool ≠ 0) :
    HandlePnp This o Irp IoStack env
      = completeRequest STATUS_SUCCESS
          { Status := Irp.IoStatus.Status, This := o,
            Irp := { IoStatus := { Irp.IoStatus with Information := env.ExAllocatePool } },
            Capabilities := IoStack.Capabilities,
            Interface := IoStack.QueryInterface.Interface, written := [],
            allocated := some
              { Address := env.ExAllocatePool,
                Content := PoolContent.wide ("USB\\ROOT_HUB20".toList ++ [UNICODE_NULL]) },
            trace := [Effect.GetDeviceDetails, Effect.ExAllocatePool 30] } := by
  have h1 : ¬ (IRP_MN_QUERY_ID = IRP_MN_START_DEVICE) := by decide
  have hb : (swprintf env.Buffer 0 "USB\\ROOT_HUB20".toList).1
      = "USB\\ROOT_HUB20".toList ++ UNICODE_NULL :: env.Buffer.drop 15 := by
    simp [swprintf, writeAt]
  have hl := wcslen_terminated "USB\\ROOT_HUB20".toList (env.Buffer.drop 15)
    root_hub20_no_terminator
  have hc := wcscpy_terminated "USB\\ROOT_HUB20".toList (env.Buffer.drop 15)
    root_hub20_no_terminator
  simp only [HandlePnp, hmin, hid, h1, if_false, if_true, hhw, halloc, ne_eq,
    not_false_eq_true]
  have h10 : ¬ ((1 : Nat) = 0) := by decide
  rw [hb, if_pos h10, hl, hc]
  rfl

/-- The events of `SetDeviceInterface(FALSE)`. -/
theorem SetDeviceInterface_disable_trace (o : CHubController) (env : PnpEnvironment) :
    (SetDeviceInterface o false env).trace
      = if o.m_InterfaceEnabled = true then
          [Effect.IoSetDeviceInterfaceState o.m_HubDeviceInterfaceString false]
            ++ (if NT_SUCCESS env.IoSetDeviceInterfaceState = true then
                  [Effect.RtlFreeUnicodeString o.m_HubDeviceInterfaceString]
                else [])
            ++ [Effect.StoreInterfaceEnabled false]
        else [] := by
  unfold SetDeviceInterface
  by_cases h : o.m_InterfaceEnabled = true <;>
    by_cases h2 : NT_SUCCESS env.IoSetDeviceInterfaceState = true <;> simp [h, h2]

/-- Disabling the interface leaves the stored device node alone. -/
theorem SetDeviceInterface_disable_node (o : CHubController) (env : PnpEnvironment) :
    (SetDeviceInterface o false env).This.m_HubControllerDeviceObject
      = o.m_HubControllerDeviceObject := by
  unfold SetDeviceInterface
  by_cases h : o.m_InterfaceEnabled = true <;>
    by_cases h2 : NT_SUCCESS env.IoSetDeviceInterfaceState = true <;> simp [h, h2]

/-- After `SetDeviceInterface(FALSE)` the interface-enabled flag is false. -/
theorem SetDeviceInterface_disable_flag (o : CHubController) (env : PnpEnvironment) :
    (SetDeviceInterface o false env).This.m_InterfaceEnabled = false := by
  unfold SetDeviceInterface
  by_cases h : o.m_InterfaceEnabled = true <;>
    by_cases h2 : NT_SUCCESS env.IoSetDeviceInterfaceState = true <;> simp [h, h2]

/-- With the flag already false `SetDeviceInterface(FALSE)` does nothing. -/
theorem SetDeviceInterface_disable_idle (o : CHubController) (env : PnpEnvironment)
    (h : o.m_InterfaceEnabled = false) :
    SetDeviceInterface o false env = { Status := STATUS_SUCCESS, This := o, trace := [] } := by
  simp [SetDeviceInterface, h]

/-- The `IRP_MN_REMOVE_DEVICE` case: the whole result. -/
theorem HandlePnp_remove (This : PVOID) (o : CHubController) (Irp : IRP)
    (IoStack : PnpStackLocation) (env : PnpEnvironment)
    (hmin : IoStack.MinorFunction = IRP_MN_REMOVE_DEVICE) :
    HandlePnp This o Irp IoStack env
      = { Status := STATUS_SUCCESS,
          This := { (SetDeviceInterface o false env).This with
                    m_HubControllerDeviceObject := 0 },
          Irp := { IoStatus := { Irp.IoStatus with Status := STATUS_SUCCESS } },
          Capabilities := IoStack.Capabilities,
          Interface := IoStack.QueryInterface.Interface, written := [], allocated := none,
          trace := (SetDeviceInterface o false env).trace
            ++ [Effect.IoCompleteRequest STATUS_SUCCESS,
                Effect.IoDeleteDevice o.m_HubControllerDeviceObject,
                Effect.StoreHubControllerDeviceObject 0] } := by
  have h1 : ¬ (IRP_MN_REMOVE_DEVICE = IRP_MN_START_DEVICE) := by decide
  have h2 : ¬ (IRP_MN_REMOVE_DEVICE = IRP_MN_QUERY_ID) := by decide
  have h3 : ¬ (IRP_MN_REMOVE_DEVICE = IRP_MN_QUERY_CAPABILITIES) := by decide
  have h4 : ¬ (IRP_MN_REMOVE_DEVICE = IRP_MN_QUERY_INTERFACE) := by decide
  simp only [HandlePnp, hmin, h1, h2, h3, h4, if_false, if_true,
    SetDeviceInterface_disable_node]
  simp

/-! ### C11 -/

/-- C11 (amended): for every 16-bit vendor id and device id that the hardware reports
with success, the hardware-ids query with hardware present and the allocation succeeding
returns success, stores the block address in the request and fills the block with exactly
three strings in this order, each terminated and the list closed by one more terminator:
the ROOT_HUB20 form with ids and revision, the ROOT_HUB20 form with ids, and
USB\\ROOT_HUB20, the ids written as four zero-padded lower-case hexadecimal digits. -/
theorem C11_hardware_ids_lower_case (This : PVOID) (o : CHubController) (Irp : IRP)
    (IoStack : PnpStackLocation) (env : PnpEnvironment)
    (hmin : IoStack.MinorFunction = IRP_MN_QUERY_ID)
    (hid : IoStack.IdType = BusQueryHardwareIDs)
    (hhw : o.m_Hardware ≠ 0) (halloc : env.ExAllocatePool ≠ 0)
    (hok : NT_SUCCESS env.GetDeviceDetails.Status = true)
    (hv : env.GetDeviceDetails.VendorID < 65536)
    (hd : env.GetDeviceDetails.DeviceID < 65536) :
    (HandlePnp This o Irp IoStack env).Status = STATUS_SUCCESS ∧
    (HandlePnp This o Irp IoStack env).Irp.IoStatus.Status = STATUS_SUCCESS ∧
    (HandlePnp This o Irp IoStack env).Irp.IoStatus.Information = env.ExAllocatePool ∧
    (HandlePnp This o Irp IoStack env).allocated
      = some
          { Address := env.ExAllocatePool,
            Content := PoolContent.wide (multiString
              [ "USB\\ROOT_HUB20&VID".toList ++ fourHexDigits env.GetDeviceDetails.VendorID
                  ++ "&PID".toList ++ fourHexDigits env.GetDeviceDetails.DeviceID
                  ++ "&REV0000".toList,
                "USB\\ROOT_HUB20&VID".toList ++ fourHexDigits env.GetDeviceDetails.VendorID
                  ++ "&PID".toList ++ fourHexDigits env.GetDeviceDetails.DeviceID,
                "USB\\ROOT_HUB20".toList ]) } := by
  rw [HandlePnp_hardware_ids This o Irp IoStack env hmin hid hhw halloc]
  simp only [completeRequest, hok, not_true_eq_false, if_false, formatHex04_eq _ hv,
    formatHex04_eq _ hd, and_self]

/-- The sample request: reported ids 0x8086 and 0x3A37 give the three strings with
`8086` and `3a37`. -/
theorem C11_hardware_ids_lower_case_witness :
    (HandlePnp 0x5000 sampleHub sampleIrp (pnpRequest IRP_MN_QUERY_ID BusQueryHardwareIDs)
        sampleEnvironment).allocated
      = some
          { Address := 0x7000,
            Content := PoolContent.wide (multiString
              [ "USB\\ROOT_HUB20&VID8086&PID3a37&REV0000".toList,
                "USB\\ROOT_HUB20&VID8086&PID3a37".toList,
                "USB\\ROOT_HUB20".toList ]) } :=
  (C11_hardware_ids_lower_case 0x5000 sampleHub sampleIrp
    (pnpRequest IRP_MN_QUERY_ID BusQueryHardwareIDs) sampleEnvironment rfl rfl (by decide)
    (by decide) (by decide) (by decide) (by decide)).2.2.2

/-- C11 as stated fails: for the reported ids 0x8086 and 0x3A37 the query succeeds, yet
the block does not hold the strings with the upper-case `3A37`. -/
theorem C11_counterexample_upper_case :
    (HandlePnp 0x5000 sampleHub sampleIrp (pnpRequest IRP_MN_QUERY_ID BusQueryHardwareIDs)
        sampleEnvironment).Status = STATUS_SUCCESS ∧
    (HandlePnp 0x5000 sampleHub sampleIrp (pnpRequest IRP_MN_QUERY_ID BusQueryHardwareIDs)
        sampleEnvironment).allocated
      ≠ some
          { Address := 0x7000,
            Content := PoolContent.wide (multiString
              [ "USB\\ROOT_HUB20&VID8086&PID3A37&REV0000".toList,
                "USB\\ROOT_HUB20&VID8086&PID3A37".toList,
                "USB\\ROOT_HUB20".toList ]) } := by
  decide

/-! ### C12 -/

/-- C12: when the hardware query fails, whatever status of failure it returns and whatever
it leaves in its outputs, the hardware-ids query (hardware present, allocation
succeeding) returns success with exactly the block it produces when the hardware reports
vendor id 0x8086 and device id 0x3A37 with success, the identity query returns success
with its identity string, and in both cases the status returned and the status stored in
the request differ from the status of the hardware. -/
theorem C12_hardware_failure_absorbed (This : PVOID) (o : CHubController) (Irp : IRP)
    (IoStack : PnpStackLocation) (env : PnpEnvironment)
    (hmin : IoStack.MinorFunction = IRP_MN_QUERY_ID)
    (hhw : o.m_Hardware ≠ 0) (halloc : env.ExAllocatePool ≠ 0)
    (hfail : NT_SUCCESS env.GetDeviceDetails.Status = false) :
    (IoStack.IdType = BusQueryHardwareIDs →
      (HandlePnp This o Irp IoStack env).Status = STATUS_SUCCESS ∧
      (HandlePnp This o Irp IoStack env).Irp.IoStatus.Status = STATUS_SUCCESS ∧
      (HandlePnp This o Irp IoStack env).Status ≠ env.GetDeviceDetails.Status ∧
      ∀ NumPorts HiSpeed : Nat,
        (HandlePnp This o Irp IoStack env).allocated
          = (HandlePnp This o Irp IoStack
              { env with
                GetDeviceDetails :=
                  { Status := STATUS_SUCCESS, VendorID := 0x8086, DeviceID := 0x3A37,
                    NumPorts := NumPorts, HiSpeed := HiSpeed } }).allocated) ∧
    (IoStack.IdType = BusQueryDeviceID →
      (HandlePnp This o Irp IoStack env).Status = STATUS_SUCCESS ∧
      (HandlePnp This o Irp IoStack env).Irp.IoStatus.Status = STATUS_SUCCESS ∧
      (HandlePnp This o Irp IoStack env).Status ≠ env.GetDeviceDetails.Status ∧
      (HandlePnp This o Irp IoStack env).allocated
        = some
            { Address := env.ExAllocatePool,
              Content := PoolContent.wide ("USB\\ROOT_HUB20".toList ++ [UNICODE_NULL]) }) := by
  have hne : STATUS_SUCCESS ≠ env.GetDeviceDetails.Status := by
    intro h
    rw [← h, NT_SUCCESS_success] at hfail
    exact Bool.noConfusion hfail
  refine ⟨fun hid => ?_, fun hid => ?_⟩
  · refine ⟨?_, ?_, ?_, fun NumPorts HiSpeed => ?_⟩
    · rw [HandlePnp_hardware_ids This o Irp IoStack env hmin hid hhw halloc]
      rfl
    · rw [HandlePnp_hardware_ids This o Irp IoStack env hmin hid hhw halloc]
      rfl
    · rw [HandlePnp_hardware_ids This o Irp IoStack env hmin hid hhw halloc]
      exact hne
    · have e := HandlePnp_hardware_ids This o Irp IoStack
        { env with
          GetDeviceDetails :=
            { Status := STATUS_SUCCESS, VendorID := 0x8086, DeviceID := 0x3A37,
              NumPorts := NumPorts, HiSpeed := HiSpeed } } hmin hid hhw halloc
      rw [HandlePnp_hardware_ids This o Irp IoStack env hmin hid hhw halloc, e]
      simp only [completeRequest, hfail, NT_SUCCESS_success, Bool.false_eq_true,
        not_false_eq_true, not_true_eq_false, if_true, if_false]
  · rw [HandlePnp_device_id This o Irp IoStack env hmin hid hhw halloc]
    exact ⟨rfl, rfl, hne, rfl⟩

/-- The sample request against hardware failing with `STATUS_UNSUCCESSFUL` and leaving
0x1234 and 0xABCD in its outputs: the block holds the strings of 0x8086 and 0x3A37. -/
theorem C12_hardware_failure_absorbed_witness :
    (HandlePnp 0x5000 sampleHub sampleIrp (pnpRequest IRP_MN_QUERY_ID BusQueryHardwareIDs)
        failingEnvironment).Status = STATUS_SUCCESS ∧
    (HandlePnp 0x5000 sampleHub sampleIrp (pnpRequest IRP_MN_QUERY_ID BusQueryHardwareIDs)
        failingEnvironment).allocated
      = (HandlePnp 0x5000 sampleHub sampleIrp
          (pnpRequest IRP_MN_QUERY_ID BusQueryHardwareIDs) sampleEnvironment).allocated :=
  have h := (C12_hardware_failure_absorbed 0x5000 sampleHub sampleIrp
    (pnpRequest IRP_MN_QUERY_ID BusQueryHardwareIDs) failingEnvironment rfl (by decide)
    (by decide) (by decide)).1 rfl
  ⟨h.1, h.2.2.2 4 1⟩

/-! ### C13 -/

/-- C13 (amended): the identity form does not depend on the speed class the hardware
reports. With hardware present and the allocation succeeding, the identity query returns
USB\\ROOT_HUB20 and the hardware-ids query returns the three ROOT_HUB20 forms, whatever
the hardware stores in its speed output; the legacy ROOT_HUB forms are never produced. -/
theorem C13_identity_always_high_speed (This : PVOID) (o : CHubController) (Irp : IRP)
    (IoStack : PnpStackLocation) (env : PnpEnvironment)
    (hmin : IoStack.MinorFunction = IRP_MN_QUERY_ID)
    (hhw : o.m_Hardware ≠ 0) (halloc : env.ExAllocatePool ≠ 0) :
    (IoStack.IdType = BusQueryDeviceID →
      (HandlePnp This o Irp IoStack env).allocated
        = some
            { Address := env.ExAllocatePool,
              Content := PoolContent.wide ("USB\\ROOT_HUB20".toList ++ [UNICODE_NULL]) }) ∧
    (IoStack.IdType = BusQueryHardwareIDs →
      (HandlePnp This o Irp IoStack env).allocated
        = some
            { Address := env.ExAllocatePool,
              Content := PoolContent.wide (multiString
                [ "USB\\ROOT_HUB20&VID".toList
                    ++ formatHex04 (if ¬ NT_SUCCESS env.GetDeviceDetails.Status then 0x8086
                                    else env.GetDeviceDetails.VendorID)
                    ++ "&PID".toList
                    ++ formatHex04 (if ¬ NT_SUCCESS env.GetDeviceDetails.Status then 0x3A37
                                    else env.GetDeviceDetails.DeviceID)
                    ++ "&REV0000".toList,
                  "USB\\ROOT_HUB20&VID".toList
                    ++ formatHex04 (if ¬ NT_SUCCESS env.GetDeviceDetails.Status then 0x8086
                                    else env.GetDeviceDetails.VendorID)
                    ++ "&PID".toList
                    ++ formatHex04 (if ¬ NT_SUCCESS env.GetDeviceDetails.Status then 0x3A37
                                    else env.GetDeviceDetails.DeviceID),
                  "USB\\ROOT_HUB20".toList ]) }) := by
  refine ⟨fun hid => ?_, fun hid => ?_⟩
  · rw [HandlePnp_device_id This o Irp IoStack env hmin hid hhw halloc]
    rfl
  · rw [HandlePnp_hardware_ids This o Irp IoStack env hmin hid hhw halloc]
    rfl

/-- The sample request against hardware reporting a full-speed controller: the identity
is still USB\\ROOT_HUB20. -/
theorem C13_identity_always_high_speed_witness :
    (HandlePnp 0x5000 sampleHub sampleIrp (pnpRequest IRP_MN_QUERY_ID BusQueryDeviceID)
        fullSpeedEnvironment).allocated
      = some
          { Address := 0x7000,
            Content := PoolContent.wide ("USB\\ROOT_HUB20".toList ++ [UNICODE_NULL]) } :=
  (C13_identity_always_high_speed 0x5000 sampleHub sampleIrp
    (pnpRequest IRP_MN_QUERY_ID BusQueryDeviceID) fullSpeedEnvironment rfl (by decide)
    (by decide)).1 rfl

/-- C13 as stated fails: the hardware reports a controller that is not high-speed, and
neither the identity query returns the legacy USB\\ROOT_HUB nor the hardware-ids query the
legacy forms. -/
theorem C13_counterexample_speed_ignored :
    fullSpeedEnvironment.GetDeviceDetails.HiSpeed = 0 ∧
    (HandlePnp 0x5000 sampleHub sampleIrp (pnpRequest IRP_MN_QUERY_ID BusQueryDeviceID)
        fullSpeedEnvironment).allocated
      ≠ some
          { Address := 0x7000,
            Content := PoolContent.wide ("USB\\ROOT_HUB".toList ++ [UNICODE_NULL]) } ∧
    (HandlePnp 0x5000 sampleHub sampleIrp (pnpRequest IRP_MN_QUERY_ID BusQueryHardwareIDs)
        fullSpeedEnvironment).allocated
      ≠ some
          { Address := 0x7000,
            Content := PoolContent.wide (multiString
              [ "USB\\ROOT_HUB&VID8086&PID3a37&REV0000".toList,
                "USB\\ROOT_HUB&VID8086&PID3a37".toList,
                "USB\\ROOT_HUB".toList ]) } := by
  decide

/-! ### C18 -/

/-- C18 (amended): when Remove is handled twice in a row, whatever the outcomes of the
collaborators, the second handling returns success and leaves the object as the first
left it; it issues no call on the interface and frees no string; its events are the
completion of the request, one deletion call whose argument is the null handle the first
handling stored (not the node deleted before), and the nulling of the handle again. -/
theorem C18_second_remove (This : PVOID) (o : CHubController) (Irp Irp2 : IRP)
    (IoStack IoStack2 : PnpStackLocation) (env env2 : PnpEnvironment)
    (hmin : IoStack.MinorFunction = IRP_MN_REMOVE_DEVICE)
    (hmin2 : IoStack2.MinorFunction = IRP_MN_REMOVE_DEVICE) :
    (HandlePnp This (HandlePnp This o Irp IoStack env).This Irp2 IoStack2 env2).Status
      = STATUS_SUCCESS ∧
    (HandlePnp This (HandlePnp This o Irp IoStack env).This Irp2 IoStack2 env2).Irp.IoStatus.Status
      = STATUS_SUCCESS ∧
    (HandlePnp This (HandlePnp This o Irp IoStack env).This Irp2 IoStack2 env2).This
      = (HandlePnp This o Irp IoStack env).This ∧
    (HandlePnp This (HandlePnp This o Irp IoStack env).This Irp2 IoStack2 env2).trace
      = [Effect.IoCompleteRequest STATUS_SUCCESS, Effect.IoDeleteDevice 0,
         Effect.StoreHubControllerDeviceObject 0] := by
  have hflag : (HandlePnp This o Irp IoStack env).This.m_InterfaceEnabled = false := by
    rw [HandlePnp_remove This o Irp IoStack env hmin]
    exact SetDeviceInterface_disable_flag o env
  have hnode : (HandlePnp This o Irp IoStack env).This.m_HubControllerDeviceObject = 0 := by
    rw [HandlePnp_remove This o Irp IoStack env hmin]
  generalize (HandlePnp This o Irp IoStack env).This = x at hflag hnode
  rw [HandlePnp_remove This x Irp2 IoStack2 env2 hmin2,
    SetDeviceInterface_disable_idle x env2 hflag, hnode]
  refine ⟨rfl, rfl, ?_, rfl⟩
  cases x
  simp only at hnode
  subst hnode
  rfl

/-- Two Remove requests on the sample hub: the second one makes no call on the
interface. -/
theorem C18_second_remove_witness :
    (HandlePnp 0x5000
        (HandlePnp 0x5000 sampleHub sampleIrp (pnpRequest IRP_MN_REMOVE_DEVICE 0)
          sampleEnvironment).This
        sampleIrp (pnpRequest IRP_MN_REMOVE_DEVICE 0) sampleEnvironment).trace
      = [Effect.IoCompleteRequest STATUS_SUCCESS, Effect.IoDeleteDevice 0,
         Effect.StoreHubControllerDeviceObject 0] :=
  (C18_second_remove 0x5000 sampleHub sampleIrp sampleIrp (pnpRequest IRP_MN_REMOVE_DEVICE 0)
    (pnpRequest IRP_MN_REMOVE_DEVICE 0) sampleEnvironment sampleEnvironment rfl rfl).2.2.2

/-- C18 as stated fails: the second of two Remove requests on the sample hub issues a
device-node deletion, on the null handle. -/
theorem C18_counterexample_second_deletion :
    Effect.IoDeleteDevice 0
      ∈ (HandlePnp 0x5000
          (HandlePnp 0x5000 sampleHub sampleIrp (pnpRequest IRP_MN_REMOVE_DEVICE 0)
            sampleEnvironment).This
          sampleIrp (pnpRequest IRP_MN_REMOVE_DEVICE 0) sampleEnvironment).trace := by
  decide

/-! ### C19 -/

/-- C19 (amended): for every state of the object and every outcome of the collaborators,
handling Remove returns success and stores success in the request; its events are, in
order: if the interface-enabled flag was set, one call disabling the interface, then the
release of the interface string only if that call succeeded, then the clearing of the
flag; the completion of the request; one deletion of the stored device node; the nulling
of the stored node handle. Afterwards the stored handle is null and the flag is false. -/
theorem C19_remove_teardown (This : PVOID) (o : CHubController) (Irp : IRP)
    (IoStack : PnpStackLocation) (env : PnpEnvironment)
    (hmin : IoStack.MinorFunction = IRP_MN_REMOVE_DEVICE) :
    (HandlePnp This o Irp IoStack env).Status = STATUS_SUCCESS ∧
    (HandlePnp This o Irp IoStack env).Irp.IoStatus.Status = STATUS_SUCCESS ∧
    (HandlePnp This o Irp IoStack env).trace
      = (if o.m_InterfaceEnabled = true then
          [Effect.IoSetDeviceInterfaceState o.m_HubDeviceInterfaceString false]
            ++ (if NT_SUCCESS env.IoSetDeviceInterfaceState = true then
                  [Effect.RtlFreeUnicodeString o.m_HubDeviceInterfaceString]
                else [])
            ++ [Effect.StoreInterfaceEnabled false]
        else [])
        ++ [Effect.IoCompleteRequest STATUS_SUCCESS,
            Effect.IoDeleteDevice o.m_HubControllerDeviceObject,
            Effect.StoreHubControllerDeviceObject 0] ∧
    (HandlePnp This o Irp IoStack env).This.m_HubControllerDeviceObject = 0 ∧
    (HandlePnp This o Irp IoStack env).This.m_InterfaceEnabled = false := by
  rw [HandlePnp_remove This o Irp IoStack env hmin]
  exact ⟨rfl, rfl, by rw [SetDeviceInterface_disable_trace], rfl,
    SetDeviceInterface_disable_flag o env⟩

/-- The sample hub, holding node 0x2000 and an enabled interface, with every collaborator
succeeding: the interface is disabled and its string freed, the node deleted once. -/
theorem C19_remove_teardown_witness :
    (HandlePnp 0x5000 sampleHub sampleIrp (pnpRequest IRP_MN_REMOVE_DEVICE 0)
        sampleEnvironment).trace
      = [Effect.IoSetDeviceInterfaceState sampleHub.m_HubDeviceInterfaceString false,
         Effect.RtlFreeUnicodeString sampleHub.m_HubDeviceInterfaceString,
         Effect.StoreInterfaceEnabled false,
         Effect.IoCompleteRequest STATUS_SUCCESS,
         Effect.IoDeleteDevice 0x2000,
         Effect.StoreHubControllerDeviceObject 0] :=
  (C19_remove_teardown 0x5000 sampleHub sampleIrp (pnpRequest IRP_MN_REMOVE_DEVICE 0)
    sampleEnvironment rfl).2.2.1

/-- C19 as stated fails: the sample hub has a registered, enabled interface; when the
call disabling the interface fails, Remove returns success and the interface string is
not freed. -/
theorem C19_counterexample_string_kept :
    sampleHub.m_InterfaceEnabled = true ∧
    (HandlePnp 0x5000 sampleHub sampleIrp (pnpRequest IRP_MN_REMOVE_DEVICE 0)
        stuckEnvironment).Status = STATUS_SUCCESS ∧
    Effect.RtlFreeUnicodeString sampleHub.m_HubDeviceInterfaceString
      ∉ (HandlePnp 0x5000 sampleHub sampleIrp (pnpRequest IRP_MN_REMOVE_DEVICE 0)
          stuckEnvironment).trace ∧
    (HandlePnp 0x5000 sampleHub sampleIrp (pnpRequest IRP_MN_REMOVE_DEVICE 0)
        stuckEnvironment).This.m_HubDeviceInterfaceString
      = sampleHub.m_HubDeviceInterfaceString := by
  decide

/-! ### C20 -/

/-- C20 (amended): in the ordered events of one Remove handling, the events on the
interface (disabling it, freeing its string, clearing the flag) come first, none of them
a completion, a deletion or a store to the node handle; then the request is completed
with success; then the device node is deleted; last the stored node handle is nulled. -/
theorem C20_remove_order (This : PVOID) (o : CHubController) (Irp : IRP)
    (IoStack : PnpStackLocation) (env : PnpEnvironment)
    (hmin : IoStack.MinorFunction = IRP_MN_REMOVE_DEVICE) :
    (HandlePnp This o Irp IoStack env).trace
      = (SetDeviceInterface o false env).trace
        ++ [Effect.IoCompleteRequest STATUS_SUCCESS,
            Effect.IoDeleteDevice o.m_HubControllerDeviceObject,
            Effect.StoreHubControllerDeviceObject 0] ∧
    ∀ e, e ∈ (SetDeviceInterface o false env).trace →
      e = Effect.IoSetDeviceInterfaceState o.m_HubDeviceInterfaceString false ∨
      e = Effect.RtlFreeUnicodeString o.m_HubDeviceInterfaceString ∨
      e = Effect.StoreInterfaceEnabled false := by
  refine ⟨by rw [HandlePnp_remove This o Irp IoStack env hmin], fun e he => ?_⟩
  rw [SetDeviceInterface_disable_trace] at he
  by_cases h : o.m_InterfaceEnabled = true <;>
    by_cases h2 : NT_SUCCESS env.IoSetDeviceInterfaceState = true <;>
    simp [h, h2] at he <;> tauto

/-- The sample hub: completion is the fourth event, deletion the fifth. -/
theorem C20_remove_order_witness :
    (HandlePnp 0x5000 sampleHub sampleIrp (pnpRequest IRP_MN_REMOVE_DEVICE 0)
        sampleEnvironment).trace
      = (SetDeviceInterface sampleHub false sampleEnvironment).trace
        ++ [Effect.IoCompleteRequest STATUS_SUCCESS, Effect.IoDeleteDevice 0x2000,
            Effect.StoreHubControllerDeviceObject 0] :=
  (C20_remove_order 0x5000 sampleHub sampleIrp (pnpRequest IRP_MN_REMOVE_DEVICE 0)
    sampleEnvironment rfl).1

/-- C20 as stated fails: on the sample hub the call disabling the interface and the
release of its string come before the completion of the request. -/
theorem C20_counterexample_interface_first :
    List.indexOf (Effect.IoSetDeviceInterfaceState sampleHub.m_HubDeviceInterfaceString false)
        (HandlePnp 0x5000 sampleHub sampleIrp (pnpRequest IRP_MN_REMOVE_DEVICE 0)
          sampleEnvironment).trace = 0 ∧
    List.indexOf (Effect.RtlFreeUnicodeString sampleHub.m_HubDeviceInterfaceString)
        (HandlePnp 0x5000 sampleHub sampleIrp (pnpRequest IRP_MN_REMOVE_DEVICE 0)
          sampleEnvironment).trace = 1 ∧
    List.indexOf (Effect.IoCompleteRequest STATUS_SUCCESS)
        (HandlePnp 0x5000 sampleHub sampleIrp (pnpRequest IRP_MN_REMOVE_DEVICE 0)
          sampleEnvironment).trace = 3 := by
  decide

/-! ## Completion, capabilities, power and control requests -/

/-- No event of `SetDeviceInterface` is a completion. -/
theorem SetDeviceInterface_no_completion (o : CHubController) (Enable : Bool)
    (env : PnpEnvironment) :
    (SetDeviceInterface o Enable env).trace.filter isCompletion = [] := by
  cases Enable <;> by_cases h1 : NT_SUCCESS env.IoRegisterDeviceInterface.1 = true <;>
    by_cases h2 : o.m_InterfaceEnabled = true <;>
    by_cases h3 : NT_SUCCESS env.IoSetDeviceInterfaceState = true <;>
    simp [SetDeviceInterface, h1, h2, h3, isCompletion]

/-- No event of `HandleQueryInterface` is a completion. -/
theorem HandleQueryInterface_no_completion (This : PVOID) (o : CHubController)
    (IoStack : QueryInterfaceParameters) (guidString : NTSTATUS × UNICODE_STRING) :
    (HandleQueryInterface This o IoStack guidString).trace.filter isCompletion = [] := by
  by_cases h1 : IsEqualGUIDAligned IoStack.InterfaceType USB_BUS_INTERFACE_HUB_GUID = true <;>
    by_cases h2 : IsEqualGUIDAligned IoStack.InterfaceType USB_BUS_INTERFACE_USBDI_GUID = true <;>
    by_cases h3 : IoStack.Version ≥ 6 <;> by_cases h4 : IoStack.Version ≥ 3 <;>
    by_cases h5 : NT_SUCCESS guidString.1 = true <;>
    simp [HandleQueryInterface, h1, h2, h3, h4, h5, isCompletion]

/-- The events of `completeRequest`: one completion, with the status given, after the
events so far. -/
theorem completeRequest_completion (Status : NTSTATUS) (r : PnpResult)
    (h : r.trace.filter isCompletion = []) :
    (completeRequest Status r).trace.filter isCompletion
        = [Effect.IoCompleteRequest (completeRequest Status r).Status] ∧
    (completeRequest Status r).Irp.IoStatus.Status = (completeRequest Status r).Status := by
  simp [completeRequest, List.filter_append, h, isCompletion]

/-- On every path `HandlePnp` completes the request once, with the status it returns. -/
theorem HandlePnp_completion (This : PVOID) (o : CHubController) (Irp : IRP)
    (IoStack : PnpStackLocation) (env : PnpEnvironment) :
    (HandlePnp This o Irp IoStack env).trace.filter isCompletion
        = [Effect.IoCompleteRequest (HandlePnp This o Irp IoStack env).Status] ∧
    (HandlePnp This o Irp IoStack env).Irp.IoStatus.Status
        = (HandlePnp This o Irp IoStack env).Status := by
  unfold HandlePnp
  simp only []
  split_ifs <;>
    first
    | (apply completeRequest_completion
       first
       | rfl
       | exact SetDeviceInterface_no_completion _ _ _
       | exact HandleQueryInterface_no_completion _ _ _ _)
    | simp [List.filter_append, isCompletion, SetDeviceInterface_no_completion]

/-- On every path `HandleDeviceControl` completes the request once, with the status it
returns, having made no other call. -/
theorem HandleDeviceControl_completion (This : PVOID) (o : CHubController)
    (DeviceObject : PVOID) (Irp : IRP) (IoStack : DeviceControlStackLocation)
    (memory : Memory) :
    (HandleDeviceControl This o DeviceObject Irp IoStack memory).trace
        = [Effect.IoCompleteRequest
            (HandleDeviceControl This o DeviceObject Irp IoStack memory).Status] ∧
    (HandleDeviceControl This o DeviceObject Irp IoStack memory).Irp.IoStatus.Status
        = (HandleDeviceControl This o DeviceObject Irp IoStack memory).Status := by
  unfold HandleDeviceControl
  simp only []
  split_ifs <;> exact ⟨rfl, rfl⟩

/-- The default case of `HandlePnp`: the whole result. -/
theorem HandlePnp_default (This : PVOID) (o : CHubController) (Irp : IRP)
    (IoStack : PnpStackLocation) (env : PnpEnvironment)
    (h1 : IoStack.MinorFunction ≠ IRP_MN_START_DEVICE)
    (h2 : IoStack.MinorFunction ≠ IRP_MN_QUERY_ID)
    (h3 : IoStack.MinorFunction ≠ IRP_MN_QUERY_CAPABILITIES)
    (h4 : IoStack.MinorFunction ≠ IRP_MN_QUERY_INTERFACE)
    (h5 : IoStack.MinorFunction ≠ IRP_MN_REMOVE_DEVICE)
    (h6 : IoStack.MinorFunction ≠ IRP_MN_QUERY_BUS_INFORMATION)
    (h7 : IoStack.MinorFunction ≠ IRP_MN_STOP_DEVICE) :
    HandlePnp This o Irp IoStack env
      = completeRequest Irp.IoStatus.Status
          { Status := Irp.IoStatus.Status, This := o, Irp := Irp,
            Capabilities := IoStack.Capabilities,
            Interface := IoStack.QueryInterface.Interface, written := [], allocated := none,
            trace := [] } := by
  simp only [HandlePnp, h1, h2, h3, h4, h5, h6, h7, if_false]

/-- The `IRP_MN_STOP_DEVICE` case of `HandlePnp`: the whole result. -/
theorem HandlePnp_stop (This : PVOID) (o : CHubController) (Irp : IRP)
    (IoStack : PnpStackLocation) (env : PnpEnvironment)
    (hmin : IoStack.MinorFunction = IRP_MN_STOP_DEVICE) :
    HandlePnp This o Irp IoStack env
      = completeRequest STATUS_SUCCESS
          { Status := Irp.IoStatus.Status, This := o, Irp := Irp,
            Capabilities := IoStack.Capabilities,
            Interface := IoStack.QueryInterface.Interface, written := [], allocated := none,
            trace := [] } := by
  have h1 : ¬ (IRP_MN_STOP_DEVICE = IRP_MN_START_DEVICE) := by decide
  have h2 : ¬ (IRP_MN_STOP_DEVICE = IRP_MN_QUERY_ID) := by decide
  have h3 : ¬ (IRP_MN_STOP_DEVICE = IRP_MN_QUERY_CAPABILITIES) := by decide
  have h4 : ¬ (IRP_MN_STOP_DEVICE = IRP_MN_QUERY_INTERFACE) := by decide
  have h5 : ¬ (IRP_MN_STOP_DEVICE = IRP_MN_REMOVE_DEVICE) := by decide
  have h6 : ¬ (IRP_MN_STOP_DEVICE = IRP_MN_QUERY_BUS_INFORMATION) := by decide
  simp only [HandlePnp, hmin, h1, h2, h3, h4, h5, h6, if_false, if_true]

/-- The `IRP_MN_QUERY_CAPABILITIES` case of `HandlePnp`: the whole result. -/
theorem HandlePnp_capabilities (This : PVOID) (o : CHubController) (Irp : IRP)
    (IoStack : PnpStackLocation) (env : PnpEnvironment)
    (hmin : IoStack.MinorFunction = IRP_MN_QUERY_CAPABILITIES) :
    HandlePnp This o Irp IoStack env
      = completeRequest STATUS_SUCCESS
          { Status := Irp.IoStatus.Status, This := o, Irp := Irp,
            Capabilities := fillCapabilities IoStack.Capabilities,
            Interface := IoStack.QueryInterface.Interface, written := [], allocated := none,
            trace := [] } := by
  have h1 : ¬ (IRP_MN_QUERY_CAPABILITIES = IRP_MN_START_DEVICE) := by decide
  have h2 : ¬ (IRP_MN_QUERY_CAPABILITIES = IRP_MN_QUERY_ID) := by decide
  simp only [HandlePnp, hmin, h1, h2, if_false, if_true]

/-- The `IRP_MN_START_DEVICE` case of `HandlePnp`: the whole result. -/
theorem HandlePnp_start (This : PVOID) (o : CHubController) (Irp : IRP)
    (IoStack : PnpStackLocation) (env : PnpEnvironment)
    (hmin : IoStack.MinorFunction = IRP_MN_START_DEVICE) :
    HandlePnp This o Irp IoStack env
      = completeRequest (SetDeviceInterface o true env).Status
          { Status := Irp.IoStatus.Status, This := (SetDeviceInterface o true env).This,
            Irp := Irp, Capabilities := IoStack.Capabilities,
            Interface := IoStack.QueryInterface.Interface, written := [], allocated := none,
            trace := (SetDeviceInterface o true env).trace } := by
  simp only [HandlePnp, hmin, if_true]

/-- The `IRP_MN_QUERY_BUS_INFORMATION` case of `HandlePnp`: the whole result. -/
theorem HandlePnp_bus_information (This : PVOID) (o : CHubController) (Irp : IRP)
    (IoStack : PnpStackLocation) (env : PnpEnvironment)
    (hmin : IoStack.MinorFunction = IRP_MN_QUERY_BUS_INFORMATION) :
    HandlePnp This o Irp IoStack env
      = if env.ExAllocatePool ≠ 0 then
          completeRequest STATUS_SUCCESS
            { Status := Irp.IoStatus.Status, This := o,
              Irp := { IoStatus := { Irp.IoStatus with Information := env.ExAllocatePool } },
              Capabilities := IoStack.Capabilities,
              Interface := IoStack.QueryInterface.Interface, written := [],
              allocated := some
                { Address := env.ExAllocatePool,
                  Content := PoolContent.busInformation
                    { BusTypeGuid := GUID_BUS_TYPE_USB, LegacyBusType := PNPBus,
                      BusNumber := 0 } },
              trace := [Effect.ExAllocatePool 24] }
        else
          completeRequest STATUS_INSUFFICIENT_RESOURCES
            { Status := Irp.IoStatus.Status, This := o, Irp := Irp,
              Capabilities := IoStack.Capabilities,
              Interface := IoStack.QueryInterface.Interface, written := [],
              allocated := none, trace := [Effect.ExAllocatePool 24] } := by
  have h1 : ¬ (IRP_MN_QUERY_BUS_INFORMATION = IRP_MN_START_DEVICE) := by decide
  have h2 : ¬ (IRP_MN_QUERY_BUS_INFORMATION = IRP_MN_QUERY_ID) := by decide
  have h3 : ¬ (IRP_MN_QUERY_BUS_INFORMATION = IRP_MN_QUERY_CAPABILITIES) := by decide
  have h4 : ¬ (IRP_MN_QUERY_BUS_INFORMATION = IRP_MN_QUERY_INTERFACE) := by decide
  have h5 : ¬ (IRP_MN_QUERY_BUS_INFORMATION = IRP_MN_REMOVE_DEVICE) := by decide
  simp only [HandlePnp, hmin, h1, h2, h3, h4, h5, if_false, if_true]

/-- The `BusQueryDeviceID` and `BusQueryHardwareIDs` cases with hardware present and no
pool memory: the request fails, nothing is handed out, the request's information field
and the hub object are as before. -/
theorem HandlePnp_query_id_no_memory (This : PVOID) (o : CHubController) (Irp : IRP)
    (IoStack : PnpStackLocation) (env : PnpEnvironment)
    (hmin : IoStack.MinorFunction = IRP_MN_QUERY_ID)
    (hid : IoStack.IdType = BusQueryDeviceID ∨ IoStack.IdType = BusQueryHardwareIDs)
    (hhw : o.m_Hardware ≠ 0) (halloc : env.ExAllocatePool = 0) :
    (HandlePnp This o Irp IoStack env).Status = STATUS_INSUFFICIENT_RESOURCES ∧
    (HandlePnp This o Irp IoStack env).Irp.IoStatus.Information = Irp.IoStatus.Information ∧
    (HandlePnp This o Irp IoStack env).This = o ∧
    (HandlePnp This o Irp IoStack env).allocated = none := by
  have h1 : ¬ (IRP_MN_QUERY_ID = IRP_MN_START_DEVICE) := by decide
  have h2 : ¬ (BusQueryHardwareIDs = BusQueryDeviceID) := by decide
  rcases hid with hid | hid
  · simp only [HandlePnp, hmin, hid, h1, if_false, if_true, hhw, halloc, ne_eq,
      not_false_eq_true, completeRequest, and_self]
  · simp only [HandlePnp, hmin, hid, h1, h2, if_false, if_true, hhw, halloc, ne_eq,
      not_false_eq_true, completeRequest, and_self]

/-- With a power-state table of `PowerSystemMaximum` entries, `fillCapabilities` leaves
every entry at D3: the loop runs from index 0 and overwrites the D0 stored there. -/
theorem fillCapabilities_DeviceState (c : DEVICE_CAPABILITIES)
    (h : c.DeviceState.length = PowerSystemMaximum) :
    (fillCapabilities c).DeviceState = List.replicate PowerSystemMaximum PowerDeviceD3 := by
  have key : ∀ l : List Nat, l.length = 7 →
      (List.range PowerSystemMaximum).foldl (fun st Index => st.set Index PowerDeviceD3)
        (l.set 0 PowerDeviceD0) = List.replicate PowerSystemMaximum PowerDeviceD3 := by
    intro l hl
    rcases l with _ | ⟨a, _ | ⟨b, _ | ⟨c, _ | ⟨d, _ | ⟨e, _ | ⟨f, _ | ⟨g, _ | ⟨x, t⟩⟩⟩⟩⟩⟩⟩⟩ <;>
      simp at hl
    rfl
  exact key c.DeviceState h

/-- The events and the result of `SetDeviceInterface(TRUE)`. -/
theorem SetDeviceInterface_enable (o : CHubController) (env : PnpEnvironment) :
    SetDeviceInterface o true env
      = if NT_SUCCESS env.IoRegisterDeviceInterface.1 = true then
          { Status := env.IoSetDeviceInterfaceState,
            This := { o with m_HubDeviceInterfaceString := env.IoRegisterDeviceInterface.2,
                             m_InterfaceEnabled := true },
            trace := [Effect.IoRegisterDeviceInterface o.m_HubControllerDeviceObject,
                      Effect.IoSetDeviceInterfaceState env.IoRegisterDeviceInterface.2 true,
                      Effect.StoreInterfaceEnabled true] }
        else
          { Status := env.IoRegisterDeviceInterface.1,
            This := { o with m_HubDeviceInterfaceString := env.IoRegisterDeviceInterface.2 },
            trace := [Effect.IoRegisterDeviceInterface o.m_HubControllerDeviceObject] } := by
  by_cases h : NT_SUCCESS env.IoRegisterDeviceInterface.1 = true <;>
    simp [SetDeviceInterface, h]

/-- The get-device-handle case of `HandleDeviceControl`: the whole result. -/
theorem HandleDeviceControl_get_device_handle (This : PVOID) (o : CHubController)
    (DeviceObject : PVOID) (Irp : IRP) (IoStack : DeviceControlStackLocation)
    (memory : Memory)
    (hcode : IoStack.IoControlCode = IOCTL_INTERNAL_USB_GET_DEVICE_HANDLE) :
    HandleDeviceControl This o DeviceObject Irp IoStack memory
      = if IoStack.Argument1 ≠ 0 then
          completeControl STATUS_SUCCESS o Irp
            (MemoryWriter.store { content := memory, stores := [] } IoStack.Argument1 This)
        else
          completeControl STATUS_INVALID_DEVICE_REQUEST o Irp
            { content := memory, stores := [] } := by
  have h1 : ¬ (IOCTL_INTERNAL_USB_GET_DEVICE_HANDLE = IOCTL_INTERNAL_USB_SUBMIT_URB) := by
    decide
  simp only [HandleDeviceControl, hcode, h1, if_false, if_true]

/-- The cases of `HandleDeviceControl` that implement nothing (the submit-URB case and
every control code without a `case`): the whole result. -/
theorem HandleDeviceControl_not_implemented (This : PVOID) (o : CHubController)
    (DeviceObject : PVOID) (Irp : IRP) (IoStack : DeviceControlStackLocation)
    (memory : Memory)
    (hcode : IoStack.IoControlCode = IOCTL_INTERNAL_USB_SUBMIT_URB ∨
      (IoStack.IoControlCode ≠ IOCTL_INTERNAL_USB_GET_DEVICE_HANDLE ∧
       IoStack.IoControlCode ≠ IOCTL_INTERNAL_USB_GET_ROOTHUB_PDO ∧
       IoStack.IoControlCode ≠ IOCTL_INTERNAL_USB_GET_HUB_COUNT)) :
    HandleDeviceControl This o DeviceObject Irp IoStack memory
      = completeControl STATUS_NOT_IMPLEMENTED o Irp { content := memory, stores := [] } := by
  rcases hcode with h | ⟨h1, h2, h3⟩
  · simp only [HandleDeviceControl, h, if_true]
  · by_cases h : IoStack.IoControlCode = IOCTL_INTERNAL_USB_SUBMIT_URB
    · simp only [HandleDeviceControl, h, if_true]
    · simp only [HandleDeviceControl, h, h1, h2, h3, if_false]

/-! ### C21 -/

/-- C21: for every lifecycle request (every minor code, every id type, every query),
every control request and every power request, and every outcome of the collaborators,
each of `HandlePnp`, `HandleDeviceControl` and `HandlePower` completes the request
exactly once on the path taken: among its events there is one completion, and the
status recorded in the request at completion is the status the handler returns. -/
theorem C21_exactly_once_completion (This : PVOID) (o : CHubController)
    (DeviceObject : PVOID) (Irp : IRP) (IoStack : PnpStackLocation) (env : PnpEnvironment)
    (ControlStack : DeviceControlStackLocation) (memory : Memory) :
    ((HandlePnp This o Irp IoStack env).trace.filter isCompletion
        = [Effect.IoCompleteRequest (HandlePnp This o Irp IoStack env).Status] ∧
      (HandlePnp This o Irp IoStack env).Irp.IoStatus.Status
        = (HandlePnp This o Irp IoStack env).Status) ∧
    ((HandleDeviceControl This o DeviceObject Irp ControlStack memory).trace.filter isCompletion
        = [Effect.IoCompleteRequest
            (HandleDeviceControl This o DeviceObject Irp ControlStack memory).Status] ∧
      (HandleDeviceControl This o DeviceObject Irp ControlStack memory).Irp.IoStatus.Status
        = (HandleDeviceControl This o DeviceObject Irp ControlStack memory).Status) ∧
    ((HandlePower o DeviceObject Irp).trace.filter isCompletion
        = [Effect.IoCompleteRequest (HandlePower o DeviceObject Irp).Status] ∧
      (HandlePower o DeviceObject Irp).Irp.IoStatus.Status
        = (HandlePower o DeviceObject Irp).Status) := by
  refine ⟨HandlePnp_completion This o Irp IoStack env, ⟨?_, ?_⟩, ?_⟩
  · rw [(HandleDeviceControl_completion This o DeviceObject Irp ControlStack memory).1]
    rfl
  · exact (HandleDeviceControl_completion This o DeviceObject Irp ControlStack memory).2
  · exact ⟨rfl, rfl⟩

/-! ### C22 -/

/-- C22: for every minor code other than Start, Query-Id, Query-Capabilities,
Query-Interface, Remove, Query-Bus-Information and Stop, `HandlePnp` returns the status
the request carried on entry and completes the request with it, its only event; the
request (status and information field), the hub object, the capabilities record and the
interface table are as before and no block is handed out. -/
theorem C22_default_passes_status (This : PVOID) (o : CHubController) (Irp : IRP)
    (IoStack : PnpStackLocation) (env : PnpEnvironment)
    (h1 : IoStack.MinorFunction ≠ IRP_MN_START_DEVICE)
    (h2 : IoStack.MinorFunction ≠ IRP_MN_QUERY_ID)
    (h3 : IoStack.MinorFunction ≠ IRP_MN_QUERY_CAPABILITIES)
    (h4 : IoStack.MinorFunction ≠ IRP_MN_QUERY_INTERFACE)
    (h5 : IoStack.MinorFunction ≠ IRP_MN_REMOVE_DEVICE)
    (h6 : IoStack.MinorFunction ≠ IRP_MN_QUERY_BUS_INFORMATION)
    (h7 : IoStack.MinorFunction ≠ IRP_MN_STOP_DEVICE) :
    (HandlePnp This o Irp IoStack env).Status = Irp.IoStatus.Status ∧
    (HandlePnp This o Irp IoStack env).Irp = Irp ∧
    (HandlePnp This o Irp IoStack env).This = o ∧
    (HandlePnp This o Irp IoStack env).trace
      = [Effect.IoCompleteRequest Irp.IoStatus.Status] ∧
    (HandlePnp This o Irp IoStack env).Capabilities = IoStack.Capabilities ∧
    (HandlePnp This o Irp IoStack env).written = [] ∧
    (HandlePnp This o Irp IoStack env).allocated = none := by
  rw [HandlePnp_default This o Irp IoStack env h1 h2 h3 h4 h5 h6 h7]
  exact ⟨rfl, rfl, rfl, rfl, rfl, rfl, rfl⟩

/-- The minor code `0x07` (query device relations) on a request carrying
`STATUS_NOT_SUPPORTED`. -/
theorem C22_default_passes_status_witness :
    (HandlePnp 0x5000 sampleHub sampleIrp (pnpRequest 0x07 0) sampleEnvironment).Status
      = STATUS_NOT_SUPPORTED ∧
    (HandlePnp 0x5000 sampleHub sampleIrp (pnpRequest 0x07 0) sampleEnvironment).Irp
      = sampleIrp ∧
    (HandlePnp 0x5000 sampleHub sampleIrp (pnpRequest 0x07 0) sampleEnvironment).This
      = sampleHub :=
  have h := C22_default_passes_status 0x5000 sampleHub sampleIrp (pnpRequest 0x07 0)
    sampleEnvironment (by decide) (by decide) (by decide) (by decide) (by decide) (by decide)
    (by decide)
  ⟨h.1, h.2.1, h.2.2.1⟩

/-! ### C23 -/

/-- C23: Query-Capabilities returns success and completes the request with success,
whatever the caller's record held before, and in the record afterwards `LockSupported`,
`EjectSupported`, `Removable`, `DockDevice`, `UniqueID`, `SilentInstall`, `RawDeviceOK`,
`SurpriseRemovalOK`, `HardwareDisabled` and `NoDisplayInUI` are false, `Address` and
`UINumber` are 0, the three latencies are 0 and `DeviceWake` is unspecified. -/
theorem C23_capabilities_fixed_fields (This : PVOID) (o : CHubController) (Irp : IRP)
    (IoStack : PnpStackLocation) (env : PnpEnvironment)
    (hmin : IoStack.MinorFunction = IRP_MN_QUERY_CAPABILITIES) :
    (HandlePnp This o Irp IoStack env).Status = STATUS_SUCCESS ∧
    (HandlePnp This o Irp IoStack env).Irp.IoStatus.Status = STATUS_SUCCESS ∧
    (HandlePnp This o Irp IoStack env).Capabilities.LockSupported = false ∧
    (HandlePnp This o Irp IoStack env).Capabilities.EjectSupported = false ∧
    (HandlePnp This o Irp IoStack env).Capabilities.Removable = false ∧
    (HandlePnp This o Irp IoStack env).Capabilities.DockDevice = false ∧
    (HandlePnp This o Irp IoStack env).Capabilities.UniqueID = false ∧
    (HandlePnp This o Irp IoStack env).Capabilities.SilentInstall = false ∧
    (HandlePnp This o Irp IoStack env).Capabilities.RawDeviceOK = false ∧
    (HandlePnp This o Irp IoStack env).Capabilities.SurpriseRemovalOK = false ∧
    (HandlePnp This o Irp IoStack env).Capabilities.HardwareDisabled = false ∧
    (HandlePnp This o Irp IoStack env).Capabilities.NoDisplayInUI = false ∧
    (HandlePnp This o Irp IoStack env).Capabilities.Address = 0 ∧
    (HandlePnp This o Irp IoStack env).Capabilities.UINumber = 0 ∧
    (HandlePnp This o Irp IoStack env).Capabilities.D1Latency = 0 ∧
    (HandlePnp This o Irp IoStack env).Capabilities.D2Latency = 0 ∧
    (HandlePnp This o Irp IoStack env).Capabilities.D3Latency = 0 ∧
    (HandlePnp This o Irp IoStack env).Capabilities.DeviceWake = PowerDeviceUnspecified := by
  rw [HandlePnp_capabilities This o Irp IoStack env hmin]
  exact ⟨rfl, rfl, rfl, rfl, rfl, rfl, rfl, rfl, rfl, rfl, rfl, rfl, rfl, rfl, rfl, rfl, rfl, rfl⟩

/-- A record with every flag set and every number 9: the flags come back false, the
numbers 0. -/
theorem C23_capabilities_fixed_fields_witness :
    (HandlePnp 0x5000 sampleHub sampleIrp (pnpRequest IRP_MN_QUERY_CAPABILITIES 0)
        sampleEnvironment).Status = STATUS_SUCCESS ∧
    (HandlePnp 0x5000 sampleHub sampleIrp (pnpRequest IRP_MN_QUERY_CAPABILITIES 0)
        sampleEnvironment).Capabilities.Removable = false ∧
    (HandlePnp 0x5000 sampleHub sampleIrp (pnpRequest IRP_MN_QUERY_CAPABILITIES 0)
        sampleEnvironment).Capabilities.DeviceWake = PowerDeviceUnspecified :=
  have h := C23_capabilities_fixed_fields 0x5000 sampleHub sampleIrp
    (pnpRequest IRP_MN_QUERY_CAPABILITIES 0) sampleEnvironment rfl
  ⟨h.1, h.2.2.2.2.1, h.2.2.2.2.2.2.2.2.2.2.2.2.2.2.2.2.2⟩

/-! ### C24 -/

/-- C24 (amended): Query-Capabilities returns success and, for every record whose
power-state table has `PowerSystemMaximum` entries, sets the D2 support flag, leaves the
D1 support flag as the record held it, and maps every system state index from 1 up to
`PowerSystemMaximum - 1` to D3, whatever the record held before. -/
theorem C24_power_fields (This : PVOID) (o : CHubController) (Irp : IRP)
    (IoStack : PnpStackLocation) (env : PnpEnvironment)
    (hmin : IoStack.MinorFunction = IRP_MN_QUERY_CAPABILITIES)
    (hlen : IoStack.Capabilities.DeviceState.length = PowerSystemMaximum) :
    (HandlePnp This o Irp IoStack env).Status = STATUS_SUCCESS ∧
    (HandlePnp This o Irp IoStack env).Capabilities.DeviceD2 = true ∧
    (HandlePnp This o Irp IoStack env).Capabilities.DeviceD1 = IoStack.Capabilities.DeviceD1 ∧
    (HandlePnp This o Irp IoStack env).Capabilities.DeviceState.length = PowerSystemMaximum ∧
    ∀ i, 1 ≤ i → i < PowerSystemMaximum →
      (HandlePnp This o Irp IoStack env).Capabilities.DeviceState[i]? = some PowerDeviceD3 := by
  rw [HandlePnp_capabilities This o Irp IoStack env hmin]
  refine ⟨rfl, rfl, rfl, ?_, fun i _ hi => ?_⟩
  · show (fillCapabilities IoStack.Capabilities).DeviceState.length = PowerSystemMaximum
    rw [fillCapabilities_DeviceState _ hlen, List.length_replicate]
  · show (fillCapabilities IoStack.Capabilities).DeviceState[i]? = some PowerDeviceD3
    rw [fillCapabilities_DeviceState _ hlen]
    simp [List.getElem?_replicate, hi]

/-- A record with every flag set and a table of nines: D2 stays set and the entries 1..6
hold D3. -/
theorem C24_power_fields_witness :
    (HandlePnp 0x5000 sampleHub sampleIrp (pnpRequest IRP_MN_QUERY_CAPABILITIES 0)
        sampleEnvironment).Capabilities.DeviceD2 = true ∧
    ∀ i, 1 ≤ i → i < PowerSystemMaximum →
      (HandlePnp 0x5000 sampleHub sampleIrp (pnpRequest IRP_MN_QUERY_CAPABILITIES 0)
        sampleEnvironment).Capabilities.DeviceState[i]? = some PowerDeviceD3 :=
  have h := C24_power_fields 0x5000 sampleHub sampleIrp
    (pnpRequest IRP_MN_QUERY_CAPABILITIES 0) sampleEnvironment rfl rfl
  ⟨h.2.1, h.2.2.2.2⟩

/-- C24 as stated fails: on a record with the D1 flag clear and a table of zeros,
Query-Capabilities succeeds, the D1 flag is still clear, and index 0 of the table holds
D3, not D0. -/
theorem C24_counterexample_d1_and_index_zero :
    (HandlePnp 0x5000 sampleHub sampleIrp
        { pnpRequest IRP_MN_QUERY_CAPABILITIES 0 with Capabilities := clearedCapabilities }
        sampleEnvironment).Status = STATUS_SUCCESS ∧
    (HandlePnp 0x5000 sampleHub sampleIrp
        { pnpRequest IRP_MN_QUERY_CAPABILITIES 0 with Capabilities := clearedCapabilities }
        sampleEnvironment).Capabilities.DeviceD1 = false ∧
    (HandlePnp 0x5000 sampleHub sampleIrp
        { pnpRequest IRP_MN_QUERY_CAPABILITIES 0 with Capabilities := clearedCapabilities }
        sampleEnvironment).Capabilities.DeviceState[0]? = some PowerDeviceD3 ∧
    PowerDeviceD3 ≠ PowerDeviceD0 := by
  decide

/-! ### C25 -/

/-- C25: for Query-Identity and Query-Hardware-Ids with a hardware handle present, and
for Query-Bus-Information in every case, the status returned is
`STATUS_INSUFFICIENT_RESOURCES` if and only if the allocation fails; the hub object is
unchanged; when the allocation fails the request's information field is unchanged and
no block is handed out; otherwise the request succeeds, the information field holds the
address of the allocated block and the block holds the result: the identity string and
its terminator, the first `Index` characters of the hardware-ids buffer, or the bus
information with the USB bus-type GUID, `PNPBus` and bus number 0. -/
theorem C25_allocation_failure (This : PVOID) (o : CHubController) (Irp : IRP)
    (IoStack : PnpStackLocation) (env : PnpEnvironment)
    (hreq : (IoStack.MinorFunction = IRP_MN_QUERY_ID ∧
              (IoStack.IdType = BusQueryDeviceID ∨ IoStack.IdType = BusQueryHardwareIDs) ∧
              o.m_Hardware ≠ 0) ∨
            IoStack.MinorFunction = IRP_MN_QUERY_BUS_INFORMATION) :
    ((HandlePnp This o Irp IoStack env).Status = STATUS_INSUFFICIENT_RESOURCES
      ↔ env.ExAllocatePool = 0) ∧
    (HandlePnp This o Irp IoStack env).This = o ∧
    (env.ExAllocatePool = 0 →
      (HandlePnp This o Irp IoStack env).Irp.IoStatus.Information = Irp.IoStatus.Information ∧
      (HandlePnp This o Irp IoStack env).allocated = none) ∧
    (env.ExAllocatePool ≠ 0 →
      (HandlePnp This o Irp IoStack env).Status = STATUS_SUCCESS ∧
      (HandlePnp This o Irp IoStack env).Irp.IoStatus.Information = env.ExAllocatePool ∧
      ∃ Content,
        (HandlePnp This o Irp IoStack env).allocated
          = some { Address := env.ExAllocatePool, Content := Content } ∧
        (IoStack.MinorFunction = IRP_MN_QUERY_BUS_INFORMATION →
          Content = PoolContent.busInformation
            { BusTypeGuid := GUID_BUS_TYPE_USB, LegacyBusType := PNPBus, BusNumber := 0 }) ∧
        (IoStack.MinorFunction = IRP_MN_QUERY_ID → IoStack.IdType = BusQueryDeviceID →
          Content = PoolContent.wide ("USB\\ROOT_HUB20".toList ++ [UNICODE_NULL])) ∧
        (IoStack.MinorFunction = IRP_MN_QUERY_ID → IoStack.IdType = BusQueryHardwareIDs →
          Content = PoolContent.wide
            ((buildHardwareIds env.Buffer 1
                (if ¬ NT_SUCCESS env.GetDeviceDetails.Status then 0x8086
                 else env.GetDeviceDetails.VendorID)
                (if ¬ NT_SUCCESS env.GetDeviceDetails.Status then 0x3A37
                 else env.GetDeviceDetails.DeviceID)).1.take
              (buildHardwareIds env.Buffer 1
                (if ¬ NT_SUCCESS env.GetDeviceDetails.Status then 0x8086
                 else env.GetDeviceDetails.VendorID)
                (if ¬ NT_SUCCESS env.GetDeviceDetails.Status then 0x3A37
                 else env.GetDeviceDetails.DeviceID)).2))) := by
  have hne : STATUS_SUCCESS ≠ STATUS_INSUFFICIENT_RESOURCES := by decide
  have hbq : ¬ (IRP_MN_QUERY_BUS_INFORMATION = IRP_MN_QUERY_ID) := by decide
  have hqb : ¬ (IRP_MN_QUERY_ID = IRP_MN_QUERY_BUS_INFORMATION) := by decide
  have hhd : ¬ (BusQueryHardwareIDs = BusQueryDeviceID) := by decide
  have hdh : ¬ (BusQueryDeviceID = BusQueryHardwareIDs) := by decide
  by_cases halloc : env.ExAllocatePool = 0
  · rcases hreq with ⟨hmin, hid, hhw⟩ | hmin
    · have h := HandlePnp_query_id_no_memory This o Irp IoStack env hmin hid hhw halloc
      exact ⟨⟨fun _ => halloc, fun _ => h.1⟩, h.2.2.1, fun _ => ⟨h.2.1, h.2.2.2⟩,
        fun hn => absurd halloc hn⟩
    · rw [HandlePnp_bus_information This o Irp IoStack env hmin, if_neg (not_not.mpr halloc)]
      exact ⟨⟨fun _ => halloc, fun _ => rfl⟩, rfl, fun _ => ⟨rfl, rfl⟩,
        fun hn => absurd halloc hn⟩
  · rcases hreq with ⟨hmin, hid | hid, hhw⟩ | hmin
    · rw [HandlePnp_device_id This o Irp IoStack env hmin hid hhw halloc]
      refine ⟨⟨fun h => absurd h hne, fun h => absurd h halloc⟩, rfl,
        fun h => absurd h halloc, fun _ => ⟨rfl, rfl, _, rfl, ?_, fun _ _ => rfl, ?_⟩⟩
      · intro h; rw [hmin] at h; exact absurd h hqb
      · intro _ h; rw [hid] at h; exact absurd h hdh
    · rw [HandlePnp_hardware_ids This o Irp IoStack env hmin hid hhw halloc]
      refine ⟨⟨fun h => absurd h hne, fun h => absurd h halloc⟩, rfl,
        fun h => absurd h halloc, fun _ => ⟨rfl, rfl, _, rfl, ?_, ?_, ?_⟩⟩
      · intro h; rw [hmin] at h; exact absurd h hqb
      · intro _ h; rw [hid] at h; exact absurd h hhd
      · intro _ _
        rw [buildHardwareIds_take]
        rfl
    · rw [HandlePnp_bus_information This o Irp IoStack env hmin, if_pos halloc]
      refine ⟨⟨fun h => absurd h hne, fun h => absurd h halloc⟩, rfl,
        fun h => absurd h halloc, fun _ => ⟨rfl, rfl, _, rfl, fun _ => rfl, ?_, ?_⟩⟩
      · intro h; rw [hmin] at h; exact absurd h hbq
      · intro h; rw [hmin] at h; exact absurd h hbq

/-- The identity query on the sample hub without pool memory: the request fails with
`STATUS_INSUFFICIENT_RESOURCES` and its information field keeps its content. -/
theorem C25_allocation_failure_witness :
    (HandlePnp 0x5000 sampleHub sampleIrp (pnpRequest IRP_MN_QUERY_ID BusQueryDeviceID)
        exhaustedEnvironment).Status = STATUS_INSUFFICIENT_RESOURCES ∧
    (HandlePnp 0x5000 sampleHub sampleIrp (pnpRequest IRP_MN_QUERY_ID BusQueryDeviceID)
        exhaustedEnvironment).Irp.IoStatus.Information = 0 :=
  have h := C25_allocation_failure 0x5000 sampleHub sampleIrp
    (pnpRequest IRP_MN_QUERY_ID BusQueryDeviceID) exhaustedEnvironment
    (Or.inl ⟨rfl, Or.inl rfl, by decide⟩)
  ⟨h.1.2 rfl, (h.2.2.1 rfl).1⟩

/-! ### C26 -/

/-- C26 (amended): Start first registers the interface string of the hub's device node
and, if that succeeds, then enables it. The status returned passes `NT_SUCCESS` exactly
when both steps succeed; when the registration fails its status is returned, when it
succeeds the status of the enabling is returned. The interface-enabled flag is set
whenever the registration succeeds, also when the enabling then fails, and a later
Remove then calls for the interface to be disabled; when the registration fails the
flag is left as it was. -/
theorem C26_start_interface (This : PVOID) (o : CHubController) (Irp : IRP)
    (IoStack : PnpStackLocation) (env : PnpEnvironment)
    (hmin : IoStack.MinorFunction = IRP_MN_START_DEVICE) :
    (NT_SUCCESS env.IoRegisterDeviceInterface.1 = true →
      (HandlePnp This o Irp IoStack env).Status = env.IoSetDeviceInterfaceState ∧
      (HandlePnp This o Irp IoStack env).trace
        = [Effect.IoRegisterDeviceInterface o.m_HubControllerDeviceObject,
           Effect.IoSetDeviceInterfaceState env.IoRegisterDeviceInterface.2 true,
           Effect.StoreInterfaceEnabled true,
           Effect.IoCompleteRequest env.IoSetDeviceInterfaceState] ∧
      (HandlePnp This o Irp IoStack env).This.m_InterfaceEnabled = true ∧
      (HandlePnp This o Irp IoStack env).This.m_HubDeviceInterfaceString
        = env.IoRegisterDeviceInterface.2 ∧
      ∀ (Irp2 : IRP) (IoStack2 : PnpStackLocation) (env2 : PnpEnvironment),
        IoStack2.MinorFunction = IRP_MN_REMOVE_DEVICE →
        Effect.IoSetDeviceInterfaceState env.IoRegisterDeviceInterface.2 false
          ∈ (HandlePnp This (HandlePnp This o Irp IoStack env).This Irp2 IoStack2 env2).trace) ∧
    (NT_SUCCESS env.IoRegisterDeviceInterface.1 = false →
      (HandlePnp This o Irp IoStack env).Status = env.IoRegisterDeviceInterface.1 ∧
      (HandlePnp This o Irp IoStack env).trace
        = [Effect.IoRegisterDeviceInterface o.m_HubControllerDeviceObject,
           Effect.IoCompleteRequest env.IoRegisterDeviceInterface.1] ∧
      (HandlePnp This o Irp IoStack env).This.m_InterfaceEnabled = o.m_InterfaceEnabled) ∧
    (NT_SUCCESS (HandlePnp This o Irp IoStack env).Status = true
      ↔ NT_SUCCESS env.IoRegisterDeviceInterface.1 = true ∧
        NT_SUCCESS env.IoSetDeviceInterfaceState = true) ∧
    (HandlePnp This o Irp IoStack env).Irp.IoStatus.Status
      = (HandlePnp This o Irp IoStack env).Status := by
  rw [HandlePnp_start This o Irp IoStack env hmin, SetDeviceInterface_enable]
  by_cases h : NT_SUCCESS env.IoRegisterDeviceInterface.1 = true
  · rw [if_pos h]
    refine ⟨fun _ => ⟨rfl, rfl, rfl, rfl, fun Irp2 IoStack2 env2 hmin2 => ?_⟩,
      fun hf => absurd h (by simp [hf]), ⟨fun hs => ⟨h, hs⟩, fun hs => hs.2⟩, rfl⟩
    rw [HandlePnp_remove This _ Irp2 IoStack2 env2 hmin2, SetDeviceInterface_disable_trace]
    simp [completeRequest]
  · rw [if_neg h]
    refine ⟨fun ht => absurd ht h, fun _ => ⟨rfl, rfl, rfl⟩,
      ⟨fun hs => absurd hs h, fun hs => absurd hs.1 h⟩, rfl⟩

/-- Start on a freshly initialised hub with every collaborator succeeding. -/
theorem C26_start_interface_witness :
    (HandlePnp 0x5000 initializedHub sampleIrp (pnpRequest IRP_MN_START_DEVICE 0)
        sampleEnvironment).Status = STATUS_SUCCESS ∧
    (HandlePnp 0x5000 initializedHub sampleIrp (pnpRequest IRP_MN_START_DEVICE 0)
        sampleEnvironment).This.m_InterfaceEnabled = true :=
  have h := (C26_start_interface 0x5000 initializedHub sampleIrp
    (pnpRequest IRP_MN_START_DEVICE 0) sampleEnvironment rfl).1 (by decide)
  ⟨h.1, h.2.2.1⟩

/-- C26 as stated fails: on a freshly initialised hub the registration succeeds and the
enabling fails with `STATUS_UNSUCCESSFUL`; Start returns that failure, yet the object is
marked as having an enabled interface, and a Remove that follows calls for the interface
to be disabled. -/
theorem C26_counterexample_flag_set_on_failure :
    initializedHub.m_InterfaceEnabled = false ∧
    (HandlePnp 0x5000 initializedHub sampleIrp (pnpRequest IRP_MN_START_DEVICE 0)
        stuckEnvironment).Status = STATUS_UNSUCCESSFUL ∧
    (HandlePnp 0x5000 initializedHub sampleIrp (pnpRequest IRP_MN_START_DEVICE 0)
        stuckEnvironment).This.m_InterfaceEnabled = true ∧
    Effect.IoSetDeviceInterfaceState stuckEnvironment.IoRegisterDeviceInterface.2 false
      ∈ (HandlePnp 0x5000
          (HandlePnp 0x5000 initializedHub sampleIrp (pnpRequest IRP_MN_START_DEVICE 0)
            stuckEnvironment).This
          sampleIrp (pnpRequest IRP_MN_REMOVE_DEVICE 0) sampleEnvironment).trace := by
  decide

/-! ### C27 -/

/-- C27: Stop returns success; its only event is the completion of the request with
success, so no interface call, no deletion and no hardware call is made; the hub object
(device node handle, interface-enabled flag, interface string, reference count and
every other member) and the request's information field are unchanged. -/
theorem C27_stop_is_noop (This : PVOID) (o : CHubController) (Irp : IRP)
    (IoStack : PnpStackLocation) (env : PnpEnvironment)
    (hmin : IoStack.MinorFunction = IRP_MN_STOP_DEVICE) :
    (HandlePnp This o Irp IoStack env).Status = STATUS_SUCCESS ∧
    (HandlePnp This o Irp IoStack env).Irp.IoStatus.Status = STATUS_SUCCESS ∧
    (HandlePnp This o Irp IoStack env).trace = [Effect.IoCompleteRequest STATUS_SUCCESS] ∧
    (HandlePnp This o Irp IoStack env).This = o ∧
    (HandlePnp This o Irp IoStack env).Irp.IoStatus.Information = Irp.IoStatus.Information ∧
    (HandlePnp This o Irp IoStack env).allocated = none := by
  rw [HandlePnp_stop This o Irp IoStack env hmin]
  exact ⟨rfl, rfl, rfl, rfl, rfl, rfl⟩

/-- Stop on the sample hub, which holds a node and an enabled interface. -/
theorem C27_stop_is_noop_witness :
    (HandlePnp 0x5000 sampleHub sampleIrp (pnpRequest IRP_MN_STOP_DEVICE 0)
        sampleEnvironment).trace = [Effect.IoCompleteRequest STATUS_SUCCESS] ∧
    (HandlePnp 0x5000 sampleHub sampleIrp (pnpRequest IRP_MN_STOP_DEVICE 0)
        sampleEnvironment).This = sampleHub :=
  have h := C27_stop_is_noop 0x5000 sampleHub sampleIrp (pnpRequest IRP_MN_STOP_DEVICE 0)
    sampleEnvironment rfl
  ⟨h.2.2.1, h.2.2.2.1⟩

/-! ### C28 -/

/-- C28: for the get-device-handle control request, if the output pointer is null the
request is completed with `STATUS_INVALID_DEVICE_REQUEST`, which is returned, and
nothing is stored; if it is not null the address of the hub object is stored through
it, nothing else is stored, and the request is completed with success; in both cases
the hub object and the request's information field are unchanged. -/
theorem C28_get_device_handle (This : PVOID) (o : CHubController) (DeviceObject : PVOID)
    (Irp : IRP) (IoStack : DeviceControlStackLocation) (memory : Memory)
    (hcode : IoStack.IoControlCode = IOCTL_INTERNAL_USB_GET_DEVICE_HANDLE) :
    (IoStack.Argument1 = 0 →
      (HandleDeviceControl This o DeviceObject Irp IoStack memory).Status
        = STATUS_INVALID_DEVICE_REQUEST ∧
      (HandleDeviceControl This o DeviceObject Irp IoStack memory).Irp.IoStatus.Status
        = STATUS_INVALID_DEVICE_REQUEST ∧
      (HandleDeviceControl This o DeviceObject Irp IoStack memory).stores = [] ∧
      (HandleDeviceControl This o DeviceObject Irp IoStack memory).Memory = memory) ∧
    (IoStack.Argument1 ≠ 0 →
      (HandleDeviceControl This o DeviceObject Irp IoStack memory).Status = STATUS_SUCCESS ∧
      (HandleDeviceControl This o DeviceObject Irp IoStack memory).Irp.IoStatus.Status
        = STATUS_SUCCESS ∧
      (HandleDeviceControl This o DeviceObject Irp IoStack memory).stores
        = [(IoStack.Argument1, This)] ∧
      (HandleDeviceControl This o DeviceObject Irp IoStack memory).Memory IoStack.Argument1
        = This ∧
      ∀ a, a ≠ IoStack.Argument1 →
        (HandleDeviceControl This o DeviceObject Irp IoStack memory).Memory a = memory a) ∧
    (HandleDeviceControl This o DeviceObject Irp IoStack memory).This = o ∧
    (HandleDeviceControl This o DeviceObject Irp IoStack memory).Irp.IoStatus.Information
      = Irp.IoStatus.Information ∧
    (HandleDeviceControl This o DeviceObject Irp IoStack memory).trace
      = [Effect.IoCompleteRequest
          (HandleDeviceControl This o DeviceObject Irp IoStack memory).Status] := by
  rw [HandleDeviceControl_get_device_handle This o DeviceObject Irp IoStack memory hcode]
  by_cases h : IoStack.Argument1 = 0
  · rw [if_neg (not_not.mpr h)]
    exact ⟨fun _ => ⟨rfl, rfl, rfl, rfl⟩, fun hn => absurd h hn, rfl, rfl, rfl⟩
  · rw [if_pos h]
    refine ⟨fun hz => absurd hz h, fun _ => ⟨rfl, rfl, rfl, ?_, fun a ha => ?_⟩, rfl, rfl, rfl⟩
    · simp [completeControl, MemoryWriter.store]
    · simp [completeControl, MemoryWriter.store, ha]

/-- The request with the output pointer `0x9000` against stale memory: the slot at
`0x9000` receives the address of the hub object, the slot next to it keeps its content. -/
theorem C28_get_device_handle_witness :
    (HandleDeviceControl 0x5000 sampleHub 0x2000 sampleIrp
        { IoControlCode := IOCTL_INTERNAL_USB_GET_DEVICE_HANDLE, Argument1 := 0x9000,
          Argument2 := 0 } staleMemory).Status = STATUS_SUCCESS ∧
    (HandleDeviceControl 0x5000 sampleHub 0x2000 sampleIrp
        { IoControlCode := IOCTL_INTERNAL_USB_GET_DEVICE_HANDLE, Argument1 := 0x9000,
          Argument2 := 0 } staleMemory).Memory 0x9000 = 0x5000 ∧
    (HandleDeviceControl 0x5000 sampleHub 0x2000 sampleIrp
        { IoControlCode := IOCTL_INTERNAL_USB_GET_DEVICE_HANDLE, Argument1 := 0x9000,
          Argument2 := 0 } staleMemory).Memory 0x9008 = 0xCCCC :=
  have h := (C28_get_device_handle 0x5000 sampleHub 0x2000 sampleIrp
    { IoControlCode := IOCTL_INTERNAL_USB_GET_DEVICE_HANDLE, Argument1 := 0x9000,
      Argument2 := 0 } staleMemory rfl).2.1 (by decide)
  ⟨h.1, h.2.2.2.1, h.2.2.2.2 0x9008 (by decide)⟩

/-! ### C29 -/

/-- C29: every bus-interface function declared with a status result, called through a
table cell with any context and any arguments in any memory, returns
`STATUS_NOT_IMPLEMENTED`, which is not a success status, and leaves the hub objects and
the caller's buffers as they were; `USBDI_IsDeviceHighSpeed` returns true for every
context and `USBHI_GetDeviceBusContext` returns null for every argument, both leaving
memory as it was. -/
theorem C29_stubs_report_unimplemented (f : BusFunction) (BusContext : PVOID)
    (args : List Nat) (w : World) :
    (resultType f = ResultType.NTSTATUS →
      callHook f BusContext args w = some (ReturnValue.status STATUS_NOT_IMPLEMENTED, w)) ∧
    NT_SUCCESS STATUS_NOT_IMPLEMENTED = false ∧
    callHook BusFunction.USBDI_IsDeviceHighSpeed BusContext args w
      = some (ReturnValue.boolean true, w) ∧
    callHook BusFunction.USBHI_GetDeviceBusContext BusContext args w
      = some (ReturnValue.pointer 0, w) := by
  refine ⟨fun h => ?_, by decide, rfl, rfl⟩
  cases f <;> first | rfl | exact absurd h (by decide)

/-! ### C30 -/

/-- C30: for the submit-URB control code and for every control code other than
get-device-handle, get-root-hub-PDO and get-hub-count, `HandleDeviceControl` returns
`STATUS_NOT_IMPLEMENTED` and completes the request with it, its only event, storing
nothing and leaving the request's information field and the hub object unchanged;
`HandlePower` returns `STATUS_NOT_IMPLEMENTED` and completes with it for every request,
leaving the information field and the hub object unchanged; that status is not a
success status. -/
theorem C30_unimplemented_requests (This : PVOID) (o : CHubController) (DeviceObject : PVOID)
    (Irp : IRP) (IoStack : DeviceControlStackLocation) (memory : Memory)
    (hcode : IoStack.IoControlCode = IOCTL_INTERNAL_USB_SUBMIT_URB ∨
      (IoStack.IoControlCode ≠ IOCTL_INTERNAL_USB_GET_DEVICE_HANDLE ∧
       IoStack.IoControlCode ≠ IOCTL_INTERNAL_USB_GET_ROOTHUB_PDO ∧
       IoStack.IoControlCode ≠ IOCTL_INTERNAL_USB_GET_HUB_COUNT)) :
    ((HandleDeviceControl This o DeviceObject Irp IoStack memory).Status
        = STATUS_NOT_IMPLEMENTED ∧
      (HandleDeviceControl This o DeviceObject Irp IoStack memory).Irp
        = { IoStatus := { Status := STATUS_NOT_IMPLEMENTED,
                          Information := Irp.IoStatus.Information } } ∧
      (HandleDeviceControl This o DeviceObject Irp IoStack memory).This = o ∧
      (HandleDeviceControl This o DeviceObject Irp IoStack memory).stores = [] ∧
      (HandleDeviceControl This o DeviceObject Irp IoStack memory).Memory = memory ∧
      (HandleDeviceControl This o DeviceObject Irp IoStack memory).trace
        = [Effect.IoCompleteRequest STATUS_NOT_IMPLEMENTED]) ∧
    ((HandlePower o DeviceObject Irp).Status = STATUS_NOT_IMPLEMENTED ∧
      (HandlePower o DeviceObject Irp).Irp
        = { IoStatus := { Status := STATUS_NOT_IMPLEMENTED,
                          Information := Irp.IoStatus.Information } } ∧
      (HandlePower o DeviceObject Irp).This = o ∧
      (HandlePower o DeviceObject Irp).trace
        = [Effect.IoCompleteRequest STATUS_NOT_IMPLEMENTED]) ∧
    NT_SUCCESS STATUS_NOT_IMPLEMENTED = false := by
  rw [HandleDeviceControl_not_implemented This o DeviceObject Irp IoStack memory hcode]
  exact ⟨⟨rfl, rfl, rfl, rfl, rfl, rfl⟩, ⟨rfl, rfl, rfl, rfl⟩, by decide⟩

/-- The submit-URB request and a control code without a case (`0x220000`), on a request
carrying `STATUS_NOT_SUPPORTED`. -/
theorem C30_unimplemented_requests_witness :
    (HandleDeviceControl 0x5000 sampleHub 0x2000 sampleIrp
        { IoControlCode := IOCTL_INTERNAL_USB_SUBMIT_URB, Argument1 := 0x9000,
          Argument2 := 0x9008 } staleMemory).Status = STATUS_NOT_IMPLEMENTED ∧
    (HandleDeviceControl 0x5000 sampleHub 0x2000 sampleIrp
        { IoControlCode := 0x220000, Argument1 := 0x9000, Argument2 := 0x9008 }
        staleMemory).Status = STATUS_NOT_IMPLEMENTED :=
  ⟨(C30_unimplemented_requests 0x5000 sampleHub 0x2000 sampleIrp
      { IoControlCode := IOCTL_INTERNAL_USB_SUBMIT_URB, Argument1 := 0x9000,
        Argument2 := 0x9008 } staleMemory (Or.inl rfl)).1.1,
   (C30_unimplemented_requests 0x5000 sampleHub 0x2000 sampleIrp
      { IoControlCode := 0x220000, Argument1 := 0x9000, Argument2 := 0x9008 } staleMemory
      (Or.inr (by decide))).1.1⟩

/-! ## Reference hooks, retry loop, buffer bounds and the ownership invariant -/

/-- A negotiated table holds the address of the hub object as its context and the two
reference functions as its reference hooks. -/
theorem HandleQueryInterface_reference_cells (This : PVOID) (o : CHubController)
    (IoStack : QueryInterfaceParameters) (guidString : NTSTATUS × UNICODE_STRING)
    (hq : (HandleQueryInterface This o IoStack guidString).Status = STATUS_SUCCESS) :
    (HandleQueryInterface This o IoStack guidString).Interface Member.BusContext
      = Cell.pointer This ∧
    (HandleQueryInterface This o IoStack guidString).Interface Member.InterfaceReference
      = Cell.code BusFunction.USBI_InterfaceReference ∧
    (HandleQueryInterface This o IoStack guidString).Interface Member.InterfaceDereference
      = Cell.code BusFunction.USBI_InterfaceDereference := by
  have hne : STATUS_NOT_SUPPORTED ≠ STATUS_SUCCESS := by decide
  by_cases h1 : IsEqualGUIDAligned IoStack.InterfaceType USB_BUS_INTERFACE_HUB_GUID = true
  · by_cases h6 : IoStack.Version ≥ 6
    · simp [HandleQueryInterface, h1, h6, hne] at hq
    · simp [HandleQueryInterface, h1, h6, fillHubTable_buffer]
  · by_cases h2 : IsEqualGUIDAligned IoStack.InterfaceType USB_BUS_INTERFACE_USBDI_GUID = true
    · by_cases h3 : IoStack.Version ≥ 3
      · simp [HandleQueryInterface, h1, h2, h3, hne] at hq
      · simp [HandleQueryInterface, h1, h2, h3, fillUsbdiTable_buffer]
    · simp [HandleQueryInterface, h1, h2, hne] at hq

/-- The call `USBI_InterfaceReference` on a live object whose count is below the top of
the `LONG` range: the count goes up by one, nothing else changes. -/
theorem USBI_InterfaceReference_step (This : PVOID) (o : CHubController) (w : World)
    (hobj : w.objects This = some o) (hlo : 1 ≤ o.m_Ref) (hhi : o.m_Ref < 2147483647) :
    USBI_InterfaceReference This w
      = some { w with objects := fun a =>
                 if a = This then some { o with m_Ref := o.m_Ref + 1 } else w.objects a } := by
  have hw : wrapLONG (o.m_Ref + 1) = o.m_Ref + 1 := wrapLONG_id _ (by omega) (by omega)
  simp [USBI_InterfaceReference, hobj, AddRef, hw]

/-- The call `USBI_InterfaceDereference` on a live object: the count goes down by one,
and the object is destroyed when the count was one. -/
theorem USBI_InterfaceDereference_step (This : PVOID) (o : CHubController) (w : World)
    (hobj : w.objects This = some o) (hlo : 1 ≤ o.m_Ref) (hhi : o.m_Ref ≤ 2147483647) :
    USBI_InterfaceDereference This w
      = some { w with objects := fun a =>
                 if a = This then
                   (if o.m_Ref = 1 then none else some { o with m_Ref := o.m_Ref - 1 })
                 else w.objects a } := by
  have hw : wrapLONG (o.m_Ref - 1) = o.m_Ref - 1 := wrapLONG_id _ (by omega) (by omega)
  have hrel : (Release o).obj
      = if o.m_Ref = 1 then none else some { o with m_Ref := o.m_Ref - 1 } := by
    by_cases h1 : o.m_Ref = 1
    · have hz : wrapLONG (o.m_Ref - 1) = 0 := by rw [hw]; omega
      rw [if_pos h1]
      simp only [Release, hz, if_true]
    · have hz : ¬ (o.m_Ref - 1 = 0) := by omega
      rw [if_neg h1]
      simp only [Release, hw, hz, if_false]
  simp only [USBI_InterfaceDereference, hobj, Option.map_some', hrel]

/-- On a live object `AddRef` followed by `Release` gives the object back. -/
theorem Release_AddRef (o : CHubController) (hlo : 1 ≤ o.m_Ref)
    (hhi : o.m_Ref ≤ 2147483647) : (Release (AddRef o).2).obj = some o := by
  have hw : wrapLONG (wrapLONG (o.m_Ref + 1) - 1) = o.m_Ref := by
    have := wrapLONG_wrapLONG_add (o.m_Ref + 1) (-1)
    rw [show wrapLONG (o.m_Ref + 1) - 1 = wrapLONG (o.m_Ref + 1) + -1 by omega, this,
      show o.m_Ref + 1 + -1 = o.m_Ref by omega]
    exact wrapLONG_id _ (by omega) (by omega)
  have hz : ¬ (o.m_Ref = 0) := by omega
  simp only [Release, AddRef, hw, hz, if_false]

/-- The call `USBI_InterfaceReference` followed by `USBI_InterfaceDereference` on a live
object gives back the memory as it was. -/
theorem USBI_reference_dereference (This : PVOID) (o : CHubController) (w : World)
    (hobj : w.objects This = some o) (hlo : 1 ≤ o.m_Ref) (hhi : o.m_Ref ≤ 2147483647) :
    (USBI_InterfaceReference This w).bind (USBI_InterfaceDereference This) = some w := by
  simp only [USBI_InterfaceReference, hobj, Option.map_some', Option.some_bind,
    USBI_InterfaceDereference, if_true, Release_AddRef o hlo hhi]
  cases w with
  | mk objects Memory =>
    simp only [Option.some.injEq, World.mk.injEq, and_true]
    funext a
    by_cases ha : a = This
    · simp only [ha, if_true]
      exact hobj.symm
    · simp only [ha, if_false]

/-- The iteration of the loop of `CreatePDO` on a call whose status is neither of the
two name statuses: the loop ends there, with that status and one more call made. -/
theorem CreatePDOLoop_exit (f : DeviceFactory) (fuel c n : Nat) (out : PVOID)
    (trace : List Effect)
    (hne : (f c (deviceName n)).Status ≠ STATUS_OBJECT_NAME_COLLISION)
    (hnx : (f c (deviceName n)).Status ≠ STATUS_OBJECT_NAME_EXISTS) :
    ∃ r, CreatePDOLoop f (fuel + 1) c n out trace = some r ∧
      r.Status = (f c (deviceName n)).Status ∧
      r.trace = trace ++ [Effect.IoCreateDevice (deviceName n)] := by
  by_cases hok : NT_SUCCESS (f c (deviceName n)).Status = true
  · refine ⟨{ Status := (f c (deviceName n)).Status,
                OutDeviceObject := (f c (deviceName n)).DeviceObject,
                Device := some (f c (deviceName n)).Device, DeviceName := deviceName n,
                trace := trace ++ [Effect.IoCreateDevice (deviceName n)] }, ?_, rfl, rfl⟩
    simp only [CreatePDOLoop, hok, if_true]
  · refine ⟨{ Status := (f c (deviceName n)).Status, OutDeviceObject := out, Device := none,
                DeviceName := deviceName n,
                trace := trace ++ [Effect.IoCreateDevice (deviceName n)] }, ?_, rfl, rfl⟩
    simp only [CreatePDOLoop, hok, hne, hnx, or_self, if_false, not_false_eq_true, if_true,
      Bool.false_eq_true]

/-- With no more rounds than collisions, the loop of `CreatePDO` is still running when
the rounds are used up. -/
theorem CreatePDO_out_of_fuel (f : DeviceFactory) (k : Nat) (out : PVOID)
    (hcol : ∀ i, i < k →
      (f i (deviceName (i % 4294967296))).Status = STATUS_OBJECT_NAME_COLLISION)
    (fuel : Nat) (hfuel : fuel ≤ k) : CreatePDO f fuel out = none := by
  have h := CreatePDO_after_collisions f fuel 0 out fun i hi => hcol i (by omega)
  rw [Nat.zero_add] at h
  rw [h]
  rfl

/-- A store that stays inside the buffer keeps the length of the buffer. -/
theorem writeAt_length (B : List WCHAR) (Index : Nat) (t : List WCHAR)
    (h : Index + t.length ≤ B.length) : (writeAt B Index t).length = B.length := by
  simp only [writeAt, List.length_append, List.length_take, List.length_drop]
  omega

/-- The `Index` that `buildHardwareIds` leaves: one past the last character stored. -/
theorem buildHardwareIds_index (B : List WCHAR) (HiSpeed VendorID DeviceID : Nat) :
    (buildHardwareIds B HiSpeed VendorID DeviceID).2
      = if HiSpeed ≠ 0 then
          (formatHex04 VendorID).length * 2 + (formatHex04 DeviceID).length * 2 + 70
        else
          (formatHex04 VendorID).length * 2 + (formatHex04 DeviceID).length * 2 + 64 := by
  by_cases h : HiSpeed = 0
  · simp only [buildHardwareIds, ne_eq, h, not_true_eq_false, if_false, swprintf,
      List.length_append]
    simp
    omega
  · simp only [buildHardwareIds, ne_eq, h, not_false_eq_true, if_true, swprintf,
      List.length_append]
    simp
    omega

/-- For 16-bit ids and a buffer of at least 86 characters, `buildHardwareIds` keeps the
length of the buffer: no store goes past its end. -/
theorem buildHardwareIds_length (B : List WCHAR) (HiSpeed VendorID DeviceID : Nat)
    (hv : VendorID < 65536) (hd : DeviceID < 65536) (hB : 86 ≤ B.length) :
    (buildHardwareIds B HiSpeed VendorID DeviceID).1.length = B.length := by
  have lv : (formatHex04 VendorID).length = 4 := by rw [formatHex04_eq _ hv]; rfl
  have ld : (formatHex04 DeviceID).length = 4 := by rw [formatHex04_eq _ hd]; rfl
  have key : ∀ t1 t2 t3 : List WCHAR, t1.length + t2.length + t3.length + 4 ≤ B.length →
      (writeAt (writeAt (writeAt (writeAt B 0 (t1 ++ [UNICODE_NULL])) (t1.length + 1)
          (t2 ++ [UNICODE_NULL])) (t1.length + 1 + (t2.length + 1)) (t3 ++ [UNICODE_NULL]))
          (t1.length + 1 + (t2.length + 1) + (t3.length + 1)) [UNICODE_NULL]).length
        = B.length := by
    intro t1 t2 t3 h
    have e1 : (writeAt B 0 (t1 ++ [UNICODE_NULL])).length = B.length :=
      writeAt_length _ _ _ (by simp; omega)
    have e2 : (writeAt (writeAt B 0 (t1 ++ [UNICODE_NULL])) (t1.length + 1)
        (t2 ++ [UNICODE_NULL])).length = B.length := by
      rw [writeAt_length _ _ _ (by rw [e1]; simp; omega), e1]
    have e3 : (writeAt (writeAt (writeAt B 0 (t1 ++ [UNICODE_NULL])) (t1.length + 1)
        (t2 ++ [UNICODE_NULL])) (t1.length + 1 + (t2.length + 1))
        (t3 ++ [UNICODE_NULL])).length = B.length := by
      rw [writeAt_length _ _ _ (by rw [e2]; simp; omega), e2]
    rw [writeAt_length _ _ _ (by rw [e3]; simp; omega), e3]
  by_cases h : HiSpeed = 0
  · simp only [buildHardwareIds, ne_eq, h, not_true_eq_false, if_false, swprintf, Nat.zero_add]
    exact key _ _ _ (by simp [lv, ld]; omega)
  · simp only [buildHardwareIds, ne_eq, h, not_false_eq_true, if_true, swprintf, Nat.zero_add]
    exact key _ _ _ (by simp [lv, ld]; omega)

/-- No hexadecimal digit is the terminator. -/
theorem fourHexDigits_no_terminator (n : Nat) : UNICODE_NULL ∉ fourHexDigits n := by
  have h : ∀ k, k < 16 → Nat.digitChar k ≠ UNICODE_NULL := by decide
  have m : ∀ x : Nat, x % 16 < 16 := fun x => Nat.mod_lt _ (by decide)
  simp only [fourHexDigits, List.mem_cons, List.mem_singleton, List.not_mem_nil, or_false,
    not_or]
  exact ⟨(h _ (m _)).symm, (h _ (m _)).symm, (h _ (m _)).symm, (h _ (m _)).symm⟩

/-- None of the three ROOT_HUB20 identity strings holds a terminator, and their lengths
are 38, 30 and 14. -/
theorem rootHub20Ids_shape (VendorID DeviceID : Nat) :
    (∀ s, s ∈ rootHub20Ids VendorID DeviceID → UNICODE_NULL ∉ s) ∧
    (rootHub20Ids VendorID DeviceID).map List.length = [38, 30, 14] := by
  have hv := fourHexDigits_no_terminator VendorID
  have hd := fourHexDigits_no_terminator DeviceID
  have p1 : UNICODE_NULL ∉ "USB\\ROOT_HUB20&VID".toList := by decide
  have p2 : UNICODE_NULL ∉ "&PID".toList := by decide
  have p3 : UNICODE_NULL ∉ "&REV0000".toList := by decide
  have p4 : UNICODE_NULL ∉ "USB\\ROOT_HUB20".toList := by decide
  refine ⟨fun s hs => ?_, rfl⟩
  simp only [rootHub20Ids, List.mem_cons, List.mem_singleton, List.not_mem_nil, or_false] at hs
  rcases hs with rfl | rfl | rfl
  · simp only [List.mem_append, not_or]
    exact ⟨⟨⟨⟨p1, hv⟩, p2⟩, hd⟩, p3⟩
  · simp only [List.mem_append, not_or]
    exact ⟨⟨⟨p1, hv⟩, p2⟩, hd⟩
  · exact p4

/-- The get-root-hub-PDO case of `HandleDeviceControl`: the whole result. -/
theorem HandleDeviceControl_get_roothub_pdo (This : PVOID) (o : CHubController)
    (DeviceObject : PVOID) (Irp : IRP) (IoStack : DeviceControlStackLocation)
    (memory : Memory)
    (hcode : IoStack.IoControlCode = IOCTL_INTERNAL_USB_GET_ROOTHUB_PDO) :
    HandleDeviceControl This o DeviceObject Irp IoStack memory
      = completeControl STATUS_SUCCESS o Irp
          (if IoStack.Argument2 ≠ 0 then
            MemoryWriter.store
              (if IoStack.Argument1 ≠ 0 then
                MemoryWriter.store { content := memory, stores := [] } IoStack.Argument1
                  DeviceObject
               else { content := memory, stores := [] })
              IoStack.Argument2 DeviceObject
           else
            (if IoStack.Argument1 ≠ 0 then
              MemoryWriter.store { content := memory, stores := [] } IoStack.Argument1
                DeviceObject
             else { content := memory, stores := [] })) := by
  have h1 : ¬ (IOCTL_INTERNAL_USB_GET_ROOTHUB_PDO = IOCTL_INTERNAL_USB_SUBMIT_URB) := by
    decide
  have h2 : ¬ (IOCTL_INTERNAL_USB_GET_ROOTHUB_PDO = IOCTL_INTERNAL_USB_GET_DEVICE_HANDLE) := by
    decide
  simp only [HandleDeviceControl, hcode, h1, h2, if_false, if_true]

/-- The get-hub-count case of `HandleDeviceControl`: the whole result. -/
theorem HandleDeviceControl_get_hub_count (This : PVOID) (o : CHubController)
    (DeviceObject : PVOID) (Irp : IRP) (IoStack : DeviceControlStackLocation)
    (memory : Memory)
    (hcode : IoStack.IoControlCode = IOCTL_INTERNAL_USB_GET_HUB_COUNT) :
    HandleDeviceControl This o DeviceObject Irp IoStack memory
      = completeControl STATUS_SUCCESS o
          { IoStatus := { Irp.IoStatus with Information := 4 } }
          (if IoStack.Argument1 ≠ 0 then
            MemoryWriter.store { content := memory, stores := [] } IoStack.Argument1 1
           else { content := memory, stores := [] }) := by
  have h1 : ¬ (IOCTL_INTERNAL_USB_GET_HUB_COUNT = IOCTL_INTERNAL_USB_SUBMIT_URB) := by decide
  have h2 : ¬ (IOCTL_INTERNAL_USB_GET_HUB_COUNT = IOCTL_INTERNAL_USB_GET_DEVICE_HANDLE) := by
    decide
  have h3 : ¬ (IOCTL_INTERNAL_USB_GET_HUB_COUNT = IOCTL_INTERNAL_USB_GET_ROOTHUB_PDO) := by
    decide
  simp only [HandleDeviceControl, hcode, h1, h2, h3, if_false, if_true]

/-- The method `SetDeviceInterface(TRUE)` leaves the stored device node alone and never
clears the interface-enabled flag. -/
theorem SetDeviceInterface_enable_keeps (o : CHubController) (env : PnpEnvironment) :
    (SetDeviceInterface o true env).This.m_HubControllerDeviceObject
      = o.m_HubControllerDeviceObject ∧
    (o.m_InterfaceEnabled = true →
      (SetDeviceInterface o true env).This.m_InterfaceEnabled = true) := by
  rw [SetDeviceInterface_enable]
  by_cases h : NT_SUCCESS env.IoRegisterDeviceInterface.1 = true
  · rw [if_pos h]
    exact ⟨rfl, fun _ => rfl⟩
  · rw [if_neg h]
    exact ⟨rfl, fun h => h⟩

/-- Apart from the Remove case, `HandlePnp` leaves the stored device node alone and
never clears the interface-enabled flag. -/
theorem HandlePnp_keeps_node (This : PVOID) (o : CHubController) (Irp : IRP)
    (IoStack : PnpStackLocation) (env : PnpEnvironment)
    (hmin : IoStack.MinorFunction ≠ IRP_MN_REMOVE_DEVICE) :
    (HandlePnp This o Irp IoStack env).This.m_HubControllerDeviceObject
      = o.m_HubControllerDeviceObject ∧
    (o.m_InterfaceEnabled = true →
      (HandlePnp This o Irp IoStack env).This.m_InterfaceEnabled = true) := by
  by_cases h1 : IoStack.MinorFunction = IRP_MN_START_DEVICE
  · rw [HandlePnp_start This o Irp IoStack env h1]
    exact SetDeviceInterface_enable_keeps o env
  · by_cases h4 : IoStack.MinorFunction = IRP_MN_QUERY_INTERFACE
    · have e : (HandlePnp This o Irp IoStack env).This = o := by
        have a1 : ¬ (IRP_MN_QUERY_INTERFACE = IRP_MN_START_DEVICE) := by decide
        have a2 : ¬ (IRP_MN_QUERY_INTERFACE = IRP_MN_QUERY_ID) := by decide
        have a3 : ¬ (IRP_MN_QUERY_INTERFACE = IRP_MN_QUERY_CAPABILITIES) := by decide
        simp only [HandlePnp, h4, a1, a2, a3, if_false, if_true, completeRequest,
          HandleQueryInterface_this]
      rw [e]
      exact ⟨rfl, fun h => h⟩
    · have e : (HandlePnp This o Irp IoStack env).This = o := by
        unfold HandlePnp
        simp only [h1, h4, hmin, if_false]
        split_ifs <;> rfl
      rw [e]
      exact ⟨rfl, fun h => h⟩

/-- A run of events none of which is a Remove leaves the stored device node alone. -/
theorem pnpRun_keeps_node (This : PVOID) (events : List PnpEvent) :
    ∀ o : CHubController,
      (∀ e, e ∈ events → e.IoStack.MinorFunction ≠ IRP_MN_REMOVE_DEVICE) →
      (pnpRun This o events).m_HubControllerDeviceObject = o.m_HubControllerDeviceObject := by
  induction events with
  | nil => intro o _; rfl
  | cons e t ih =>
    intro o h
    have hstep := (HandlePnp_keeps_node This o e.Irp e.IoStack e.env
      (h e (List.mem_cons_self _ _))).1
    have := ih (pnpStep This o e) fun x hx => h x (List.mem_cons_of_mem _ hx)
    simp only [pnpRun, List.foldl_cons] at this ⊢
    rw [this]
    exact hstep

/-- The members `Initialize` hands back when it returns: the interface-enabled flag is
the one it found. -/
theorem Initialize_keeps_flag (This : PVOID) (o : CHubController)
    (DriverObject Controller Device : PVOID) (IsRootHubDevice : Bool) (DeviceAddress : Nat)
    (f : DeviceFactory) (fuel : Nat) (r : InitializeResult)
    (h : Initialize This o DriverObject Controller Device IsRootHubDevice DeviceAddress f fuel
      = some r) :
    r.This.m_InterfaceEnabled = o.m_InterfaceEnabled := by
  unfold Initialize at h
  simp only [] at h
  split at h
  · exact absurd h (by simp)
  · split_ifs at h <;> (simp only [Option.some.injEq] at h; rw [← h])

/-- When the loop of `CreatePDO` ends with a status that passes `NT_SUCCESS`, the handle
it leaves in the output slot is the one a successful factory call handed out. -/
theorem CreatePDOLoop_success_handle (f : DeviceFactory) :
    ∀ (fuel c n : Nat) (out : PVOID) (trace : List Effect) (r : CreatePDOResult),
      CreatePDOLoop f fuel c n out trace = some r → NT_SUCCESS r.Status = true →
      ∃ i name, NT_SUCCESS (f i name).Status = true ∧
        r.OutDeviceObject = (f i name).DeviceObject := by
  intro fuel
  induction fuel with
  | zero => intro c n out trace r h _; simp [CreatePDOLoop] at h
  | succ m ih =>
    intro c n out trace r h hs
    by_cases hok : NT_SUCCESS (f c (deviceName n)).Status = true
    · simp only [CreatePDOLoop, hok, if_true, Option.some.injEq] at h
      exact ⟨c, deviceName n, hok, by rw [← h]⟩
    · by_cases hcol : (f c (deviceName n)).Status = STATUS_OBJECT_NAME_EXISTS ∨
          (f c (deviceName n)).Status = STATUS_OBJECT_NAME_COLLISION
      · simp only [CreatePDOLoop, hok, hcol, if_false, if_true, Bool.false_eq_true] at h
        exact ih _ _ _ _ r h hs
      · simp only [CreatePDOLoop, hok, hcol, if_false, if_true, Bool.false_eq_true,
          not_false_eq_true, Option.some.injEq] at h
        rw [← h] at hs
        exact absurd hs hok

/-- When `Initialize` returns `STATUS_SUCCESS`, the handle it stored in the object is the
one a successful factory call handed out. -/
theorem Initialize_success_handle (This : PVOID) (o : CHubController)
    (DriverObject Controller Device : PVOID) (IsRootHubDevice : Bool) (DeviceAddress : Nat)
    (f : DeviceFactory) (fuel : Nat) (r : InitializeResult)
    (h : Initialize This o DriverObject Controller Device IsRootHubDevice DeviceAddress f fuel
      = some r)
    (hok : r.Status = STATUS_SUCCESS) :
    ∃ i name, NT_SUCCESS (f i name).Status = true ∧
      r.This.m_HubControllerDeviceObject = (f i name).DeviceObject := by
  unfold Initialize at h
  simp only [] at h
  split at h
  · exact absurd h (by simp)
  · rename_i created hc
    by_cases hs : NT_SUCCESS created.Status = true
    · simp only [hs, not_true_eq_false, if_false] at h
      by_cases hz : created.OutDeviceObject = 0
      · simp only [hz, if_true] at h
        exact Option.noConfusion h
      · simp only [hz, if_false, Option.some.injEq] at h
        obtain ⟨i, name, h1, h2⟩ := CreatePDOLoop_success_handle f _ _ _ _ _ created hc hs
        exact ⟨i, name, h1, by rw [← h]; exact h2⟩
    · simp only [hs, Bool.false_eq_true, not_false_eq_true, if_true, Option.some.injEq] at h
      rw [← h] at hok
      simp only at hok
      rw [hok, NT_SUCCESS_success] at hs
      exact absurd rfl hs

/-! ### C31 -/

/-- C31 (amended): a negotiated table holds the address of the hub object as
`BusContext` and `USBI_InterfaceReference`, `USBI_InterfaceDereference` as its reference
hooks. For a live object whose 32-bit count `n` satisfies `1 <= n <= 2^31 - 1`: calling
the reference hook with the table's context raises the count of that object by exactly
one when `n < 2^31 - 1`; calling the dereference hook lowers it by exactly one and
destroys the object when the count was one; the reference hook followed by the
dereference hook leaves the count, every other member of the object and the rest of
memory as they were. -/
theorem C31_reference_hooks (This : PVOID) (o : CHubController)
    (IoStack : QueryInterfaceParameters) (guidString : NTSTATUS × UNICODE_STRING)
    (args : List Nat) (w : World)
    (hq : (HandleQueryInterface This o IoStack guidString).Status = STATUS_SUCCESS)
    (hobj : w.objects This = some o)
    (hlo : 1 ≤ o.m_Ref) (hhi : o.m_Ref ≤ 2147483647) :
    (HandleQueryInterface This o IoStack guidString).Interface Member.BusContext
      = Cell.pointer This ∧
    (HandleQueryInterface This o IoStack guidString).Interface Member.InterfaceReference
      = Cell.code BusFunction.USBI_InterfaceReference ∧
    (HandleQueryInterface This o IoStack guidString).Interface Member.InterfaceDereference
      = Cell.code BusFunction.USBI_InterfaceDereference ∧
    (o.m_Ref < 2147483647 →
      callHook BusFunction.USBI_InterfaceReference This args w
        = some (ReturnValue.void,
            { w with objects := fun a =>
                if a = This then some { o with m_Ref := o.m_Ref + 1 } else w.objects a })) ∧
    callHook BusFunction.USBI_InterfaceDereference This args w
      = some (ReturnValue.void,
          { w with objects := fun a =>
              if a = This then
                (if o.m_Ref = 1 then none else some { o with m_Ref := o.m_Ref - 1 })
              else w.objects a }) ∧
    ((callHook BusFunction.USBI_InterfaceReference This args w).bind fun r =>
        callHook BusFunction.USBI_InterfaceDereference This args r.2)
      = some (ReturnValue.void, w) := by
  refine ⟨(HandleQueryInterface_reference_cells This o IoStack guidString hq).1,
    (HandleQueryInterface_reference_cells This o IoStack guidString hq).2.1,
    (HandleQueryInterface_reference_cells This o IoStack guidString hq).2.2,
    fun hlt => ?_, ?_, ?_⟩
  · simp only [callHook, USBI_InterfaceReference_step This o w hobj hlo hlt, Option.map_some']
  · simp only [callHook, USBI_InterfaceDereference_step This o w hobj hlo hhi,
      Option.map_some']
  · have h := USBI_reference_dereference This o w hobj hlo hhi
    cases h1 : USBI_InterfaceReference This w with
    | none => rw [h1] at h; simp at h
    | some w1 =>
      rw [h1] at h
      simp only [Option.some_bind] at h
      simp only [callHook, h1, Option.map_some', Option.some_bind, h]

/-- The sample hub (count 1) at `0x5000`, with the table negotiated for hub services at
version 5: the reference hook raises the count to 2. -/
theorem C31_reference_hooks_witness :
    callHook BusFunction.USBI_InterfaceReference 0x5000 [] (worldWith sampleHub)
      = some (ReturnValue.void,
          { worldWith sampleHub with objects := fun a =>
              if a = 0x5000 then some { sampleHub with m_Ref := sampleHub.m_Ref + 1 }
              else (worldWith sampleHub).objects a }) :=
  (C31_reference_hooks 0x5000 sampleHub (queryFor USB_BUS_INTERFACE_HUB_GUID 5 24 staleTable)
    (STATUS_SUCCESS, sampleHub.m_HubDeviceInterfaceString) [] (worldWith sampleHub)
    (by decide) (by decide) (by decide) (by decide)).2.2.2.1 (by decide)

/-- C31 as stated fails: on a live object whose count is `2^31 - 1` the reference hook
does not raise the count by one; the count becomes `-2^31`. -/
theorem C31_counterexample_count_wraps :
    (callHook BusFunction.USBI_InterfaceReference 0x5000 []
        (worldWith { sampleHub with m_Ref := 2147483647 })).map
        (fun r => (r.2.objects 0x5000).map fun c => c.m_Ref)
      = some (some (-2147483648)) ∧
    (-2147483648 : Int) ≠ 2147483647 + 1 := by
  decide

/-! ### C32 -/

/-- The loop of `CreatePDO` ends after collisions reported as
`STATUS_OBJECT_NAME_COLLISION`: for every `k`, with no bound, if the factory answers the
first `k` calls (the suffixes 0..k-1, the suffix being the call number modulo `2^32`) with
`STATUS_OBJECT_NAME_COLLISION` and call `k` with a status that is neither of the two name
statuses (a success or any other failure), then `CreatePDO` terminates: run for more
than `k` rounds it returns that status after exactly `k + 1` factory calls, it is
still running after any `k` rounds or fewer, and from the state after `i <= k`
collisions exactly `k - i + 1` further rounds and calls bring it to its end, so `k - i`
decreases with every collision. -/
theorem CreatePDO_terminates (f : DeviceFactory) (k : Nat) (out : PVOID)
    (hcol : ∀ i, i < k →
      (f i (deviceName (i % 4294967296))).Status = STATUS_OBJECT_NAME_COLLISION)
    (hne : (f k (deviceName (k % 4294967296))).Status ≠ STATUS_OBJECT_NAME_COLLISION)
    (hnx : (f k (deviceName (k % 4294967296))).Status ≠ STATUS_OBJECT_NAME_EXISTS) :
    (∀ fuel, k < fuel →
      ∃ r, CreatePDO f fuel out = some r ∧
        r.Status = (f k (deviceName (k % 4294967296))).Status ∧
        r.trace.length = k + 1) ∧
    (∀ fuel, fuel ≤ k → CreatePDO f fuel out = none) ∧
    (∀ i, i ≤ k → ∀ trace : List Effect,
      ∃ r, CreatePDOLoop f (k - i + 1) i (i % 4294967296) out trace = some r ∧
        r.trace.length = trace.length + (k - i + 1)) := by
  have hloop : ∀ i, i ≤ k → ∀ (m : Nat) (trace : List Effect),
      ∃ r, CreatePDOLoop f (m + 1 + (k - i)) i (i % 4294967296) out trace = some r ∧
        r.Status = (f k (deviceName (k % 4294967296))).Status ∧
        r.trace.length = trace.length + (k - i + 1) := by
    intro i hi m trace
    rw [CreatePDOLoop_collisions f (k - i) (m + 1) i out trace
      (fun j hj => hcol (i + j) (by omega)), show i + (k - i) = k by omega]
    obtain ⟨r, hr, hs, ht⟩ := CreatePDOLoop_exit f m k (k % 4294967296) out
      (trace ++ (List.range (k - i)).map fun j =>
        Effect.IoCreateDevice (deviceName ((i + j) % 4294967296))) hne hnx
    refine ⟨r, hr, hs, ?_⟩
    rw [ht]
    simp only [List.length_append, List.length_map, List.length_range, List.length_singleton]
    omega
  refine ⟨fun fuel hfuel => ?_, fun fuel hfuel => CreatePDO_out_of_fuel f k out hcol fuel hfuel,
    fun i hi trace => ?_⟩
  · obtain ⟨r, hr, hs, ht⟩ := hloop 0 (Nat.zero_le k) (fuel - k - 1) []
    refine ⟨r, ?_, hs, by simpa using ht⟩
    rw [show fuel - k - 1 + 1 + (k - 0) = fuel by omega] at hr
    exact hr
  · obtain ⟨r, hr, _, ht⟩ := hloop i hi 0 trace
    refine ⟨r, ?_, ht⟩
    rw [show 0 + 1 + (k - i) = k - i + 1 by omega] at hr
    exact hr

/-- Five collisions, then `STATUS_INVALID_DEVICE_REQUEST`: with six rounds the loop
returns that status after six calls, with five it is still running. -/
theorem CreatePDO_terminates_sample :
    (∃ r, CreatePDO (scriptedFactory STATUS_OBJECT_NAME_COLLISION 5
          { Status := STATUS_INVALID_DEVICE_REQUEST, DeviceObject := 0, Device := freshNode })
          6 0 = some r ∧
        r.Status = STATUS_INVALID_DEVICE_REQUEST ∧ r.trace.length = 5 + 1) ∧
    CreatePDO (scriptedFactory STATUS_OBJECT_NAME_COLLISION 5
        { Status := STATUS_INVALID_DEVICE_REQUEST, DeviceObject := 0, Device := freshNode })
        5 0 = none :=
  have h := CreatePDO_terminates
    (scriptedFactory STATUS_OBJECT_NAME_COLLISION 5
      { Status := STATUS_INVALID_DEVICE_REQUEST, DeviceObject := 0, Device := freshNode })
    5 0 (fun i hi => by simp [scriptedFactory, hi])
    (by simp [scriptedFactory]; decide) (by simp [scriptedFactory]; decide)
  ⟨h.1 6 (by decide), h.2.1 5 (by decide)⟩

/-- C32, the failing input: the factory answers suffix 0 with `STATUS_OBJECT_NAME_EXISTS`
and suffix 1 with success, so 1 is the least suffix with a result that is not a
collision. The name-exists status passes `NT_SUCCESS`, so the test on line 1151 ends the
loop before the test for the two name statuses on line 1157 is reached: `CreatePDO`
returns after one factory call, not two, with the name-exists status. With
`STATUS_OBJECT_NAME_COLLISION`, the other status of the test on line 1157, in the place
of name-exists, `CreatePDO` returns after two calls with success. -/
theorem C32_name_exists_returns_early :
    NT_SUCCESS STATUS_OBJECT_NAME_EXISTS = true ∧
    (CreatePDO (scriptedFactory STATUS_OBJECT_NAME_EXISTS 1
        { Status := STATUS_SUCCESS, DeviceObject := 0x2000, Device := freshNode }) 2 0).map
        (fun r => (r.Status, r.trace.length))
      = some (STATUS_OBJECT_NAME_EXISTS, 1) ∧
    (CreatePDO (scriptedFactory STATUS_OBJECT_NAME_COLLISION 1
        { Status := STATUS_SUCCESS, DeviceObject := 0x2000, Device := freshNode }) 2 0).map
        (fun r => (r.Status, r.trace.length))
      = some (STATUS_SUCCESS, 2) := by
  decide

/-! ### C33 -/

/-- C33: when `HandleQueryInterface` rejects a request because the version is beyond the
family's maximum (hub services: 6 or more, device-I/O services: 3 or more), it returns
`STATUS_NOT_SUPPORTED`, the hub object is unchanged, it makes no kernel call, and the
one member of the caller's table it has assigned is `Version`, which holds the rejected
version; every other member is as the caller supplied it. -/
theorem C33_rejection_writes_version_only (This : PVOID) (o : CHubController)
    (IoStack : QueryInterfaceParameters) (guidString : NTSTATUS × UNICODE_STRING)
    (hrej : (IoStack.InterfaceType = USB_BUS_INTERFACE_HUB_GUID ∧ 6 ≤ IoStack.Version) ∨
            (IoStack.InterfaceType = USB_BUS_INTERFACE_USBDI_GUID ∧ 3 ≤ IoStack.Version)) :
    (HandleQueryInterface This o IoStack guidString).Status = STATUS_NOT_SUPPORTED ∧
    (HandleQueryInterface This o IoStack guidString).This = o ∧
    (HandleQueryInterface This o IoStack guidString).written = [Member.Version] ∧
    (HandleQueryInterface This o IoStack guidString).Interface Member.Version
      = Cell.ushort IoStack.Version ∧
    (∀ m, m ≠ Member.Version →
      (HandleQueryInterface This o IoStack guidString).Interface m = IoStack.Interface m) ∧
    (HandleQueryInterface This o IoStack guidString).trace = [] := by
  rcases hrej with ⟨hg, hv⟩ | ⟨hg, hv⟩
  · have h6 : IoStack.Version ≥ 6 := hv
    simp only [HandleQueryInterface, hg, hub_guid_is_hub, if_true, h6, TableWriter.store]
    refine ⟨by simp, by simp, by simp, by simp, fun m hm => by simp [hm], by simp⟩
  · have h3 : IoStack.Version ≥ 3 := hv
    simp only [HandleQueryInterface, hg, usbdi_guid_not_hub, usbdi_guid_is_usbdi, if_true,
      h3, TableWriter.store]
    refine ⟨by simp, by simp, by simp, by simp, fun m hm => by simp [hm], by simp⟩

/-- Hub services at version 6 into a stale table: `Version` holds 6 and `Size` still holds
the leftover. -/
theorem C33_rejection_writes_version_only_witness :
    (HandleQueryInterface 0x5000 sampleHub
        (queryFor USB_BUS_INTERFACE_HUB_GUID 6 24 staleTable)
        (STATUS_SUCCESS, sampleHub.m_HubDeviceInterfaceString)).Interface Member.Version
      = Cell.ushort 6 ∧
    (HandleQueryInterface 0x5000 sampleHub
        (queryFor USB_BUS_INTERFACE_HUB_GUID 6 24 staleTable)
        (STATUS_SUCCESS, sampleHub.m_HubDeviceInterfaceString)).Interface Member.Size
      = staleTable Member.Size :=
  have h := C33_rejection_writes_version_only 0x5000 sampleHub
    (queryFor USB_BUS_INTERFACE_HUB_GUID 6 24 staleTable)
    (STATUS_SUCCESS, sampleHub.m_HubDeviceInterfaceString) (Or.inl ⟨rfl, by decide⟩)
  ⟨h.2.2.2.1, h.2.2.2.2.1 Member.Size (by decide)⟩

/-! ### C34 -/

/-- C34: for every 16-bit vendor id and device id (the reported ones, or `0x8086` and
`0x3A37` when the hardware query failed), with hardware present, the allocation
succeeding and a scratch buffer of 300 characters, the hardware-ids query hands out the
three identity strings, none holding a terminator, each followed by one terminator, and
one more terminator at the end; the number of characters is the sum of the three string
lengths plus 4, which is 86; `Index` ends at that number, so every store made while
building stays inside the scratch buffer, whose length is unchanged; the block asked
for has twice that number of bytes and the copy has exactly that number of
characters. -/
theorem C34_hardware_ids_buffer (This : PVOID) (o : CHubController) (Irp : IRP)
    (IoStack : PnpStackLocation) (env : PnpEnvironment)
    (hmin : IoStack.MinorFunction = IRP_MN_QUERY_ID)
    (hid : IoStack.IdType = BusQueryHardwareIDs)
    (hhw : o.m_Hardware ≠ 0) (halloc : env.ExAllocatePool ≠ 0)
    (hv : env.GetDeviceDetails.VendorID < 65536)
    (hd : env.GetDeviceDetails.DeviceID < 65536)
    (hbuf : env.Buffer.length = 300) :
    (HandlePnp This o Irp IoStack env).allocated
      = some
          { Address := env.ExAllocatePool,
            Content := PoolContent.wide (multiString (rootHub20Ids
              (if ¬ NT_SUCCESS env.GetDeviceDetails.Status then 0x8086
               else env.GetDeviceDetails.VendorID)
              (if ¬ NT_SUCCESS env.GetDeviceDetails.Status then 0x3A37
               else env.GetDeviceDetails.DeviceID))) } ∧
    (∀ s, s ∈ rootHub20Ids
        (if ¬ NT_SUCCESS env.GetDeviceDetails.Status then 0x8086
         else env.GetDeviceDetails.VendorID)
        (if ¬ NT_SUCCESS env.GetDeviceDetails.Status then 0x3A37
         else env.GetDeviceDetails.DeviceID) → UNICODE_NULL ∉ s) ∧
    (multiString (rootHub20Ids
        (if ¬ NT_SUCCESS env.GetDeviceDetails.Status then 0x8086
         else env.GetDeviceDetails.VendorID)
        (if ¬ NT_SUCCESS env.GetDeviceDetails.Status then 0x3A37
         else env.GetDeviceDetails.DeviceID))).length
      = ((rootHub20Ids
          (if ¬ NT_SUCCESS env.GetDeviceDetails.Status then 0x8086
           else env.GetDeviceDetails.VendorID)
          (if ¬ NT_SUCCESS env.GetDeviceDetails.Status then 0x3A37
           else env.GetDeviceDetails.DeviceID)).map List.length).sum + 4 ∧
    (multiString (rootHub20Ids
        (if ¬ NT_SUCCESS env.GetDeviceDetails.Status then 0x8086
         else env.GetDeviceDetails.VendorID)
        (if ¬ NT_SUCCESS env.GetDeviceDetails.Status then 0x3A37
         else env.GetDeviceDetails.DeviceID))).length = 86 ∧
    (buildHardwareIds env.Buffer 1
        (if ¬ NT_SUCCESS env.GetDeviceDetails.Status then 0x8086
         else env.GetDeviceDetails.VendorID)
        (if ¬ NT_SUCCESS env.GetDeviceDetails.Status then 0x3A37
         else env.GetDeviceDetails.DeviceID)).2 = 86 ∧
    (buildHardwareIds env.Buffer 1
        (if ¬ NT_SUCCESS env.GetDeviceDetails.Status then 0x8086
         else env.GetDeviceDetails.VendorID)
        (if ¬ NT_SUCCESS env.GetDeviceDetails.Status then 0x3A37
         else env.GetDeviceDetails.DeviceID)).1.length = 300 ∧
    (HandlePnp This o Irp IoStack env).trace
      = [Effect.GetDeviceDetails, Effect.ExAllocatePool (86 * 2),
         Effect.IoCompleteRequest STATUS_SUCCESS] := by
  have hV : (if ¬ NT_SUCCESS env.GetDeviceDetails.Status then 0x8086
      else env.GetDeviceDetails.VendorID) < 65536 := by split_ifs <;> omega
  have hD : (if ¬ NT_SUCCESS env.GetDeviceDetails.Status then 0x3A37
      else env.GetDeviceDetails.DeviceID) < 65536 := by split_ifs <;> omega
  rw [HandlePnp_hardware_ids This o Irp IoStack env hmin hid hhw halloc]
  generalize (if ¬ NT_SUCCESS env.GetDeviceDetails.Status then 0x8086
      else env.GetDeviceDetails.VendorID) = V at hV ⊢
  generalize (if ¬ NT_SUCCESS env.GetDeviceDetails.Status then 0x3A37
      else env.GetDeviceDetails.DeviceID) = D at hD ⊢
  have lv : (formatHex04 V).length = 4 := by rw [formatHex04_eq _ hV]; rfl
  have ld : (formatHex04 D).length = 4 := by rw [formatHex04_eq _ hD]; rfl
  have hidx : (buildHardwareIds env.Buffer 1 V D).2 = 86 := by
    rw [buildHardwareIds_index, if_pos (by decide), lv, ld]
  have hlen : (multiString (rootHub20Ids V D)).length = 86 := by
    simp [multiString, rootHub20Ids, fourHexDigits]
  refine ⟨?_, (rootHub20Ids_shape V D).1, ?_, hlen, hidx, ?_, ?_⟩
  · rw [formatHex04_eq _ hV, formatHex04_eq _ hD]
    rfl
  · rw [hlen, (rootHub20Ids_shape V D).2]
    rfl
  · rw [buildHardwareIds_length _ _ _ _ hV hD (by omega), hbuf]
  · simp only [completeRequest, hidx]
    rfl

/-- The sample request: the block holds 86 characters and 172 bytes were asked for. -/
theorem C34_hardware_ids_buffer_witness :
    (HandlePnp 0x5000 sampleHub sampleIrp (pnpRequest IRP_MN_QUERY_ID BusQueryHardwareIDs)
        sampleEnvironment).trace
      = [Effect.GetDeviceDetails, Effect.ExAllocatePool (86 * 2),
         Effect.IoCompleteRequest STATUS_SUCCESS] :=
  (C34_hardware_ids_buffer 0x5000 sampleHub sampleIrp
    (pnpRequest IRP_MN_QUERY_ID BusQueryHardwareIDs) sampleEnvironment rfl rfl (by decide)
    (by decide) (by decide) (by decide) (List.length_replicate 300 'x')).2.2.2.2.2.2

/-! ### C35 -/

/-- C35: on a Query-Id request, for every id type other than device-id and hardware-ids,
and for hardware-ids when the object has no hardware handle, `HandlePnp` returns success
and completes the request with it, its only event, leaving the request's information
field and the hub object unchanged and handing out no block; for device-id when the
object has no hardware handle it returns `STATUS_UNSUCCESSFUL` in the same way. -/
theorem C35_query_id_other_cases (This : PVOID) (o : CHubController) (Irp : IRP)
    (IoStack : PnpStackLocation) (env : PnpEnvironment)
    (hmin : IoStack.MinorFunction = IRP_MN_QUERY_ID) :
    (((IoStack.IdType ≠ BusQueryDeviceID ∧ IoStack.IdType ≠ BusQueryHardwareIDs) ∨
        (IoStack.IdType = BusQueryHardwareIDs ∧ o.m_Hardware = 0)) →
      (HandlePnp This o Irp IoStack env).Status = STATUS_SUCCESS ∧
      (HandlePnp This o Irp IoStack env).Irp
        = { IoStatus := { Status := STATUS_SUCCESS,
                          Information := Irp.IoStatus.Information } } ∧
      (HandlePnp This o Irp IoStack env).This = o ∧
      (HandlePnp This o Irp IoStack env).allocated = none ∧
      (HandlePnp This o Irp IoStack env).trace = [Effect.IoCompleteRequest STATUS_SUCCESS]) ∧
    ((IoStack.IdType = BusQueryDeviceID ∧ o.m_Hardware = 0) →
      (HandlePnp This o Irp IoStack env).Status = STATUS_UNSUCCESSFUL ∧
      (HandlePnp This o Irp IoStack env).Irp
        = { IoStatus := { Status := STATUS_UNSUCCESSFUL,
                          Information := Irp.IoStatus.Information } } ∧
      (HandlePnp This o Irp IoStack env).This = o ∧
      (HandlePnp This o Irp IoStack env).allocated = none ∧
      (HandlePnp This o Irp IoStack env).trace
        = [Effect.IoCompleteRequest STATUS_UNSUCCESSFUL]) := by
  have h1 : ¬ (IRP_MN_QUERY_ID = IRP_MN_START_DEVICE) := by decide
  have h2 : ¬ (BusQueryHardwareIDs = BusQueryDeviceID) := by decide
  refine ⟨fun h => ?_, fun h => ?_⟩
  · rcases h with ⟨hd, hh⟩ | ⟨hh, hw⟩
    · simp only [HandlePnp, hmin, h1, hd, hh, if_false, false_and, completeRequest]
      exact ⟨rfl, rfl, rfl, rfl, rfl⟩
    · simp only [HandlePnp, hmin, h1, h2, hh, hw, if_false, ne_eq, not_true_eq_false,
        and_false, completeRequest]
      exact ⟨rfl, rfl, rfl, rfl, rfl⟩
  · simp only [HandlePnp, hmin, h1, h.1, h.2, if_false, if_true, ne_eq, not_true_eq_false,
      completeRequest]
    refine ⟨?_, ?_, ?_, ?_, ?_⟩ <;> trivial

/-- The id type 3 (instance id) on the sample hub, and device-id on a hub without a
hardware handle. -/
theorem C35_query_id_other_cases_witness :
    (HandlePnp 0x5000 sampleHub sampleIrp (pnpRequest IRP_MN_QUERY_ID 3)
        sampleEnvironment).Status = STATUS_SUCCESS ∧
    (HandlePnp 0x5000 { sampleHub with m_Hardware := 0 } sampleIrp
        (pnpRequest IRP_MN_QUERY_ID BusQueryDeviceID) sampleEnvironment).Status
      = STATUS_UNSUCCESSFUL :=
  ⟨((C35_query_id_other_cases 0x5000 sampleHub sampleIrp (pnpRequest IRP_MN_QUERY_ID 3)
      sampleEnvironment rfl).1 (Or.inl (by decide))).1,
   ((C35_query_id_other_cases 0x5000 { sampleHub with m_Hardware := 0 } sampleIrp
      (pnpRequest IRP_MN_QUERY_ID BusQueryDeviceID) sampleEnvironment rfl).2
      ⟨rfl, rfl⟩).1⟩

/-! ### C36 -/

/-- C36: the get-root-hub-PDO and get-hub-count control requests return success and
complete with it for every combination of null and non-null output pointers, leaving the
hub object unchanged. Get-root-hub-PDO stores the device node the request was sent to
through its first output pointer if that is not null and then through its second if
that is not null, stores nothing else, and leaves the information field as it was;
get-hub-count stores 1 through its output pointer if that is not null, stores nothing
else, and sets the information field to 4 in either case. -/
theorem C36_roothub_pdo_and_hub_count (This : PVOID) (o : CHubController)
    (DeviceObject : PVOID) (Irp : IRP) (IoStack : DeviceControlStackLocation)
    (memory : Memory)
    (hcode : IoStack.IoControlCode = IOCTL_INTERNAL_USB_GET_ROOTHUB_PDO ∨
             IoStack.IoControlCode = IOCTL_INTERNAL_USB_GET_HUB_COUNT) :
    (HandleDeviceControl This o DeviceObject Irp IoStack memory).Status = STATUS_SUCCESS ∧
    (HandleDeviceControl This o DeviceObject Irp IoStack memory).Irp.IoStatus.Status
      = STATUS_SUCCESS ∧
    (HandleDeviceControl This o DeviceObject Irp IoStack memory).This = o ∧
    (IoStack.IoControlCode = IOCTL_INTERNAL_USB_GET_ROOTHUB_PDO →
      (HandleDeviceControl This o DeviceObject Irp IoStack memory).stores
        = (if IoStack.Argument1 ≠ 0 then [(IoStack.Argument1, DeviceObject)] else [])
          ++ (if IoStack.Argument2 ≠ 0 then [(IoStack.Argument2, DeviceObject)] else []) ∧
      (∀ a, (HandleDeviceControl This o DeviceObject Irp IoStack memory).Memory a
        = if (a = IoStack.Argument1 ∧ IoStack.Argument1 ≠ 0) ∨
             (a = IoStack.Argument2 ∧ IoStack.Argument2 ≠ 0) then DeviceObject
          else memory a) ∧
      (HandleDeviceControl This o DeviceObject Irp IoStack memory).Irp.IoStatus.Information
        = Irp.IoStatus.Information) ∧
    (IoStack.IoControlCode = IOCTL_INTERNAL_USB_GET_HUB_COUNT →
      (HandleDeviceControl This o DeviceObject Irp IoStack memory).stores
        = (if IoStack.Argument1 ≠ 0 then [(IoStack.Argument1, 1)] else []) ∧
      (∀ a, (HandleDeviceControl This o DeviceObject Irp IoStack memory).Memory a
        = if a = IoStack.Argument1 ∧ IoStack.Argument1 ≠ 0 then 1 else memory a) ∧
      (HandleDeviceControl This o DeviceObject Irp IoStack memory).Irp.IoStatus.Information
        = 4) := by
  have hne : ¬ (IOCTL_INTERNAL_USB_GET_ROOTHUB_PDO = IOCTL_INTERNAL_USB_GET_HUB_COUNT) := by
    decide
  have hne2 : ¬ (IOCTL_INTERNAL_USB_GET_HUB_COUNT = IOCTL_INTERNAL_USB_GET_ROOTHUB_PDO) := by
    decide
  rcases hcode with hc | hc
  · rw [HandleDeviceControl_get_roothub_pdo This o DeviceObject Irp IoStack memory hc]
    refine ⟨rfl, rfl, rfl, fun _ => ⟨?_, fun a => ?_, rfl⟩, fun h => ?_⟩
    · by_cases h1 : IoStack.Argument1 = 0 <;> by_cases h2 : IoStack.Argument2 = 0 <;>
        simp [completeControl, MemoryWriter.store, h1, h2]
    · by_cases h1 : IoStack.Argument1 = 0 <;> by_cases h2 : IoStack.Argument2 = 0 <;>
        by_cases a1 : a = IoStack.Argument1 <;> by_cases a2 : a = IoStack.Argument2 <;>
        simp_all [completeControl, MemoryWriter.store]
    · rw [hc] at h
      exact absurd h hne
  · rw [HandleDeviceControl_get_hub_count This o DeviceObject Irp IoStack memory hc]
    refine ⟨rfl, rfl, rfl, fun h => ?_, fun _ => ⟨?_, fun a => ?_, rfl⟩⟩
    · rw [hc] at h
      exact absurd h hne2
    · by_cases h1 : IoStack.Argument1 = 0 <;> simp [completeControl, MemoryWriter.store, h1]
    · by_cases h1 : IoStack.Argument1 = 0 <;> by_cases a1 : a = IoStack.Argument1 <;>
        simp_all [completeControl, MemoryWriter.store]

/-- Get-root-hub-PDO with a first pointer `0x9000` and a null second pointer, sent to the
node `0x2000`: one store, of `0x2000` at `0x9000`. -/
theorem C36_roothub_pdo_and_hub_count_witness :
    (HandleDeviceControl 0x5000 sampleHub 0x2000 sampleIrp
        { IoControlCode := IOCTL_INTERNAL_USB_GET_ROOTHUB_PDO, Argument1 := 0x9000,
          Argument2 := 0 } staleMemory).Status = STATUS_SUCCESS ∧
    (HandleDeviceControl 0x5000 sampleHub 0x2000 sampleIrp
        { IoControlCode := IOCTL_INTERNAL_USB_GET_ROOTHUB_PDO, Argument1 := 0x9000,
          Argument2 := 0 } staleMemory).stores = [(0x9000, 0x2000)] :=
  have h := C36_roothub_pdo_and_hub_count 0x5000 sampleHub 0x2000 sampleIrp
    { IoControlCode := IOCTL_INTERNAL_USB_GET_ROOTHUB_PDO, Argument1 := 0x9000,
      Argument2 := 0 } staleMemory (Or.inl rfl)
  ⟨h.1, (h.2.2.2.1 rfl).1⟩

/-! ### C37 -/

/-- C37: `Initialize` has returned with success, the factory handing out a non-null
handle whenever it succeeds, and from there any sequence of lifecycle events is handled
in which only the last event may be a Remove. Then in the state reached the interface-enabled
flag being true implies that the stored device node handle is not null, and the flag
after `Initialize` is the one the object had before. Every event other than Remove
leaves the stored handle as it was and leaves a set flag set; Remove stores null in the
handle and clears the flag. -/
theorem C37_ownership_invariant (This : PVOID) (o : CHubController)
    (DriverObject Controller Device : PVOID) (IsRootHubDevice : Bool) (DeviceAddress : Nat)
    (f : DeviceFactory) (fuel : Nat) (r : InitializeResult) (events : List PnpEvent)
    (hinit : Initialize This o DriverObject Controller Device IsRootHubDevice DeviceAddress
      f fuel = some r)
    (hok : r.Status = STATUS_SUCCESS)
    (hfactory : ∀ i name, NT_SUCCESS (f i name).Status = true → (f i name).DeviceObject ≠ 0)
    (hlast : ∀ e, e ∈ events.dropLast → e.IoStack.MinorFunction ≠ IRP_MN_REMOVE_DEVICE) :
    ((pnpRun This r.This events).m_InterfaceEnabled = true →
      (pnpRun This r.This events).m_HubControllerDeviceObject ≠ 0) ∧
    r.This.m_InterfaceEnabled = o.m_InterfaceEnabled ∧
    (∀ (s : CHubController) (e : PnpEvent),
      e.IoStack.MinorFunction ≠ IRP_MN_REMOVE_DEVICE →
      (pnpStep This s e).m_HubControllerDeviceObject = s.m_HubControllerDeviceObject ∧
      (s.m_InterfaceEnabled = true → (pnpStep This s e).m_InterfaceEnabled = true)) ∧
    (∀ (s : CHubController) (e : PnpEvent),
      e.IoStack.MinorFunction = IRP_MN_REMOVE_DEVICE →
      (pnpStep This s e).m_HubControllerDeviceObject = 0 ∧
      (pnpStep This s e).m_InterfaceEnabled = false) := by
  have hnode : r.This.m_HubControllerDeviceObject ≠ 0 := by
    obtain ⟨i, name, h1, h2⟩ := Initialize_success_handle This o DriverObject Controller Device
      IsRootHubDevice DeviceAddress f fuel r hinit hok
    rw [h2]
    exact hfactory i name h1
  refine ⟨fun hflag => ?_,
    Initialize_keeps_flag This o DriverObject Controller Device IsRootHubDevice DeviceAddress
      f fuel r hinit,
    fun s e he => HandlePnp_keeps_node This s e.Irp e.IoStack e.env he,
    fun s e he => ?_⟩
  · rcases List.eq_nil_or_concat events with hnil | ⟨init, last, hev⟩
    · subst hnil
      exact hnode
    · rw [List.concat_eq_append] at hev
      subst hev
      rw [List.dropLast_concat] at hlast
      by_cases hrem : last.IoStack.MinorFunction = IRP_MN_REMOVE_DEVICE
      · exfalso
        have hf : (pnpRun This r.This (init ++ [last])).m_InterfaceEnabled = false := by
          simp only [pnpRun, List.foldl_append, List.foldl_cons, List.foldl_nil, pnpStep]
          rw [HandlePnp_remove This _ last.Irp last.IoStack last.env hrem]
          exact SetDeviceInterface_disable_flag _ _
        rw [hf] at hflag
        exact Bool.noConfusion hflag
      · rw [pnpRun_keeps_node This (init ++ [last]) r.This]
        · exact hnode
        · intro e he
          rcases List.mem_append.mp he with h | h
          · exact hlast e h
          · rw [List.mem_singleton.mp h]
            exact hrem
  · simp only [pnpStep]
    rw [HandlePnp_remove This s e.Irp e.IoStack e.env he]
    exact ⟨rfl, SetDeviceInterface_disable_flag _ _⟩

/-- The object initialised through a factory whose first call gives the node `0x2000`,
then Start, Query-Capabilities and Stop: the flag is set and the handle is not null. -/
theorem C37_ownership_invariant_witness :
    (pnpRun 0x5000 initializedHub
        [sampleEvent IRP_MN_START_DEVICE, sampleEvent IRP_MN_QUERY_CAPABILITIES,
         sampleEvent IRP_MN_STOP_DEVICE]).m_InterfaceEnabled = true ∧
    (pnpRun 0x5000 initializedHub
        [sampleEvent IRP_MN_START_DEVICE, sampleEvent IRP_MN_QUERY_CAPABILITIES,
         sampleEvent IRP_MN_STOP_DEVICE]).m_HubControllerDeviceObject ≠ 0 :=
  ⟨by decide,
   (C37_ownership_invariant 0x5000 { zeroFilled with m_Ref := 1 } 0x1000 0x1100 0x1200 true 0
      readyFactory 1
      { Status := STATUS_SUCCESS, This := initializedHub,
        Device := some { Flags := 0x44,
                         DeviceExtension := { IsFDO := false, IsHub := true,
                                              Dispatcher := 0x5008 } },
        trace := [Effect.IoCreateDevice "\\Device\\USBPDO-0".toList] }
      [sampleEvent IRP_MN_START_DEVICE, sampleEvent IRP_MN_QUERY_CAPABILITIES,
       sampleEvent IRP_MN_STOP_DEVICE]
      (by decide) rfl (fun i name h => by
        by_cases hi : i < 0 <;> simp_all [readyFactory, scriptedFactory])
      (by decide)).1 (by decide)⟩

end UsbEhci
